import Mathlib

/-!
# Music-Widget: a shallow embedding of `music.mod.cpp`

The widget keeps all of its state in process-wide globals and reacts to window
messages.  Each global becomes a field of `Globals` (same name as in the
source), each message handler becomes a function on `Globals`, and every value
the operating system supplies to one handler call (the tick count, the answers
of the media session, the measured glyph height) is an explicit argument.

Conventions of the embedding:

* `int` values are `Int`; the panel offsets stay inside `[-(width-20), 0]`, so
  no 32-bit overflow is involved.  `ULONGLONG` tick counts are `Nat` below
  `2^64` and are subtracted modulo `2^64` (`usub64`).
* `double` and `float` values are rationals, with the IEEE special values
  added where they can arise (`Flt`: a division by a zero bar width produces
  them and the comparisons of the source treat them specially).  In the
  progress fraction and the filled width of `DrawMediaPanel`, in the seek-thumb
  position of `WM_LBUTTONDOWN` and in the seek of `WM_LBUTTONUP` every operation
  rounds to its type as the hardware does: `round32` for `float`, `round64` for
  `double`, round to nearest, ties to even.  The vertical position of the bar
  (computed from the measured glyph height) and the values that stay
  floating-point (the bold level, the stored drag ratio, the smoothed position)
  are computed exactly.
* A call that may raise (WinRT calls into the media session) returns an
  `Outcome`; `try`/`catch` blocks become matches on it.
* `InvalidateRect`, `SetCursor`, `TrackMouseEvent` and the debug output are not
  modelled; `SetTimer`/`KillTimer` set the three timer fields, and
  `SetCapture`/`ReleaseCapture` the `capture` field.
-/

namespace MusicWidget

/-! ## Numbers -/

/-- Subtraction of two `ULONGLONG` values, as `now - start` in the source. -/
def usub64 (a b : Nat) : Nat := (a % 2 ^ 64 + 2 ^ 64 - b % 2 ^ 64) % 2 ^ 64

/-- The C++ conversion `(int)v` of a finite value: truncation toward zero. -/
def truncQ (q : ℚ) : Int := if 0 ≤ q then ⌊q⌋ else ⌈q⌉

/-- A `float`/`double` value: a finite number or one of the IEEE special values. -/
inductive Flt where
  | fin (q : ℚ)
  | pinf
  | ninf
  | nan
  deriving DecidableEq

namespace Flt

/-- IEEE division `a / b` of two finite values. -/
def div (a b : ℚ) : Flt :=
  if b = 0 then (if 0 < a then pinf else if a < 0 then ninf else nan) else fin (a / b)

/-- The comparison `x < c`; false when `x` is NaN. -/
def ltQ (x : Flt) (c : ℚ) : Bool :=
  match x with
  | fin q => decide (q < c)
  | ninf => true
  | _ => false

/-- The comparison `x > c`; false when `x` is NaN. -/
def gtQ (x : Flt) (c : ℚ) : Bool :=
  match x with
  | fin q => decide (c < q)
  | pinf => true
  | _ => false

/-- The test `isnan(x)`. -/
def isnan (x : Flt) : Bool :=
  match x with
  | nan => true
  | _ => false

/-- IEEE multiplication `x * y`, before rounding. -/
def mul (x y : Flt) : Flt :=
  match x, y with
  | fin a, fin b => fin (a * b)
  | nan, _ => nan
  | _, nan => nan
  | pinf, fin b => if 0 < b then pinf else if b < 0 then ninf else nan
  | ninf, fin b => if 0 < b then ninf else if b < 0 then pinf else nan
  | fin a, pinf => if 0 < a then pinf else if a < 0 then ninf else nan
  | fin a, ninf => if 0 < a then ninf else if a < 0 then pinf else nan
  | pinf, pinf => pinf
  | ninf, ninf => pinf
  | pinf, ninf => ninf
  | ninf, pinf => ninf

/-- Membership of the closed unit interval; NaN and the infinities are outside. -/
def inUnit (x : Flt) : Prop :=
  match x with
  | fin q => 0 ≤ q ∧ q ≤ 1
  | _ => False

end Flt

/-- Rounding of a rational to the nearest integer, a tie going to the even one. -/
def roundHalfEven (q : ℚ) : Int :=
  if q - ⌊q⌋ < 1 / 2 then ⌊q⌋
  else if 1 / 2 < q - ⌊q⌋ then ⌊q⌋ + 1
  else if ⌊q⌋ % 2 = 0 then ⌊q⌋ else ⌊q⌋ + 1

/-- The exponent of the unit in the last place of `q` in a binary format with
`prec` bits of precision and least normal exponent `emin`. -/
def ulpExp (prec : Nat) (emin : Int) (q : ℚ) : Int :=
  max (Int.log 2 |q|) emin - ((prec : Int) - 1)

/-- Rounding of a rational to a binary floating-point format with `prec` bits of
precision and least normal exponent `emin`: round to nearest, ties to even,
with gradual underflow.  The exponent is not bounded above: the values rounded
by the handlers are a quotient that is clamped to `[0, 1]` right after, a
product bounded by the bar width, and products whose conversion to `LONGLONG`
is range-checked, so an overflow to infinity would change no result. -/
def roundTo (prec : Nat) (emin : Int) (q : ℚ) : ℚ :=
  if q = 0 then 0
  else (roundHalfEven (q / (2 : ℚ) ^ ulpExp prec emin q) : ℚ) * (2 : ℚ) ^ ulpExp prec emin q

/-- Rounding to `float` (IEEE binary32); also the conversion `(float)n` of an `int`. -/
def round32 (q : ℚ) : ℚ := roundTo 24 (-126) q

/-- Rounding to `double` (IEEE binary64). -/
def round64 (q : ℚ) : ℚ := roundTo 53 (-1022) q

/-- The result of a `float` operation: the exact result rounded to binary32. -/
def Flt.round32 (x : Flt) : Flt :=
  match x with
  | Flt.fin q => Flt.fin (MusicWidget.round32 q)
  | other => other

/-- The result of a `double` operation: the exact result rounded to binary64. -/
def Flt.round64 (x : Flt) : Flt :=
  match x with
  | Flt.fin q => Flt.fin (MusicWidget.round64 q)
  | other => other

/-- The clamp of `rel` in `WM_MOUSEMOVE` and `WM_LBUTTONDOWN`:
`if (rel < 0.0f) rel = 0.0f; if (rel > 1.0f) rel = 1.0f;`. -/
def clampRel (rel : Flt) : Flt :=
  let rel := if rel.ltQ 0 then Flt.fin 0 else rel
  if rel.gtQ 1 then Flt.fin 1 else rel

/-- The clamp of `progress` in `WM_LBUTTONDOWN` and `DrawMediaPanel`:
`if (progress < 0.0f || isnan(progress)) progress = 0.0f; if (progress > 1.0f) progress = 1.0f;`.
The result is always finite, so it is returned as a rational. -/
def clampProgress (progress : Flt) : ℚ :=
  let progress := if progress.ltQ 0 || progress.isnan then Flt.fin 0 else progress
  let progress := if progress.gtQ 1 then Flt.fin 1 else progress
  match progress with
  | Flt.fin q => q
  | _ => 0

/-- The conversion `(LONGLONG)v`: defined only for a finite value whose
truncation fits 64 bits. -/
def castLL (v : Flt) : Option Int :=
  match v with
  | Flt.fin q =>
    if -(2 : Int) ^ 63 ≤ truncQ q ∧ truncQ q < (2 : Int) ^ 63 then some (truncQ q) else none
  | _ => none

/-! ## Data model -/

/-- A decoded GDI+ bitmap; only its identity matters here. -/
structure Bitmap where
  id : Nat
  deriving DecidableEq

/-- The struct `ModSettings` (text colour and opacity are not used by the handlers). -/
structure ModSettings where
  width : Int := 400
  height : Int := 100
  fontSize : Int := 14
  offsetX : Int := 100
  offsetY : Int := 100
  deriving DecidableEq

/-- The struct `MediaState` without its mutex. -/
structure MediaState where
  title : String := "Waiting for media..."
  artist : String := ""
  isPlaying : Bool := false
  hasMedia : Bool := false
  albumArt : Option Bitmap := none
  isSpotify : Bool := false
  position : ℚ := 0
  duration : ℚ := 0
  smoothPosition : ℚ := 0
  lastUpdateTick : Nat := 0
  deriving DecidableEq

/-- All globals of the module, with their initial values, and the window's
timers and pointer capture. -/
structure Globals where
  g_Settings : ModSettings := {}
  g_HoverState : Int := 0
  g_PanelOpen : Bool := true
  g_PanelOffsetX : Int := 0
  g_PanelTargetOffsetX : Int := 0
  g_HoverTimerStart : Nat := 0
  g_HoverTabZone : Bool := false
  g_HoverBoldLevel : ℚ := 0
  g_HoverLastLeftTime : Nat := 0
  g_MediaState : MediaState := {}
  g_ScrollOffset : Int := 0
  g_TextWidth : Int := 0
  g_IsScrolling : Bool := false
  g_ScrollWait : Int := 60
  g_TimelineHover : Bool := false
  g_TimelineDragging : Bool := false
  g_TimelineDragProgress : Flt := Flt.fin 0
  g_SessionManager : Bool := false
  timerPoll : Option Nat := some 1000
  timerAnimation : Option Nat := none
  timerHover : Option Nat := none
  capture : Bool := false
  windowX : Int := 0
  deriving DecidableEq

/-! ## The media session as seen by the widget -/

/-- Result of a call that may raise. -/
inductive Outcome (α : Type) where
  | ok (a : α)
  | raised
  deriving DecidableEq

/-- The enum `GlobalSystemMediaTransportControlsSessionPlaybackStatus`. -/
inductive PlaybackStatus where
  | Closed | Opened | Changing | Stopped | Playing | Paused
  deriving DecidableEq

/-- What `StreamToBitmap` observes of the thumbnail stream, in the order it looks. -/
structure ThumbStream where
  present : Bool
  wrapOk : Bool
  nativePresent : Bool
  decoded : Option Bitmap
  statusOk : Bool
  deriving DecidableEq

/-- A thumbnail reference: `OpenReadAsync().get()` raises or yields a stream. -/
structure ThumbRef where
  openRead : Outcome ThumbStream
  deriving DecidableEq

/-- The media properties of a session: `Title()`, `Artist()`, `Thumbnail()`. -/
structure MediaProps where
  title : String
  artist : String
  thumbnail : Outcome (Option ThumbRef)
  deriving DecidableEq

/-- Timeline properties, in 100 ns units (`Position().count()`, `EndTime().count()`). -/
structure Timeline where
  position : Int
  endTime : Int
  deriving DecidableEq

/-- A session: the answer of each call the widget makes on it. -/
structure Session where
  mediaProperties : Outcome MediaProps
  playbackStatus : Outcome PlaybackStatus
  sourceAppUserModelId : Outcome String
  timelineProperties : Outcome Timeline
  changePosition : Outcome Bool
  deriving DecidableEq

/-- The session manager for the duration of one handler call:
`RequestAsync().get()` (is the manager non-null) and `GetCurrentSession()`. -/
structure Bridge where
  requestManager : Outcome Bool
  currentSession : Outcome (Option Session)
  deriving DecidableEq

/-- Calls observable from outside `UpdateMediaInfo`, in program order. -/
inductive Ev where
  | requestManager | getCurrentSession | getMediaProperties | getPlaybackInfo
  | lockAcquire | lockRelease
  | freeArt | getThumbnail | openThumbnail | decodeThumbnail
  | getSourceId | getTimeline
  deriving DecidableEq

/-- Commands sent to the session. -/
inductive Cmd where
  | skipPrevious | togglePlayPause | skipNext
  | seek (ticks : Int)
  deriving DecidableEq

/-! ## `StreamToBitmap` and `UpdateMediaInfo` -/

/-- The function `StreamToBitmap`: every failure path returns null. -/
def StreamToBitmap (stream : ThumbStream) : Option Bitmap :=
  if !stream.present then none
  else if !stream.wrapOk then none
  else if !stream.nativePresent then none
  else
    match stream.decoded with
    | none => none
    | some bmp => if !stream.statusOk then none else some bmp

/-- Does the pattern start the text. -/
def startsWith : List Char → List Char → Bool
  | _, [] => true
  | [], _ :: _ => false
  | c :: cs, p :: ps => c == p && startsWith cs ps

/-- The test `wcsstr(text, pat) != nullptr`. -/
def wcsstr (text pat : List Char) : Bool :=
  match text with
  | [] => startsWith [] pat
  | c :: cs => startsWith (c :: cs) pat || wcsstr cs pat

/-- The inner `try` block of the album-art update (source lines 293-314): the
new bitmap, or null on any failure, and the calls made. -/
def loadThumbnail (props : MediaProps) : Option Bitmap × List Ev :=
  match props.thumbnail with
  | Outcome.raised => (none, [Ev.getThumbnail])
  | Outcome.ok none => (none, [Ev.getThumbnail])
  | Outcome.ok (some thumbRef) =>
    match thumbRef.openRead with
    | Outcome.raised => (none, [Ev.getThumbnail, Ev.openThumbnail])
    | Outcome.ok stream =>
      (StreamToBitmap stream, [Ev.getThumbnail, Ev.openThumbnail, Ev.decodeThumbnail])

/-- The condition `shouldUpdateArt` (source lines 283-285). -/
def shouldUpdateArt (newTitle newArtist : String) (st : MediaState) : Bool :=
  (newTitle != st.title) || (newArtist != st.artist) || st.albumArt.isNone

/-- The album-art update (source lines 287-315). -/
def updateArt (props : MediaProps) (st : MediaState) : MediaState × List Ev :=
  if shouldUpdateArt props.title props.artist st then
    let freed : List Ev := if st.albumArt.isSome then [Ev.freeArt] else []
    let st := { st with albumArt := none }
    let r := loadThumbnail props
    match r.1 with
    | some newArt => ({ st with albumArt := some newArt }, freed ++ r.2)
    | none => (st, freed ++ r.2)
  else (st, [])

/-- The timeline update (source lines 323-360), entered with `isSpotify`,
`position` and `duration` already reset; an exception inside leaves the block. -/
def updateTimeline (now : Nat) (session : Session) (status : PlaybackStatus)
    (st : MediaState) : MediaState × List Ev :=
  match session.sourceAppUserModelId with
  | Outcome.raised => (st, [Ev.getSourceId])
  | Outcome.ok source =>
    if wcsstr source.toList "Spotify".toList then
      let st := { st with isSpotify := true }
      match session.timelineProperties with
      | Outcome.raised => (st, [Ev.getSourceId, Ev.getTimeline])
      | Outcome.ok timeline =>
        let st := { st with position := (timeline.position : ℚ) / 10000000,
                            duration := (timeline.endTime : ℚ) / 10000000 }
        let st :=
          if (0 : ℚ) < st.duration then
            let st :=
              if status ≠ PlaybackStatus.Playing then
                { st with smoothPosition := st.position }
              else if (2 : ℚ) < abs (st.smoothPosition - st.position) then
                { st with smoothPosition := st.position }
              else st
            { st with lastUpdateTick := now }
          else { st with smoothPosition := 0, lastUpdateTick := 0 }
        (st, [Ev.getSourceId, Ev.getTimeline])
    else (st, [Ev.getSourceId])

/-- The locked block of the session branch (source lines 278-363). -/
def refreshSession (now : Nat) (session : Session) (props : MediaProps)
    (status : PlaybackStatus) (st : MediaState) : MediaState × List Ev :=
  let a := updateArt props st
  let st := { a.1 with title := props.title, artist := props.artist,
                       isPlaying := decide (status = PlaybackStatus.Playing),
                       hasMedia := true,
                       isSpotify := false, position := 0, duration := 0 }
  let t := updateTimeline now session status st
  (t.1, [Ev.lockAcquire] ++ a.2 ++ t.2 ++ [Ev.lockRelease])

/-- The no-session branch (source lines 365-372). -/
def refreshNoSession (st : MediaState) : MediaState × List Ev :=
  ({ st with hasMedia := false, title := "No Media", artist := "", albumArt := none,
             isSpotify := false, position := 0, duration := 0 },
   [Ev.lockAcquire] ++ (if st.albumArt.isSome then [Ev.freeArt] else []) ++ [Ev.lockRelease])

/-- The catch-all branch (source lines 374-380). -/
def refreshCatch (st : MediaState) : MediaState × List Ev :=
  ({ st with hasMedia := false, isSpotify := false, position := 0, duration := 0 },
   [Ev.lockAcquire, Ev.lockRelease])

/-- The function `UpdateMediaInfo`: the globals after the refresh and the calls
it made.  `now` is what `GetTickCount64()` returns during the refresh. -/
def UpdateMediaInfo (now : Nat) (br : Bridge) (g : Globals) : Globals × List Ev :=
  let onCatch (g : Globals) (tr : List Ev) : Globals × List Ev :=
    let c := refreshCatch g.g_MediaState
    ({ g with g_MediaState := c.1 }, tr ++ c.2)
  let req : Outcome Bool × List Ev :=
    if g.g_SessionManager then (Outcome.ok true, []) else (br.requestManager, [Ev.requestManager])
  match req.1 with
  | Outcome.raised => onCatch g req.2
  | Outcome.ok manager =>
    let g := { g with g_SessionManager := manager }
    if !manager then (g, req.2)
    else
      match br.currentSession with
      | Outcome.raised => onCatch g (req.2 ++ [Ev.getCurrentSession])
      | Outcome.ok none =>
        let n := refreshNoSession g.g_MediaState
        ({ g with g_MediaState := n.1 }, req.2 ++ [Ev.getCurrentSession] ++ n.2)
      | Outcome.ok (some session) =>
        match session.mediaProperties with
        | Outcome.raised =>
          onCatch g (req.2 ++ [Ev.getCurrentSession, Ev.getMediaProperties])
        | Outcome.ok props =>
          match session.playbackStatus with
          | Outcome.raised =>
            onCatch g (req.2 ++ [Ev.getCurrentSession, Ev.getMediaProperties, Ev.getPlaybackInfo])
          | Outcome.ok status =>
            let r := refreshSession now session props status g.g_MediaState
            ({ g with g_MediaState := r.1 },
             req.2 ++ [Ev.getCurrentSession, Ev.getMediaProperties, Ev.getPlaybackInfo] ++ r.2)

/-! ## Geometry and painting -/

/-- The struct `TimelineGeometry`. -/
structure TimelineGeometry where
  barX : Int
  barY : Int
  barW : Int
  barH : Int
  deriving DecidableEq

/-- The function `CalcTimelineGeometry`.  The font is only used to measure the
height of the glyph "A"; that height, `glyphH`, stands in for `fontSize`. -/
def CalcTimelineGeometry (startControlX panelHeight panelWidth : Int) (glyphH : ℚ) :
    TimelineGeometry :=
  let nX := startControlX + 56
  let textX := nX + 20
  let textMaxW := panelWidth - textX - 10
  let timelineHeight : ℚ := 10
  let textY : ℚ := ((panelHeight : ℚ) - glyphH - timelineHeight) / 2
  let barPadding : ℚ := 4
  let barY := truncQ (textY + glyphH + barPadding) - 2
  let barHeight := 7
  { barX := textX, barY := barY, barW := textMaxW, barH := barHeight }

/-- The fraction `drawProgress` of `DrawMediaPanel` (source lines 605 and
618-621): what the bar shows, or nothing when no bar is drawn. -/
def drawProgress (g : Globals) : Option Flt :=
  if g.g_MediaState.isSpotify && decide ((0 : ℚ) < g.g_MediaState.duration) then
    let progress :=
      clampProgress (Flt.div g.g_MediaState.position g.g_MediaState.duration).round64.round32
    some (if g.g_TimelineDragging then g.g_TimelineDragProgress else Flt.fin progress)
  else none

/-! ## `DrawMediaPanel`: the progress bar and the scroll state -/

/-- The conversion `(int)v` of a `float`: defined only for a finite value.  The
values converted by `DrawMediaPanel` are bounded by the bar width, so the
32-bit range is not at issue. -/
def castInt (v : Flt) : Option Int :=
  match v with
  | Flt.fin q => some (truncQ q)
  | _ => none

/-- What `DrawMediaPanel` draws of the progress bar (source lines 610-671): the
bar rectangle, the fraction shown, the width of the filled part, and the
seek-thumb (centre x, centre y, radius) when it is drawn. -/
structure ProgressBarDraw where
  barX : Int
  barY : Int
  barW : Int
  barHeight : Int
  drawProgress : Flt
  progW : Int
  thumb : Option (Int × Int × Int)
  deriving DecidableEq

/-- The progress-bar part of a paint: no bar, a bar, or an undefined
conversion of a non-finite fraction to `int`. -/
inductive BarResult where
  | notDrawn
  | drawn (bar : ProgressBarDraw)
  | undefinedCast
  deriving DecidableEq

/-- The function `DrawMediaPanel` on a client area `width` by `height`: the
globals it updates (`g_TextWidth`, `g_IsScrolling`, `g_ScrollOffset`) and the
progress bar it draws.  `textW` and `textH` are the measured width (already
converted to `int`) and height of the text; the other primitives are not
modelled.  The fraction is `(float)(state.position / state.duration)`, a
`double` quotient converted to `float`, and the filled width is
`(int)(barW * drawProgress)`, a `float` product. -/
def DrawMediaPanel (width height : Int) (textW : Int) (textH : ℚ) (g : Globals) :
    Globals × BarResult :=
  let state := g.g_MediaState
  let separatorX := width - 20
  let artSize := height - 12
  let artX : Int := 6
  let startControlX := artX + artSize + 12
  let nX := startControlX + 56
  let contentMaxX := separatorX - 10
  let textX := nX + 20
  let textMaxW := contentMaxX - textX
  let textMaxW := if textMaxW < 50 then 50 else textMaxW
  let timelineHeight : ℚ :=
    if state.isSpotify && decide ((0 : ℚ) < state.duration) then 10 else 0
  let textY : ℚ := ((height : ℚ) - textH - timelineHeight) / 2
  let painted : Globals :=
    if textW > textMaxW then { g with g_TextWidth := textW, g_IsScrolling := true }
    else { g with g_TextWidth := textW, g_IsScrolling := false, g_ScrollOffset := 0 }
  let bar : BarResult :=
    if state.isSpotify && decide ((0 : ℚ) < state.duration) then
      let barHeight : Int := if g.g_TimelineHover || g.g_TimelineDragging then 8 else 5
      let barPadding : ℚ := 4
      let barX := textX
      let barW := textMaxW
      let barY := truncQ (textY + textH + barPadding)
      let progress := clampProgress (Flt.div state.position state.duration).round64.round32
      let drawProgress :=
        if g.g_TimelineDragging then g.g_TimelineDragProgress else Flt.fin progress
      match castInt (Flt.mul (Flt.fin (round32 (barW : ℚ))) drawProgress).round32 with
      | none => BarResult.undefinedCast
      | some progW =>
        let showThumb := g.g_TimelineHover || g.g_TimelineDragging
        let cx := barX + progW
        let cy := barY + Int.tdiv barHeight 2
        let thumbRadius := Int.tdiv barHeight 2 + 2
        BarResult.drawn
          { barX := barX, barY := barY, barW := barW, barHeight := barHeight,
            drawProgress := drawProgress, progW := progW,
            thumb := if showThumb then some (cx, cy, thumbRadius) else none }
    else BarResult.notDrawn
  (painted, bar)

/-! ## Timer handlers (`WM_TIMER`) -/

/-- The branch `IDT_POLL_MEDIA` (source lines 712-724). -/
def onPollTimer (now : Nat) (br : Bridge) (g : Globals) : Globals × List Ev :=
  let r := UpdateMediaInfo now br g
  let timerInterval : Nat := if r.1.g_MediaState.isSpotify then 16 else 1000
  ({ r.1 with timerPoll := some timerInterval }, r.2)

/-- The branch `IDT_HOVER_TIMER` (source lines 725-772); `now` is the value of
`GetTickCount64()`. -/
def onHoverTimer (now : Nat) (g : Globals) : Globals :=
  if g.g_HoverTabZone then
    let elapsed := usub64 now g.g_HoverTimerStart
    let boldTarget : ℚ := (elapsed : ℚ) / 3000
    let boldTarget : ℚ := if (1 : ℚ) < boldTarget then 1 else boldTarget
    let g := { g with g_HoverBoldLevel := boldTarget }
    if elapsed ≥ 3000 then
      let slideAmount := g.g_Settings.width - 20
      let g :=
        if g.g_PanelOpen then
          { g with g_PanelTargetOffsetX := -slideAmount, g_PanelOpen := false }
        else
          { g with g_PanelTargetOffsetX := 0, g_PanelOpen := true }
      { g with timerHover := none, g_HoverTabZone := false, g_HoverBoldLevel := 0,
               timerAnimation := some 16 }
    else g
  else
    if usub64 now g.g_HoverLastLeftTime < 500 then
      let bold : ℚ := g.g_HoverBoldLevel - 1 / 20
      { g with g_HoverBoldLevel := if bold < (0 : ℚ) then 0 else bold }
    else
      { g with timerHover := none, g_HoverBoldLevel := 0 }

/-- The text-scroll part of the branch `IDT_ANIMATION` (source lines 776-786). -/
def scrollStep (g : Globals) : Globals :=
  if g.g_IsScrolling then
    if g.g_ScrollWait > 0 then
      { g with g_ScrollWait := g.g_ScrollWait - 1 }
    else
      let g := { g with g_ScrollOffset := g.g_ScrollOffset + 1 }
      if g.g_ScrollOffset > g.g_TextWidth + 40 then
        { g with g_ScrollOffset := 0, g_ScrollWait := 60 }
      else g
  else g

/-- The panel-slide part of the branch `IDT_ANIMATION` (source lines 789-805). -/
def slideStep (g : Globals) : Globals :=
  if g.g_PanelOffsetX ≠ g.g_PanelTargetOffsetX then
    let diff := g.g_PanelTargetOffsetX - g.g_PanelOffsetX
    let step : Int := if diff > 0 then 15 else -15
    let g :=
      if |diff| ≤ 15 then
        { g with g_PanelOffsetX := g.g_PanelTargetOffsetX }
      else
        { g with g_PanelOffsetX := g.g_PanelOffsetX + step }
    { g with windowX := g.g_Settings.offsetX + g.g_PanelOffsetX }
  else g

/-- The branch `IDT_ANIMATION` (source lines 773-811). -/
def onAnimationTimer (g : Globals) : Globals :=
  if g.g_IsScrolling || decide (g.g_PanelOffsetX ≠ g.g_PanelTargetOffsetX) then
    slideStep (scrollStep g)
  else
    { g with timerAnimation := none }

/-! ## Pointer handlers -/

/-- The reveal-zone test `hoveredTabZone` of `WM_MOUSEMOVE` (source lines 823-825). -/
def hoveredTabZone (x y : Int) (g : Globals) : Bool :=
  let separatorX := g.g_Settings.width - 20
  let tabZoneLeft := separatorX - 5
  decide (x ≥ tabZoneLeft) && decide (y ≥ 6) && decide (y ≤ g.g_Settings.height - 6)

/-- The hover-timer bookkeeping of `WM_MOUSEMOVE` (source lines 828-855). -/
def tabZoneStep (now : Nat) (x y : Int) (g : Globals) : Globals :=
  if hoveredTabZone x y g then
    if !g.g_HoverTabZone then
      let start : Nat :=
        if decide (g.g_HoverLastLeftTime > 0) && decide (usub64 now g.g_HoverLastLeftTime < 500) then
          let timeSincePreviousStart := usub64 now g.g_HoverTimerStart
          if timeSincePreviousStart > 3000 then now else g.g_HoverTimerStart
        else now
      { g with g_HoverTimerStart := start, g_HoverTabZone := true, g_HoverLastLeftTime := 0,
               timerHover := some 50 }
    else g
  else
    if g.g_HoverTabZone then
      { g with g_HoverTabZone := false, g_HoverLastLeftTime := now }
    else g

/-- The test `onTimeline` of `WM_MOUSEMOVE` (source lines 867-873). -/
def onTimeline (tl : TimelineGeometry) (x y : Int) (g : Globals) : Bool :=
  if g.g_MediaState.isSpotify && decide ((0 : ℚ) < g.g_MediaState.duration) then
    let separatorX := g.g_Settings.width - 20
    let rightBoundary := separatorX - 15
    decide (y ≥ tl.barY - 4) && decide (y ≤ tl.barY + tl.barH + 8) && decide (x ≥ tl.barX)
      && decide (x ≤ tl.barX + tl.barW) && decide (x < rightBoundary)
  else false

/-- The transport-control hit test of `WM_MOUSEMOVE` (source lines 890-894). -/
def controlAt (startControlX : Int) (x y : Int) (g : Globals) : Int :=
  if y > 10 ∧ y < g.g_Settings.height - 10 then
    if x ≥ startControlX - 10 ∧ x < startControlX + 14 then 1
    else if x ≥ startControlX + 14 ∧ x < startControlX + 42 then 2
    else if x ≥ startControlX + 42 ∧ x < startControlX + 66 then 3
    else 0
  else 0

/-- The handler of `WM_MOUSEMOVE` (source lines 814-908) at `x = LOWORD(lParam)`,
`y = HIWORD(lParam)`. -/
def onMouseMove (now : Nat) (glyphH : ℚ) (x y : Int) (g : Globals) : Globals :=
  let artSize := g.g_Settings.height - 12
  let startControlX := 6 + artSize + 12
  let g := tabZoneStep now x y g
  let tlGeom := CalcTimelineGeometry startControlX g.g_Settings.height g.g_Settings.width glyphH
  if g.g_TimelineDragging then
    let rel := Flt.div ((x - tlGeom.barX : Int) : ℚ) (tlGeom.barW : ℚ)
    { g with g_TimelineDragProgress := clampRel rel }
  else if onTimeline tlGeom x y g then
    { g with g_TimelineHover := true }
  else
    { g with g_TimelineHover := false, g_HoverState := controlAt startControlX x y g }

/-- The handler of `WM_MOUSELEAVE` (source lines 909-925). -/
def onMouseLeave (now : Nat) (g : Globals) : Globals :=
  let timerInterval : Nat := if g.g_MediaState.isSpotify then 16 else 1000
  { g with g_HoverState := 0, g_TimelineHover := false, g_HoverTabZone := false,
           g_HoverLastLeftTime := now,
           g_TimelineDragProgress :=
             if !g.g_TimelineDragging then Flt.fin 0 else g.g_TimelineDragProgress,
           timerPoll := some timerInterval }

/-- The handler of `WM_LBUTTONDOWN` (source lines 926-970); `progress` and the
thumb centre `cx` are computed in `float` as in `DrawMediaPanel`. -/
def onLButtonDown (glyphH : ℚ) (x y : Int) (g : Globals) : Globals :=
  if g.g_MediaState.isSpotify && decide ((0 : ℚ) < g.g_MediaState.duration) then
    let artSize := g.g_Settings.height - 12
    let startControlX := 6 + artSize + 12
    let tlGeom := CalcTimelineGeometry startControlX g.g_Settings.height g.g_Settings.width glyphH
    let circleRadius : Int := 8
    let progress :=
      clampProgress (Flt.div g.g_MediaState.position g.g_MediaState.duration).round64.round32
    let cx := tlGeom.barX + truncQ (round32 (round32 (tlGeom.barW : ℚ) * progress))
    let cy := tlGeom.barY + Int.tdiv tlGeom.barH 2
    let dx := x - cx
    let dy := y - cy
    if dx * dx + dy * dy ≤ circleRadius * circleRadius * 2 then
      { g with g_TimelineDragging := true, g_TimelineDragProgress := Flt.fin progress,
               capture := true }
    else if y ≥ tlGeom.barY - 4 ∧ y ≤ tlGeom.barY + tlGeom.barH + 8 ∧ x ≥ tlGeom.barX
        ∧ x ≤ tlGeom.barX + tlGeom.barW then
      let rel := Flt.div ((x - tlGeom.barX : Int) : ℚ) (tlGeom.barW : ℚ)
      { g with g_TimelineDragging := true, g_TimelineDragProgress := clampRel rel,
               capture := true }
    else g
  else g

/-- The function `SendMediaCommand`: the command it sends, if any. -/
def SendMediaCommand (cmd : Int) (br : Bridge) (g : Globals) : List Cmd :=
  if !g.g_SessionManager then []
  else
    match br.currentSession with
    | Outcome.raised => []
    | Outcome.ok none => []
    | Outcome.ok (some _) =>
      if cmd = 1 then [Cmd.skipPrevious]
      else if cmd = 2 then [Cmd.togglePlayPause]
      else if cmd = 3 then [Cmd.skipNext]
      else []

/-- The seek of `WM_LBUTTONUP` (source lines 975-991): the media state after it
and the commands sent; `none` when the conversion to `LONGLONG` is undefined.
`newTime` is the `double` product of the `float` drag progress and the
duration, and the tick count is `(LONGLONG)(newTime * 10000000)`, again a
`double` product. -/
def seekOnRelease (br : Bridge) (g : Globals) : Option (MediaState × List Cmd) :=
  let newTime := (Flt.mul g.g_TimelineDragProgress (Flt.fin g.g_MediaState.duration)).round64
  if g.g_SessionManager then
    match br.currentSession with
    | Outcome.raised => some (g.g_MediaState, [])
    | Outcome.ok none => some (g.g_MediaState, [])
    | Outcome.ok (some session) =>
      match session.timelineProperties with
      | Outcome.raised => some (g.g_MediaState, [])
      | Outcome.ok _ =>
        match session.playbackStatus with
        | Outcome.raised => some (g.g_MediaState, [])
        | Outcome.ok status =>
          match newTime, castLL (Flt.mul newTime (Flt.fin 10000000)).round64 with
          | Flt.fin t, some ticks =>
            match session.changePosition with
            | Outcome.raised => some (g.g_MediaState, [Cmd.seek ticks])
            | Outcome.ok _ =>
              if status ≠ PlaybackStatus.Playing then
                some ({ g.g_MediaState with position := t }, [Cmd.seek ticks])
              else some (g.g_MediaState, [Cmd.seek ticks])
          | _, _ => none
  else some (g.g_MediaState, [])

/-- The handler of `WM_LBUTTONUP` (source lines 971-1000). -/
def onLButtonUp (br : Bridge) (g : Globals) : Option (Globals × List Cmd) :=
  if g.g_TimelineDragging then
    if g.g_MediaState.isSpotify && decide ((0 : ℚ) < g.g_MediaState.duration) then
      match seekOnRelease br g with
      | none => none
      | some r =>
        some ({ g with g_MediaState := r.1, g_TimelineDragging := false, capture := false }, r.2)
    else
      some ({ g with g_TimelineDragging := false, capture := false }, [])
  else if g.g_HoverState > 0 then
    some (g, SendMediaCommand g.g_HoverState br g)
  else some (g, [])

/-! ## Vocabulary of the statements -/

/-- The refresh finds an active session: a session manager is at hand, it
reports `session`, and the session answers with `props` and `status`. -/
def FindsSession (br : Bridge) (g : Globals) (session : Session) (props : MediaProps)
    (status : PlaybackStatus) : Prop :=
  (g.g_SessionManager = true ∨ br.requestManager = Outcome.ok true)
    ∧ br.currentSession = Outcome.ok (some session)
    ∧ session.mediaProperties = Outcome.ok props
    ∧ session.playbackStatus = Outcome.ok status

/-- The refresh attempted to reload the album art: it asked for the thumbnail. -/
def AttemptsArtReload (tr : List Ev) : Prop := Ev.getThumbnail ∈ tr

/-- How many ticks of a run of hover-timer ticks flipped `g_PanelOpen`; the
list gives the tick count read by each tick. -/
def countToggles : List Nat → Globals → Nat
  | [], _ => 0
  | now :: rest, g =>
    (if (onHoverTimer now g).g_PanelOpen ≠ g.g_PanelOpen then 1 else 0)
      + countToggles rest (onHoverTimer now g)

/-- What can happen while the pointer is away from the reveal zone: a pointer
move, the pointer leaving the window, a hover-timer tick; each with the tick
count it would read. -/
inductive AwayEv where
  | move (now : Nat) (x y : Int)
  | leaveWindow (now : Nat)
  | hoverTick (now : Nat)
  deriving DecidableEq

/-- The handler an `AwayEv` runs. -/
def applyAway (glyphH : ℚ) (e : AwayEv) (g : Globals) : Globals :=
  match e with
  | AwayEv.move now x y => onMouseMove now glyphH x y g
  | AwayEv.leaveWindow now => onMouseLeave now g
  | AwayEv.hoverTick now => onHoverTimer now g

/-- The globals after a sequence of `AwayEv`. -/
def runAway (glyphH : ℚ) : List AwayEv → Globals → Globals
  | [], g => g
  | e :: rest, g => runAway glyphH rest (applyAway glyphH e g)

/-- The event is a pointer move to a point outside the reveal zone. -/
def AwayEv.isMoveOutside (e : AwayEv) (g : Globals) : Prop :=
  match e with
  | AwayEv.move _ x y => hoveredTabZone x y g = false
  | _ => False

/-- The event leaves the reveal zone at tick `L`: a move to a point outside the
zone, or the pointer leaving the window. -/
def AwayEv.exitsZoneAt (e : AwayEv) (L : Nat) (g : Globals) : Prop :=
  match e with
  | AwayEv.move now x y => now = L ∧ hoveredTabZone x y g = false
  | AwayEv.leaveWindow now => now = L
  | AwayEv.hoverTick _ => False

/-- The session query raises: the manager request, the current-session query,
the metadata fetch or the playback-info fetch raises an exception. -/
def QueryRaises (br : Bridge) (g : Globals) : Prop :=
  (g.g_SessionManager = false ∧ br.requestManager = Outcome.raised)
    ∨ ((g.g_SessionManager = true ∨ br.requestManager = Outcome.ok true)
        ∧ (br.currentSession = Outcome.raised
            ∨ ∃ s, br.currentSession = Outcome.ok (some s)
                ∧ (s.mediaProperties = Outcome.raised ∨ s.playbackStatus = Outcome.raised)))

/-- The refresh finds no active session: a session manager is at hand and
reports no current session. -/
def FindsNoSession (br : Bridge) (g : Globals) : Prop :=
  (g.g_SessionManager = true ∨ br.requestManager = Outcome.ok true)
    ∧ br.currentSession = Outcome.ok none

/-- The thumbnail load fails: asking for the thumbnail raises, there is no
thumbnail, opening the stream raises, or `StreamToBitmap` meets a null stream,
a failed wrap, a null native stream, a null bitmap or a bad bitmap status. -/
def ThumbnailLoadFails (props : MediaProps) : Prop :=
  props.thumbnail = Outcome.raised ∨ props.thumbnail = Outcome.ok none
    ∨ ∃ thumbRef, props.thumbnail = Outcome.ok (some thumbRef)
        ∧ (thumbRef.openRead = Outcome.raised
            ∨ ∃ stream, thumbRef.openRead = Outcome.ok stream
                ∧ (stream.present = false ∨ stream.wrapOk = false ∨ stream.nativePresent = false
                    ∨ stream.decoded = none ∨ stream.statusOk = false))

/-- The gesture fields while the pointer is away from the reveal zone, after a
dwell begun at `S` was left at `L`. -/
def AwayInv (g0 : Globals) (S L : Nat) (g : Globals) : Prop :=
  g.g_Settings = g0.g_Settings ∧ g.g_HoverTabZone = false ∧ g.g_HoverTimerStart = S
    ∧ g.g_HoverLastLeftTime = L

/-- The session is timeline-capable and reports the timeline `tl`: its source
id contains "Spotify" and reading its timeline properties succeeds. -/
def ReportsTimeline (session : Session) (tl : Timeline) : Prop :=
  (∃ source, session.sourceAppUserModelId = Outcome.ok source
      ∧ wcsstr source.toList "Spotify".toList = true)
    ∧ session.timelineProperties = Outcome.ok tl

/-- The marquee scrolls a text of measured width `W` and stands at offset `o`
with `w` wait ticks left. -/
def ScrollAt (W o w : Int) (g : Globals) : Prop :=
  g.g_IsScrolling = true ∧ g.g_TextWidth = W ∧ g.g_ScrollOffset = o ∧ g.g_ScrollWait = w

/-- The globals after a sequence of refreshes, each with the tick count it
reads and the answers of the media session. -/
def runRefreshes : List (Nat × Bridge) → Globals → Globals
  | [], g => g
  | r :: rest, g => runRefreshes rest (UpdateMediaInfo r.1 r.2 g).1

/-- The calls of a trace made while the media-state lock is held, in order;
`held` tells whether the lock is held when the trace starts. -/
def heldCalls : List Ev → Bool → List Ev
  | [], _ => []
  | e :: rest, held =>
    if e = Ev.lockAcquire then heldCalls rest true
    else if e = Ev.lockRelease then heldCalls rest false
    else if held then e :: heldCalls rest held
    else heldCalls rest held

/-- The calls that query the session manager or the session before any cached
field is touched. -/
def Ev.isQuery (e : Ev) : Bool :=
  e = Ev.requestManager || e = Ev.getCurrentSession || e = Ev.getMediaProperties
    || e = Ev.getPlaybackInfo

/-- The calls of the locked block: freeing the art, the thumbnail query, the
thumbnail stream open, the decode, the source id and the timeline read. -/
def Ev.isInBlock (e : Ev) : Bool :=
  e = Ev.freeArt || e = Ev.getThumbnail || e = Ev.openThumbnail || e = Ev.decodeThumbnail
    || e = Ev.getSourceId || e = Ev.getTimeline

/-- The session manager is at hand and reports a current session, as
`SendMediaCommand` requires. -/
def SessionAvailable (br : Bridge) (g : Globals) : Prop :=
  g.g_SessionManager = true ∧ ∃ s, br.currentSession = Outcome.ok (some s)

/-- A message delivered to the window procedure, with what the system supplies
to its handler. -/
inductive UiEv where
  | mouseMove (now : Nat) (glyphH : ℚ) (x y : Int)
  | mouseLeave (now : Nat)
  | lButtonDown (glyphH : ℚ) (x y : Int)
  | lButtonUp (br : Bridge)
  | hoverTimer (now : Nat)
  | animationTimer
  | pollTimer (now : Nat) (br : Bridge)
  | paint (width height textW : Int) (textH : ℚ)

/-- The handler a message runs; `none` when the handler has no defined result. -/
def stepUi (e : UiEv) (g : Globals) : Option Globals :=
  match e with
  | UiEv.mouseMove now glyphH x y => some (onMouseMove now glyphH x y g)
  | UiEv.mouseLeave now => some (onMouseLeave now g)
  | UiEv.lButtonDown glyphH x y => some (onLButtonDown glyphH x y g)
  | UiEv.lButtonUp br => (onLButtonUp br g).map Prod.fst
  | UiEv.hoverTimer now => some (onHoverTimer now g)
  | UiEv.animationTimer => some (onAnimationTimer g)
  | UiEv.pollTimer now br => some (onPollTimer now br g).1
  | UiEv.paint width height textW textH => some (DrawMediaPanel width height textW textH g).1

/-- The globals after a sequence of messages. -/
def runUi : List UiEv → Globals → Option Globals
  | [], g => some g
  | e :: rest, g =>
    match stepUi e g with
    | none => none
    | some g2 => runUi rest g2

/-- The panel fields are consistent for the panel width `w`: the panel is open
exactly when the target offset is 0, the target is 0 or `-(w - 20)`, and the
current offset lies between `-(w - 20)` and 0. -/
def PanelInv (w : Int) (g : Globals) : Prop :=
  g.g_Settings.width = w
    ∧ (g.g_PanelOpen = true ↔ g.g_PanelTargetOffsetX = 0)
    ∧ (g.g_PanelTargetOffsetX = 0 ∨ g.g_PanelTargetOffsetX = -(w - 20))
    ∧ -(w - 20) ≤ g.g_PanelOffsetX ∧ g.g_PanelOffsetX ≤ 0

/-- The fields of the globals that concern the sliding panel. -/
def panelView (g : Globals) : ModSettings × Bool × Int × Int :=
  (g.g_Settings, g.g_PanelOpen, g.g_PanelOffsetX, g.g_PanelTargetOffsetX)

/-! ## Sample inputs -/

/-- A session playing "Song" by "Band" from a browser, without a thumbnail. -/
def sessionNoThumb : Session :=
  { mediaProperties := Outcome.ok { title := "Song", artist := "Band", thumbnail := Outcome.ok none },
    playbackStatus := Outcome.ok PlaybackStatus.Playing,
    sourceAppUserModelId := Outcome.ok "chrome.exe",
    timelineProperties := Outcome.ok { position := 0, endTime := 0 },
    changePosition := Outcome.ok true }

/-- A thumbnail stream that decodes to bitmap 7. -/
def goodStream : ThumbStream :=
  { present := true, wrapOk := true, nativePresent := true, decoded := some { id := 7 },
    statusOk := true }

/-- The media properties "Song" by "Band" with a loadable thumbnail. -/
def propsWithThumb : MediaProps :=
  { title := "Song", artist := "Band",
    thumbnail := Outcome.ok (some { openRead := Outcome.ok goodStream }) }

/-- A session playing "Song" by "Band" from a browser, with a loadable thumbnail. -/
def sessionWithThumb : Session :=
  { sessionNoThumb with mediaProperties := Outcome.ok propsWithThumb }

/-- A bridge whose manager request succeeds and that reports the given session. -/
def bridgeOf (current : Option Session) : Bridge :=
  { requestManager := Outcome.ok true, currentSession := Outcome.ok current }

/-- The globals at start-up. -/
def initialGlobals : Globals := {}

/-- The start-up globals 0 ms into a dwell over the reveal zone that began at tick 1000. -/
def dwellingGlobals : Globals :=
  { initialGlobals with g_HoverTabZone := true, g_HoverTimerStart := 1000, timerHover := some 50 }

/-- The start-up globals while the panel closes towards offset -380. -/
def closingGlobals : Globals :=
  { initialGlobals with g_PanelOpen := false, g_PanelTargetOffsetX := -380,
                        timerAnimation := some 16 }

/-- A paused Spotify session, 50 s into a track of 200 s. -/
def pausedSpotify : Session :=
  { mediaProperties := Outcome.ok propsWithThumb,
    playbackStatus := Outcome.ok PlaybackStatus.Paused,
    sourceAppUserModelId := Outcome.ok "Spotify.exe",
    timelineProperties := Outcome.ok { position := 500000000, endTime := 2000000000 },
    changePosition := Outcome.ok true }

/-- Globals in the middle of a drag of a paused track of 200 s, at the `float`
nearest to 60 %, which is 5033165 / 2^23. -/
def draggingGlobals : Globals :=
  { initialGlobals with
      g_SessionManager := true,
      g_MediaState := { title := "Song", artist := "Band", hasMedia := true, isSpotify := true,
                        position := 50, duration := 200, smoothPosition := 50 },
      g_TimelineDragging := true, g_TimelineDragProgress := Flt.fin (5033165 / 8388608),
      capture := true }

/-- A narrow panel, 140 wide and 48 high, whose timeline bar has width 0 for
hit-testing (`width - height - 92 = 0`), showing a Spotify track of 200 s. -/
def zeroBarGlobals : Globals :=
  { initialGlobals with
      g_Settings := { width := 140, height := 48 },
      g_SessionManager := true,
      g_MediaState := { title := "Song", artist := "Band", hasMedia := true, isSpotify := true,
                        position := 50, duration := 200, smoothPosition := 50 } }

/-- The zero-width-bar layout in the middle of a drag. -/
def zeroBarDragging : Globals :=
  { zeroBarGlobals with g_TimelineDragging := true, g_TimelineDragProgress := Flt.fin (1 / 4),
                        capture := true }

/-- Globals holding a cached track "Song" by "Band" with album art 7. -/
def cachedGlobals : Globals :=
  { initialGlobals with
      g_SessionManager := true,
      g_MediaState := { title := "Song", artist := "Band", isPlaying := true, hasMedia := true,
                        albumArt := some { id := 7 } } }

/-- A session whose metadata fetch raises. -/
def failingSession : Session :=
  { sessionWithThumb with mediaProperties := Outcome.raised }

/-- A Spotify session playing, 50 s into a track of 200 s. -/
def playingSpotify : Session :=
  { pausedSpotify with playbackStatus := Outcome.ok PlaybackStatus.Playing }

/-- Globals caching a Spotify track of 200 s whose smooth position is 49. -/
def spotifyGlobals : Globals :=
  { initialGlobals with
      g_SessionManager := true,
      g_MediaState := { title := "Song", artist := "Band", isPlaying := true, hasMedia := true,
                        albumArt := some { id := 7 }, isSpotify := true,
                        position := 49, duration := 200, smoothPosition := 49,
                        lastUpdateTick := 1000 } }

/-- The start-up globals with the marquee enabled for a text 500 px wide. -/
def scrollingGlobals : Globals :=
  { initialGlobals with g_IsScrolling := true, g_TextWidth := 500, timerAnimation := some 16 }

/-- Globals of the default panel (400 by 100) caching a paused Spotify track,
50 s into 200 s, with no drag in progress. -/
def timelineGlobals : Globals :=
  { initialGlobals with
      g_SessionManager := true,
      g_MediaState := { title := "Song", artist := "Band", hasMedia := true, isSpotify := true,
                        position := 50, duration := 200, smoothPosition := 50 } }

/-- The default panel caching a paused Spotify track 32 s into 47 s. -/
def globals32of47 : Globals :=
  { initialGlobals with
      g_SessionManager := true,
      g_MediaState := { title := "Song", artist := "Band", hasMedia := true, isSpotify := true,
                        position := 32, duration := 47, smoothPosition := 32 } }

/-- The default panel caching a paused Spotify track 3 s into 47 s. -/
def globals3of47 : Globals :=
  { initialGlobals with
      g_SessionManager := true,
      g_MediaState := { title := "Song", artist := "Band", hasMedia := true, isSpotify := true,
                        position := 3, duration := 47, smoothPosition := 3 } }

/-- The default panel with the pointer pressed on the seek-thumb of the paused
track while hovering the bar: hovering and dragging at 25 %. -/
def hoverDragGlobals : Globals :=
  { timelineGlobals with g_TimelineHover := true, g_TimelineDragging := true,
                         g_TimelineDragProgress := Flt.fin (1 / 4), capture := true }

/-- A Spotify session that reports a timeline of duration 0. -/
def spotifyNoDuration : Session :=
  { playingSpotify with timelineProperties := Outcome.ok { position := 0, endTime := 0 } }

/-- The start-up globals shortly after the pointer left the reveal zone at tick
1000 with the bold level at 1/2. -/
def graceGlobals : Globals :=
  { initialGlobals with g_HoverTimerStart := 400, g_HoverLastLeftTime := 1000,
                        g_HoverBoldLevel := 1 / 2, timerHover := some 50 }

/-- A drag still in progress at 50 % after the cached state stopped being
timeline-capable (a browser session took over). -/
def staleDragGlobals : Globals :=
  { cachedGlobals with g_TimelineDragging := true, g_TimelineDragProgress := Flt.fin (1 / 2),
                       capture := true }

/-- A drag still in progress at 50 % while the cached state is timeline-capable
with duration 0. -/
def zeroDurationDragGlobals : Globals :=
  { staleDragGlobals with
      g_MediaState := { staleDragGlobals.g_MediaState with isSpotify := true } }

/-- The cached track with the pointer resting on the Play/Pause control. -/
def hoverPlayGlobals : Globals :=
  { cachedGlobals with g_HoverState := 2 }

/-! ## Facts about rounding -/

theorem roundHalfEven_intCast (n : Int) : roundHalfEven (n : ℚ) = n := by
  unfold roundHalfEven
  rw [Int.floor_intCast, sub_self, if_pos (by norm_num)]

theorem roundHalfEven_cases (q : ℚ) : roundHalfEven q = ⌊q⌋ ∨ roundHalfEven q = ⌊q⌋ + 1 := by
  unfold roundHalfEven
  split
  · exact Or.inl rfl
  · split
    · exact Or.inr rfl
    · split
      · exact Or.inl rfl
      · exact Or.inr rfl

theorem roundHalfEven_err (q : ℚ) : |(roundHalfEven q : ℚ) - q| ≤ 1 / 2 := by
  have h1 := Int.floor_le q
  have h2 := Int.lt_floor_add_one q
  unfold roundHalfEven
  rw [abs_le]
  split
  · constructor <;> linarith
  · split
    · push_cast
      constructor <;> linarith
    · split
      · constructor <;> linarith
      · push_cast
        constructor <;> linarith

theorem roundHalfEven_eq_of_close (q : ℚ) (n : Int) (h : |q - (n : ℚ)| < 1 / 2) :
    roundHalfEven q = n := by
  rw [abs_lt] at h
  obtain ⟨h1, h2⟩ := h
  by_cases hq : (n : ℚ) ≤ q
  · have hf : ⌊q⌋ = n := by
      rw [Int.floor_eq_iff]
      constructor
      · exact hq
      · linarith
    unfold roundHalfEven
    rw [hf, if_pos (by linarith)]
  · have hq2 : q < (n : ℚ) := not_le.mp hq
    have hf : ⌊q⌋ = n - 1 := by
      rw [Int.floor_eq_iff]
      push_cast
      constructor <;> linarith
    unfold roundHalfEven
    rw [hf]
    push_cast
    rw [if_neg (by linarith), if_pos (by linarith)]
    ring

theorem roundHalfEven_le (q : ℚ) (n : Int) (h : q ≤ (n : ℚ)) : roundHalfEven q ≤ n := by
  rcases eq_or_lt_of_le h with he | hl
  · rw [he, roundHalfEven_intCast]
  · have hf : ⌊q⌋ < n := Int.floor_lt.mpr hl
    rcases roundHalfEven_cases q with hc | hc <;> omega

theorem le_roundHalfEven (q : ℚ) (n : Int) (h : (n : ℚ) ≤ q) : n ≤ roundHalfEven q := by
  have hf : n ≤ ⌊q⌋ := Int.le_floor.mpr h
  rcases roundHalfEven_cases q with hc | hc <;> omega

theorem two_zpow_pos (e : Int) : (0 : ℚ) < (2 : ℚ) ^ e := zpow_pos (by norm_num) e

theorem two_zpow_split (e k : Int) (h : e ≤ k) :
    (2 : ℚ) ^ k = (((2 : Int) ^ (k - e).toNat : Int) : ℚ) * (2 : ℚ) ^ e := by
  have h1 : ((k - e).toNat : Int) = k - e := Int.toNat_of_nonneg (by omega)
  have h2 : k = ((k - e).toNat : Int) + e := by omega
  conv_lhs => rw [h2]
  rw [zpow_add₀ (by norm_num : (2 : ℚ) ≠ 0), zpow_natCast]
  push_cast
  rfl

theorem log_lt_of_lt (q : ℚ) (k : Int) (hq : 0 < q) (h : q < (2 : ℚ) ^ k) : Int.log 2 q < k := by
  have h2 : q < ((2 : ℕ) : ℚ) ^ k := by exact_mod_cast h
  exact (Int.lt_zpow_iff_log_lt (by norm_num) hq).mp h2

theorem le_log_of_le (q : ℚ) (k : Int) (hq : 0 < q) (h : (2 : ℚ) ^ k ≤ q) : k ≤ Int.log 2 q := by
  have h2 : ((2 : ℕ) : ℚ) ^ k ≤ q := by exact_mod_cast h
  exact (Int.zpow_le_iff_le_log (by norm_num) hq).mp h2

theorem log_eq_of_bounds (q : ℚ) (k : Int) (h1 : (2 : ℚ) ^ k ≤ q) (h2 : q < (2 : ℚ) ^ (k + 1)) :
    Int.log 2 q = k := by
  have hq : 0 < q := lt_of_lt_of_le (two_zpow_pos k) h1
  have a := log_lt_of_lt q (k + 1) hq h2
  have b := le_log_of_le q k hq h1
  omega

theorem zpow_log_le (q : ℚ) (hq : 0 < q) : (2 : ℚ) ^ Int.log 2 q ≤ q := by
  have h := Int.zpow_log_le_self (b := 2) (r := q) (by norm_num) hq
  exact_mod_cast h

theorem lt_zpow_log_succ (q : ℚ) : q < (2 : ℚ) ^ (Int.log 2 q + 1) := by
  have h := Int.lt_zpow_succ_log_self (b := 2) (by norm_num) q
  exact_mod_cast h

theorem ulpExp_le (prec : Nat) (emin : Int) (q : ℚ) (k : Int) (hq : q ≠ 0)
    (h : |q| < (2 : ℚ) ^ (k + (prec : Int))) (hk : emin - ((prec : Int) - 1) ≤ k) :
    ulpExp prec emin q ≤ k := by
  have hl := log_lt_of_lt |q| _ (abs_pos.mpr hq) h
  unfold ulpExp
  have : max (Int.log 2 |q|) emin ≤ k + (prec : Int) - 1 := max_le (by omega) (by omega)
  omega

theorem roundTo_zero (prec : Nat) (emin : Int) : roundTo prec emin 0 = 0 := by
  unfold roundTo
  rw [if_pos rfl]

theorem roundTo_of_multiple (prec : Nat) (emin : Int) (q : ℚ) (n : Int)
    (h : q = (n : ℚ) * (2 : ℚ) ^ ulpExp prec emin q) : roundTo prec emin q = q := by
  unfold roundTo
  split
  · rename_i h0
    rw [h0]
  · have hp := two_zpow_pos (ulpExp prec emin q)
    have e : q / (2 : ℚ) ^ ulpExp prec emin q = (n : ℚ) := by
      rw [div_eq_iff (ne_of_gt hp)]
      exact h
    rw [e, roundHalfEven_intCast]
    exact h.symm

/-- A value `n * 2^k` with fewer than `prec` significant bits and `k` not below the
least exponent of the format is not changed by rounding. -/
theorem roundTo_repr (prec : Nat) (emin : Int) (n k : Int)
    (hn : |(n : ℚ)| < (2 : ℚ) ^ (prec : Int)) (hk : emin - ((prec : Int) - 1) ≤ k) :
    roundTo prec emin ((n : ℚ) * (2 : ℚ) ^ k) = (n : ℚ) * (2 : ℚ) ^ k := by
  by_cases h0 : (n : ℚ) * (2 : ℚ) ^ k = 0
  · rw [h0, roundTo_zero]
  · have hlt : |(n : ℚ) * (2 : ℚ) ^ k| < (2 : ℚ) ^ (k + (prec : Int)) := by
      rw [abs_mul, abs_of_pos (two_zpow_pos k), zpow_add₀ (by norm_num : (2 : ℚ) ≠ 0), mul_comm]
      exact mul_lt_mul_of_pos_left hn (two_zpow_pos k)
    have he := ulpExp_le prec emin _ k h0 hlt hk
    apply roundTo_of_multiple prec emin _ (n * (2 : Int) ^ (k - ulpExp prec emin ((n : ℚ) * (2 : ℚ) ^ k)).toNat)
    conv_lhs => rw [two_zpow_split _ k he]
    push_cast
    ring

theorem roundTo_err (prec : Nat) (emin : Int) (q : ℚ) :
    |roundTo prec emin q - q| ≤ (2 : ℚ) ^ ulpExp prec emin q / 2 := by
  have hp := two_zpow_pos (ulpExp prec emin q)
  unfold roundTo
  split
  · rename_i h0
    rw [h0, sub_self, abs_zero]
    positivity
  · have h := roundHalfEven_err (q / (2 : ℚ) ^ ulpExp prec emin q)
    have e : (roundHalfEven (q / (2 : ℚ) ^ ulpExp prec emin q) : ℚ) * (2 : ℚ) ^ ulpExp prec emin q - q
        = ((roundHalfEven (q / (2 : ℚ) ^ ulpExp prec emin q) : ℚ) - q / (2 : ℚ) ^ ulpExp prec emin q)
            * (2 : ℚ) ^ ulpExp prec emin q := by
      field_simp
    rw [e, abs_mul, abs_of_pos hp]
    calc |(roundHalfEven (q / (2 : ℚ) ^ ulpExp prec emin q) : ℚ) - q / (2 : ℚ) ^ ulpExp prec emin q|
            * (2 : ℚ) ^ ulpExp prec emin q
        ≤ 1 / 2 * (2 : ℚ) ^ ulpExp prec emin q := mul_le_mul_of_nonneg_right h (le_of_lt hp)
      _ = (2 : ℚ) ^ ulpExp prec emin q / 2 := by ring

theorem roundTo_nonneg (prec : Nat) (emin : Int) (q : ℚ) (h : 0 ≤ q) : 0 ≤ roundTo prec emin q := by
  unfold roundTo
  split
  · exact le_refl 0
  · have hp := two_zpow_pos (ulpExp prec emin q)
    have h1 : (0 : Int) ≤ roundHalfEven (q / (2 : ℚ) ^ ulpExp prec emin q) :=
      le_roundHalfEven _ 0 (by
        push_cast
        exact div_nonneg h (le_of_lt hp))
    have h2 : (0 : ℚ) ≤ (roundHalfEven (q / (2 : ℚ) ^ ulpExp prec emin q) : ℚ) := by exact_mod_cast h1
    exact mul_nonneg h2 (le_of_lt hp)

theorem roundTo_nonpos (prec : Nat) (emin : Int) (q : ℚ) (h : q ≤ 0) : roundTo prec emin q ≤ 0 := by
  unfold roundTo
  split
  · exact le_refl 0
  · have hp := two_zpow_pos (ulpExp prec emin q)
    have h1 : roundHalfEven (q / (2 : ℚ) ^ ulpExp prec emin q) ≤ (0 : Int) :=
      roundHalfEven_le _ 0 (by
        push_cast
        exact div_nonpos_of_nonpos_of_nonneg h (le_of_lt hp))
    have h2 : (roundHalfEven (q / (2 : ℚ) ^ ulpExp prec emin q) : ℚ) ≤ 0 := by exact_mod_cast h1
    exact mul_nonpos_of_nonpos_of_nonneg h2 (le_of_lt hp)

/-- Rounding does not pass a multiple of the unit in the last place: below. -/
theorem roundTo_le_of_multiple (prec : Nat) (emin : Int) (q : ℚ) (n : Int)
    (h : q ≤ (n : ℚ) * (2 : ℚ) ^ ulpExp prec emin q) :
    roundTo prec emin q ≤ (n : ℚ) * (2 : ℚ) ^ ulpExp prec emin q := by
  have hp := two_zpow_pos (ulpExp prec emin q)
  unfold roundTo
  split
  · rename_i h0
    rw [h0] at h
    rw [h0]
    exact h
  · have h1 : roundHalfEven (q / (2 : ℚ) ^ ulpExp prec emin q) ≤ n :=
      roundHalfEven_le _ n (by rw [div_le_iff₀ hp]; exact h)
    have h2 : (roundHalfEven (q / (2 : ℚ) ^ ulpExp prec emin q) : ℚ) ≤ (n : ℚ) := by exact_mod_cast h1
    exact mul_le_mul_of_nonneg_right h2 (le_of_lt hp)

/-- Rounding does not pass a multiple of the unit in the last place: above. -/
theorem le_roundTo_of_multiple (prec : Nat) (emin : Int) (q : ℚ) (n : Int)
    (h : (n : ℚ) * (2 : ℚ) ^ ulpExp prec emin q ≤ q) :
    (n : ℚ) * (2 : ℚ) ^ ulpExp prec emin q ≤ roundTo prec emin q := by
  have hp := two_zpow_pos (ulpExp prec emin q)
  unfold roundTo
  split
  · rename_i h0
    rw [h0] at h
    rw [h0]
    exact h
  · have h1 : n ≤ roundHalfEven (q / (2 : ℚ) ^ ulpExp prec emin q) :=
      le_roundHalfEven _ n (by rw [le_div_iff₀ hp]; exact h)
    have h2 : (n : ℚ) ≤ (roundHalfEven (q / (2 : ℚ) ^ ulpExp prec emin q) : ℚ) := by exact_mod_cast h1
    exact mul_le_mul_of_nonneg_right h2 (le_of_lt hp)

theorem ulpExp_mono (prec : Nat) (emin : Int) (q b : ℚ) (hq : 0 < q) (h : q ≤ b) :
    ulpExp prec emin q ≤ ulpExp prec emin b := by
  have hb : 0 < b := lt_of_lt_of_le hq h
  have hl : Int.log 2 |q| ≤ Int.log 2 |b| := by
    rw [abs_of_pos hq, abs_of_pos hb]
    exact Int.log_mono_right hq h
  unfold ulpExp
  have : max (Int.log 2 |q|) emin ≤ max (Int.log 2 |b|) emin := max_le_max hl (le_refl _)
  omega

/-- A value fixed by rounding is a multiple of its unit in the last place. -/
theorem roundTo_fixed_form (prec : Nat) (emin : Int) (b : ℚ) (hb : roundTo prec emin b = b) :
    ∃ m : Int, b = (m : ℚ) * (2 : ℚ) ^ ulpExp prec emin b := by
  by_cases h0 : b = 0
  · exact ⟨0, by rw [h0]; simp⟩
  · unfold roundTo at hb
    rw [if_neg h0] at hb
    exact ⟨_, hb.symm⟩

/-- Rounding is monotone against a value of the format: a positive value below
`b` rounds to a value not above `b`. -/
theorem roundTo_le_fixed (prec : Nat) (emin : Int) (q b : ℚ) (hq : 0 ≤ q) (h : q ≤ b)
    (hb : roundTo prec emin b = b) : roundTo prec emin q ≤ b := by
  rcases eq_or_lt_of_le hq with h0 | hpos
  · rw [← h0, roundTo_zero]
    exact le_trans hq h
  · obtain ⟨m, hm⟩ := roundTo_fixed_form prec emin b hb
    have he := ulpExp_mono prec emin q b hpos h
    have hsplit := two_zpow_split _ _ he
    have hmul : b = ((m * (2 : Int) ^ (ulpExp prec emin b - ulpExp prec emin q).toNat : Int) : ℚ)
        * (2 : ℚ) ^ ulpExp prec emin q := by
      conv_lhs => rw [hm, hsplit]
      push_cast
      ring
    have h2 := roundTo_le_of_multiple prec emin q _ (by rw [← hmul]; exact h)
    rw [← hmul] at h2
    exact h2

/-- With a unit in the last place not above 1, rounding stays between the
integers around the value. -/
theorem roundTo_int_sandwich (prec : Nat) (emin : Int) (q : ℚ)
    (he : ulpExp prec emin q ≤ 0) :
    ((⌊q⌋ : Int) : ℚ) ≤ roundTo prec emin q ∧ roundTo prec emin q ≤ ((⌈q⌉ : Int) : ℚ) := by
  have hsplit := two_zpow_split _ _ he
  rw [zpow_zero] at hsplit
  have hf : ((⌊q⌋ : Int) : ℚ)
      = ((⌊q⌋ * (2 : Int) ^ (0 - ulpExp prec emin q).toNat : Int) : ℚ)
          * (2 : ℚ) ^ ulpExp prec emin q := by
    push_cast
    push_cast at hsplit
    rw [mul_assoc, ← hsplit, mul_one]
  have hc : ((⌈q⌉ : Int) : ℚ)
      = ((⌈q⌉ * (2 : Int) ^ (0 - ulpExp prec emin q).toNat : Int) : ℚ)
          * (2 : ℚ) ^ ulpExp prec emin q := by
    push_cast
    push_cast at hsplit
    rw [mul_assoc, ← hsplit, mul_one]
  constructor
  · have h := le_roundTo_of_multiple prec emin q _ (by rw [← hf]; exact Int.floor_le q)
    rw [← hf] at h
    exact h
  · have h := roundTo_le_of_multiple prec emin q _ (by rw [← hc]; exact Int.le_ceil q)
    rw [← hc] at h
    exact h

/-- The relative error of rounding a value in the normal range. -/
theorem roundTo_rel_err (prec : Nat) (emin : Int) (q : ℚ) (h : (2 : ℚ) ^ emin ≤ |q|) :
    |roundTo prec emin q - q| ≤ |q| / (2 : ℚ) ^ (prec : Int) := by
  have hpos : 0 < |q| := lt_of_lt_of_le (two_zpow_pos emin) h
  have hl := le_log_of_le |q| emin hpos h
  have hu : ulpExp prec emin q = Int.log 2 |q| - (prec : Int) + 1 := by
    unfold ulpExp
    rw [max_eq_left hl]
    ring
  have herr := roundTo_err prec emin q
  have hz := zpow_log_le |q| hpos
  have e : (2 : ℚ) ^ ulpExp prec emin q / 2 = (2 : ℚ) ^ Int.log 2 |q| / (2 : ℚ) ^ (prec : Int) := by
    rw [hu, zpow_add₀ (by norm_num : (2 : ℚ) ≠ 0), zpow_sub₀ (by norm_num : (2 : ℚ) ≠ 0)]
    norm_num
  rw [e] at herr
  exact le_trans herr (div_le_div_of_nonneg_right hz (le_of_lt (two_zpow_pos _)))

/-- Evaluation of a rounding from the binary exponent `l` of the value and the
integer `m` nearest to the scaled value. -/
theorem roundTo_eval (prec : Nat) (emin : Int) (q : ℚ) (l e m : Int)
    (hl1 : (2 : ℚ) ^ l ≤ |q|) (hl2 : |q| < (2 : ℚ) ^ (l + 1))
    (he : e = max l emin - ((prec : Int) - 1))
    (hm : |q / (2 : ℚ) ^ e - (m : ℚ)| < 1 / 2) :
    roundTo prec emin q = (m : ℚ) * (2 : ℚ) ^ e := by
  have hlog := log_eq_of_bounds |q| l hl1 hl2
  have hq : q ≠ 0 := by
    intro h0
    rw [h0, abs_zero] at hl1
    exact absurd hl1 (not_le.mpr (two_zpow_pos l))
  have hu : ulpExp prec emin q = e := by
    unfold ulpExp
    rw [hlog, he]
  unfold roundTo
  rw [if_neg hq, hu, roundHalfEven_eq_of_close _ m hm]

theorem roundTo_of_ulpExp (prec : Nat) (emin : Int) (y : ℚ) (e m : Int) (hy : y ≠ 0)
    (he : ulpExp prec emin y = e) (hm : |y / (2 : ℚ) ^ e - (m : ℚ)| < 1 / 2) :
    roundTo prec emin y = (m : ℚ) * (2 : ℚ) ^ e := by
  unfold roundTo
  rw [if_neg hy, he, roundHalfEven_eq_of_close _ m hm]

/-- A value close enough to a positive value `p` of the format rounds to `p`:
closer than a quarter of the unit in the last place of `p`. -/
theorem roundTo_eq_of_close (prec : Nat) (emin : Int) (p y : ℚ) (hprec : 1 ≤ prec)
    (hp : 0 < p) (hfix : roundTo prec emin p = p)
    (hclose : |y - p| < (2 : ℚ) ^ ulpExp prec emin p / 4) :
    roundTo prec emin y = p := by
  obtain ⟨m, hm⟩ := roundTo_fixed_form prec emin p hfix
  generalize hE : ulpExp prec emin p = E at hclose hm
  have hEdef : E = max (Int.log 2 |p|) emin - ((prec : Int) - 1) := by
    rw [← hE]
    rfl
  have hpe := two_zpow_pos (E)
  have h2 : (2 : ℚ) ≠ 0 := by norm_num
  have hmpos : (0 : ℚ) < (m : ℚ) := by
    by_contra hneg
    have : (m : ℚ) * (2 : ℚ) ^ E ≤ 0 :=
      mul_nonpos_of_nonpos_of_nonneg (not_lt.mp hneg) (le_of_lt hpe)
    rw [← hm] at this
    exact absurd hp (not_lt.mpr this)
  have hm1 : (1 : ℚ) ≤ (m : ℚ) := by
    have : (0 : Int) < m := by exact_mod_cast hmpos
    have : (1 : Int) ≤ m := this
    exact_mod_cast this
  have hple : (2 : ℚ) ^ E ≤ p := by
    conv_rhs => rw [hm]
    calc (2 : ℚ) ^ E = 1 * (2 : ℚ) ^ E := by ring
      _ ≤ (m : ℚ) * (2 : ℚ) ^ E := mul_le_mul_of_nonneg_right hm1 (le_of_lt hpe)
  -- the binade of `p`
  have hM : E + (prec : Int) = max (Int.log 2 |p|) emin + 1 := by
    rw [hEdef]
    ring
  have hpabs : |p| = p := abs_of_pos hp
  have hplt : p < (2 : ℚ) ^ (E + (prec : Int)) := by
    rw [hM]
    have h1 := lt_zpow_log_succ p
    have h3 : (2 : ℚ) ^ (Int.log 2 p + 1) ≤ (2 : ℚ) ^ (max (Int.log 2 |p|) emin + 1) := by
      apply zpow_le_zpow_right₀ (by norm_num)
      rw [hpabs]
      have := le_max_left (Int.log 2 p) emin
      omega
    exact lt_of_lt_of_le h1 h3
  have hpow : (2 : ℚ) ^ (E + (prec : Int))
      = (((2 : Int) ^ prec : Int) : ℚ) * (2 : ℚ) ^ E := by
    rw [zpow_add₀ h2, zpow_natCast]
    push_cast
    ring
  have hmlt : m + 1 ≤ (2 : Int) ^ prec := by
    have : (m : ℚ) * (2 : ℚ) ^ E
        < (((2 : Int) ^ prec : Int) : ℚ) * (2 : ℚ) ^ E := by
      rw [← hm, ← hpow]
      exact hplt
    have h4 : (m : ℚ) < (((2 : Int) ^ prec : Int) : ℚ) := lt_of_mul_lt_mul_right this (le_of_lt hpe)
    have h5 : m < (2 : Int) ^ prec := by exact_mod_cast h4
    omega
  have hpadd : p + (2 : ℚ) ^ E ≤ (2 : ℚ) ^ (E + (prec : Int)) := by
    rw [hpow]
    have h6 : ((m + 1 : Int) : ℚ) ≤ (((2 : Int) ^ prec : Int) : ℚ) := by exact_mod_cast hmlt
    calc p + (2 : ℚ) ^ E
        = ((m + 1 : Int) : ℚ) * (2 : ℚ) ^ E := by
          push_cast
          conv_lhs => rw [hm]
          ring
      _ ≤ (((2 : Int) ^ prec : Int) : ℚ) * (2 : ℚ) ^ E :=
          mul_le_mul_of_nonneg_right h6 (le_of_lt hpe)
  rw [abs_lt] at hclose
  obtain ⟨hc1, hc2⟩ := hclose
  have hylt : y < (2 : ℚ) ^ (E + (prec : Int)) := by linarith
  have hypos : 0 < y := by linarith
  have hyabs : |y| = y := abs_of_pos hypos
  have hly := log_lt_of_lt y _ hypos hylt
  have hupper : ulpExp prec emin y ≤ E := by
    have h7 : max (Int.log 2 |y|) emin ≤ max (Int.log 2 |p|) emin := by
      rw [hyabs]
      apply max_le
      · omega
      · exact le_max_right _ _
    unfold ulpExp
    omega
  have hlower : E - 1 ≤ ulpExp prec emin y := by
    have h8 : max (Int.log 2 |p|) emin - 1 ≤ max (Int.log 2 |y|) emin := by
      rcases le_total (Int.log 2 |p|) emin with hle | hge
      · rw [max_eq_right hle]
        have := le_max_right (Int.log 2 |y|) emin
        omega
      · rw [max_eq_left hge, hpabs, hyabs]
        have hz := zpow_log_le p hp
        have hee : E ≤ Int.log 2 p := by
          rw [hEdef, max_eq_left hge, hpabs]
          have : (1 : Int) ≤ (prec : Int) := by exact_mod_cast hprec
          omega
        have hpe2 : (2 : ℚ) ^ E ≤ (2 : ℚ) ^ Int.log 2 p :=
          zpow_le_zpow_right₀ (by norm_num) hee
        have hhalf : (2 : ℚ) ^ (Int.log 2 p - 1) = (2 : ℚ) ^ Int.log 2 p / 2 := by
          rw [zpow_sub₀ h2]
          norm_num
        have hpl := two_zpow_pos (Int.log 2 p)
        have hyge : (2 : ℚ) ^ (Int.log 2 p - 1) ≤ y := by
          rw [hhalf]
          linarith
        have := le_log_of_le y _ hypos hyge
        have := le_max_left (Int.log 2 y) emin
        omega
    unfold ulpExp
    omega
  have hy0 : y ≠ 0 := ne_of_gt hypos
  rcases (by omega : ulpExp prec emin y = E
      ∨ ulpExp prec emin y = E - 1) with he | he
  · have hr := roundTo_of_ulpExp prec emin y _ m hy0 he (by
      have e1 : y / (2 : ℚ) ^ E - (m : ℚ)
          = (y - p) / (2 : ℚ) ^ E := by
        conv_rhs => rw [hm]
        field_simp
        ring
      rw [e1, abs_lt]
      constructor
      · rw [lt_div_iff₀ hpe]
        linarith
      · rw [div_lt_iff₀ hpe]
        linarith)
    rw [hr, ← hm]
  · have hpe1 := two_zpow_pos (E - 1)
    have hsub : (2 : ℚ) ^ (E - 1) = (2 : ℚ) ^ E / 2 := by
      rw [zpow_sub₀ h2]
      norm_num
    have hr := roundTo_of_ulpExp prec emin y _ (2 * m) hy0 he (by
      have e1 : y / (2 : ℚ) ^ (E - 1) - ((2 * m : Int) : ℚ)
          = (y - p) / (2 : ℚ) ^ (E - 1) := by
        conv_rhs => rw [hm]
        rw [hsub]
        push_cast
        field_simp
        ring
      rw [e1, abs_lt]
      constructor
      · rw [lt_div_iff₀ hpe1, hsub]
        linarith
      · rw [div_lt_iff₀ hpe1, hsub]
        linarith)
    rw [hr, hsub]
    push_cast
    conv_rhs => rw [hm]
    ring

/-- Evaluation of the rounding of a positive value. -/
theorem roundTo_eval_pos (prec : Nat) (emin : Int) (q : ℚ) (l e m : Int)
    (hl1 : (2 : ℚ) ^ l ≤ q) (hl2 : q < (2 : ℚ) ^ (l + 1))
    (he : e = max l emin - ((prec : Int) - 1))
    (hm1 : (m : ℚ) - 1 / 2 < q / (2 : ℚ) ^ e) (hm2 : q / (2 : ℚ) ^ e < (m : ℚ) + 1 / 2) :
    roundTo prec emin q = (m : ℚ) * (2 : ℚ) ^ e := by
  have hq : 0 < q := lt_of_lt_of_le (two_zpow_pos l) hl1
  apply roundTo_eval prec emin q l e m
  · rw [abs_of_pos hq]
    exact hl1
  · rw [abs_of_pos hq]
    exact hl2
  · exact he
  · rw [abs_lt]
    constructor <;> linarith

theorem round32_repr (n k : Int) (hn : |(n : ℚ)| < (2 : ℚ) ^ ((24 : Nat) : Int))
    (hk : -149 ≤ k) : round32 ((n : ℚ) * (2 : ℚ) ^ k) = (n : ℚ) * (2 : ℚ) ^ k :=
  roundTo_repr 24 (-126) n k hn (by
    have : (-126 : Int) - (((24 : Nat) : Int) - 1) = -149 := by norm_num
    omega)

theorem round64_repr (n k : Int) (hn : |(n : ℚ)| < (2 : ℚ) ^ ((53 : Nat) : Int))
    (hk : -1074 ≤ k) : round64 ((n : ℚ) * (2 : ℚ) ^ k) = (n : ℚ) * (2 : ℚ) ^ k :=
  roundTo_repr 53 (-1022) n k hn (by
    have : (-1022 : Int) - (((53 : Nat) : Int) - 1) = -1074 := by norm_num
    omega)

theorem round32_zero : round32 0 = 0 := roundTo_zero 24 (-126)

theorem round64_zero : round64 0 = 0 := roundTo_zero 53 (-1022)

/-- An integer below `2^24` in absolute value is a `float`. -/
theorem round32_intCast (n : Int) (h : |(n : ℚ)| < 2 ^ 24) : round32 (n : ℚ) = (n : ℚ) := by
  have e : (n : ℚ) = (n : ℚ) * (2 : ℚ) ^ (0 : Int) := by simp
  rw [e]
  exact round32_repr n 0 (by
    have e2 : (2 : ℚ) ^ ((24 : Nat) : Int) = 2 ^ 24 := by norm_num
    rw [e2]
    exact h) (by norm_num)

theorem abs_lt_ulp (prec : Nat) (emin : Int) (q : ℚ) :
    |q| < (2 : ℚ) ^ (ulpExp prec emin q + (prec : Int)) := by
  have h1 := lt_zpow_log_succ |q|
  have h3 : (2 : ℚ) ^ (Int.log 2 |q| + 1) ≤ (2 : ℚ) ^ (ulpExp prec emin q + (prec : Int)) := by
    apply zpow_le_zpow_right₀ (by norm_num)
    unfold ulpExp
    have := le_max_left (Int.log 2 |q|) emin
    omega
  exact lt_of_lt_of_le h1 h3

theorem ulpExp_ge (prec : Nat) (emin : Int) (q : ℚ) :
    emin - ((prec : Int) - 1) ≤ ulpExp prec emin q := by
  unfold ulpExp
  have := le_max_right (Int.log 2 |q|) emin
  omega

/-- A positive value of the format is at least the unit in its last place. -/
theorem fixed_pos_ge (prec : Nat) (emin : Int) (p : ℚ) (hp : 0 < p)
    (hfix : roundTo prec emin p = p) :
    (2 : ℚ) ^ ulpExp prec emin p ≤ p ∧ (2 : ℚ) ^ (emin - ((prec : Int) - 1)) ≤ p := by
  obtain ⟨m, hm⟩ := roundTo_fixed_form prec emin p hfix
  generalize hE : ulpExp prec emin p = E at hm
  have hge : emin - ((prec : Int) - 1) ≤ E := by
    rw [← hE]
    exact ulpExp_ge prec emin p
  have hpe := two_zpow_pos E
  have hmpos : (0 : ℚ) < (m : ℚ) := by
    by_contra hneg
    have : (m : ℚ) * (2 : ℚ) ^ E ≤ 0 :=
      mul_nonpos_of_nonpos_of_nonneg (not_lt.mp hneg) (le_of_lt hpe)
    rw [← hm] at this
    exact absurd hp (not_lt.mpr this)
  have hm1 : (1 : ℚ) ≤ (m : ℚ) := by
    have : (0 : Int) < m := by exact_mod_cast hmpos
    have : (1 : Int) ≤ m := this
    exact_mod_cast this
  have hple : (2 : ℚ) ^ E ≤ p := by
    conv_rhs => rw [hm]
    calc (2 : ℚ) ^ E = 1 * (2 : ℚ) ^ E := by ring
      _ ≤ (m : ℚ) * (2 : ℚ) ^ E := mul_le_mul_of_nonneg_right hm1 (le_of_lt hpe)
  exact ⟨hple, le_trans (zpow_le_zpow_right₀ (by norm_num) hge) hple⟩

theorem round64_rel_err (q : ℚ) (h : (2 : ℚ) ^ (-1022 : Int) ≤ |q|) :
    |round64 q - q| ≤ |q| / 2 ^ 53 := by
  have e := roundTo_rel_err 53 (-1022) q h
  have e2 : (2 : ℚ) ^ ((53 : Nat) : Int) = 2 ^ 53 := by norm_num
  rw [e2] at e
  exact e

/-- The `double` product of a `float` `p ≥ 0` and a duration of at least `2^-24`
is within `2^-53` relative of the exact product. -/
theorem round64_product_err (p d : ℚ) (hp0 : 0 ≤ p) (hpf : round32 p = p)
    (hd : 1 / 16777216 ≤ d) :
    |round64 (p * d) - p * d| ≤ p * d / 2 ^ 53 := by
  rcases eq_or_lt_of_le hp0 with h0 | hpos
  · rw [← h0]
    simp [round64, roundTo_zero]
  · have hdpos : 0 < d := lt_of_lt_of_le (by norm_num) hd
    have hpge := (fixed_pos_ge 24 (-126) p hpos hpf).2
    have hpge2 : (1 : ℚ) / 2 ^ 149 ≤ p := by
      have e : (2 : ℚ) ^ ((-126 : Int) - (((24 : Nat) : Int) - 1)) = 1 / 2 ^ 149 := by norm_num
      rw [e] at hpge
      exact hpge
    have hx : (2 : ℚ) ^ (-1022 : Int) ≤ |p * d| := by
      rw [abs_of_pos (mul_pos hpos hdpos)]
      have e : (2 : ℚ) ^ (-1022 : Int) ≤ 1 / 2 ^ 149 * (1 / 16777216) := by norm_num
      exact le_trans e (mul_le_mul hpge2 hd (by norm_num) (le_of_lt hpos))
    have h := round64_rel_err (p * d) hx
    rw [abs_of_pos (mul_pos hpos hdpos)] at h
    exact h

/-- Dividing the `double` product `p * d` by `d` again and converting the
quotient to `float` gives back the `float` `p`. -/
theorem round32_recover (p d : ℚ) (hp0 : 0 ≤ p) (hpf : round32 p = p)
    (hd : 1 / 16777216 ≤ d) :
    round32 (round64 (round64 (p * d) / d)) = p := by
  rcases eq_or_lt_of_le hp0 with h0 | hpos
  · rw [← h0]
    simp [round64, round32, roundTo_zero]
  · have hdpos : 0 < d := lt_of_lt_of_le (by norm_num) hd
    have hu := fixed_pos_ge 24 (-126) p hpos hpf
    have hpge2 : (1 : ℚ) / 2 ^ 149 ≤ p := by
      have e : (2 : ℚ) ^ ((-126 : Int) - (((24 : Nat) : Int) - 1)) = 1 / 2 ^ 149 := by norm_num
      have := hu.2
      rw [e] at this
      exact this
    have h1 := round64_product_err p d hp0 hpf hd
    -- the quotient is within 2^-53 relative of p
    have hq : |round64 (p * d) / d - p| ≤ p / 2 ^ 53 := by
      have e : round64 (p * d) / d - p = (round64 (p * d) - p * d) / d := by
        field_simp
        ring
      rw [e, abs_div, abs_of_pos hdpos, div_le_iff₀ hdpos]
      calc |round64 (p * d) - p * d| ≤ p * d / 2 ^ 53 := h1
        _ = p / 2 ^ 53 * d := by ring
    rw [abs_le] at hq
    obtain ⟨hq1, hq2⟩ := hq
    have hxpos : 0 < round64 (p * d) / d := by
      have : p / 2 ^ 53 < p := by
        rw [div_lt_iff₀ (by norm_num)]
        linarith
      linarith
    have hx : (2 : ℚ) ^ (-1022 : Int) ≤ |round64 (p * d) / d| := by
      rw [abs_of_pos hxpos]
      have e : (2 : ℚ) ^ (-1022 : Int) ≤ 1 / 2 ^ 149 - 1 / 2 ^ 149 / 2 ^ 53 := by norm_num
      have : (1 : ℚ) / 2 ^ 149 - 1 / 2 ^ 149 / 2 ^ 53 ≤ p - p / 2 ^ 53 := by
        have : p - p / 2 ^ 53 = p * (1 - 1 / 2 ^ 53) := by ring
        rw [this]
        have : (1 : ℚ) / 2 ^ 149 - 1 / 2 ^ 149 / 2 ^ 53 = 1 / 2 ^ 149 * (1 - 1 / 2 ^ 53) := by ring
        rw [this]
        exact mul_le_mul_of_nonneg_right hpge2 (by norm_num)
      linarith
    have h2 := round64_rel_err (round64 (p * d) / d) hx
    rw [abs_of_pos hxpos, abs_le] at h2
    obtain ⟨h21, h22⟩ := h2
    have hE := abs_lt_ulp 24 (-126) p
    rw [abs_of_pos hpos] at hE
    have hsplit : (2 : ℚ) ^ (ulpExp 24 (-126) p + ((24 : Nat) : Int))
        = (2 : ℚ) ^ ulpExp 24 (-126) p * 2 ^ 24 := by
      rw [zpow_add₀ (by norm_num : (2 : ℚ) ≠ 0)]
      norm_num
    rw [hsplit] at hE
    have hpe := two_zpow_pos (ulpExp 24 (-126) p)
    apply roundTo_eq_of_close 24 (-126) p _ (by norm_num) hpos hpf
    rw [abs_lt]
    have hb1 : round64 (p * d) / d / 2 ^ 53 ≤ (p + p / 2 ^ 53) / 2 ^ 53 :=
      div_le_div_of_nonneg_right (by linarith) (by norm_num)
    constructor <;> linarith

/-! ## Facts about `UpdateMediaInfo` -/

theorem loadThumbnail_trace (props : MediaProps) : Ev.getThumbnail ∈ (loadThumbnail props).2 := by
  unfold loadThumbnail
  split
  · simp
  · simp
  · split <;> simp

theorem updateTimeline_trace (now : Nat) (session : Session) (status : PlaybackStatus)
    (st : MediaState) :
    Ev.getThumbnail ∉ (updateTimeline now session status st).2
      ∧ Ev.freeArt ∉ (updateTimeline now session status st).2 := by
  unfold updateTimeline
  split
  · simp
  · split
    · split <;> simp
    · simp

theorem updateTimeline_keeps (now : Nat) (session : Session) (status : PlaybackStatus)
    (st : MediaState) :
    (updateTimeline now session status st).1.title = st.title
      ∧ (updateTimeline now session status st).1.artist = st.artist
      ∧ (updateTimeline now session status st).1.albumArt = st.albumArt
      ∧ (updateTimeline now session status st).1.hasMedia = st.hasMedia
      ∧ (updateTimeline now session status st).1.isPlaying = st.isPlaying := by
  unfold updateTimeline
  split
  · simp
  · split
    · split
      · simp
      · simp only []
        split
        · split
          · simp
          · split <;> simp
        · simp
    · simp

theorem updateArt_trace (props : MediaProps) (st : MediaState) :
    Ev.getThumbnail ∈ (updateArt props st).2 ↔ shouldUpdateArt props.title props.artist st = true := by
  unfold updateArt
  by_cases h : shouldUpdateArt props.title props.artist st = true
  · have hl := loadThumbnail_trace props
    simp only [h, if_true]
    split <;> simp [hl]
  · simp [h]

theorem UpdateMediaInfo_session (now : Nat) (br : Bridge) (g : Globals) (session : Session)
    (props : MediaProps) (status : PlaybackStatus) (h : FindsSession br g session props status) :
    (UpdateMediaInfo now br g).1.g_MediaState
        = (refreshSession now session props status g.g_MediaState).1
      ∧ (UpdateMediaInfo now br g).2
        = (if g.g_SessionManager then [] else [Ev.requestManager])
            ++ [Ev.getCurrentSession, Ev.getMediaProperties, Ev.getPlaybackInfo]
            ++ (refreshSession now session props status g.g_MediaState).2 := by
  obtain ⟨hm, hs, hp, hi⟩ := h
  unfold UpdateMediaInfo
  by_cases hg : g.g_SessionManager = true
  · simp [hg, hs, hp, hi]
  · have hr : br.requestManager = Outcome.ok true := by
      rcases hm with hm | hm
      · exact absurd hm hg
      · exact hm
    simp [hg, hr, hs, hp, hi]

theorem refreshSession_fields (now : Nat) (session : Session) (props : MediaProps)
    (status : PlaybackStatus) (st : MediaState) :
    (refreshSession now session props status st).1.title = props.title
      ∧ (refreshSession now session props status st).1.artist = props.artist
      ∧ (refreshSession now session props status st).1.hasMedia = true
      ∧ (refreshSession now session props status st).1.isPlaying
          = decide (status = PlaybackStatus.Playing)
      ∧ (refreshSession now session props status st).1.albumArt = (updateArt props st).1.albumArt := by
  unfold refreshSession
  simp only []
  refine ⟨?_, ?_, ?_, ?_, ?_⟩
  · rw [(updateTimeline_keeps _ _ _ _).1]
  · rw [(updateTimeline_keeps _ _ _ _).2.1]
  · rw [(updateTimeline_keeps _ _ _ _).2.2.2.1]
  · rw [(updateTimeline_keeps _ _ _ _).2.2.2.2]
  · rw [(updateTimeline_keeps _ _ _ _).2.2.1]

theorem refreshSession_attempt (now : Nat) (session : Session) (props : MediaProps)
    (status : PlaybackStatus) (st : MediaState) :
    Ev.getThumbnail ∈ (refreshSession now session props status st).2
      ↔ shouldUpdateArt props.title props.artist st = true := by
  rw [← updateArt_trace]
  have ht := fun s => (updateTimeline_trace now session status s).1
  unfold refreshSession
  simp [ht]

theorem UpdateMediaInfo_attempt (now : Nat) (br : Bridge) (g : Globals) (session : Session)
    (props : MediaProps) (status : PlaybackStatus) (h : FindsSession br g session props status) :
    AttemptsArtReload (UpdateMediaInfo now br g).2
      ↔ shouldUpdateArt props.title props.artist g.g_MediaState = true := by
  unfold AttemptsArtReload
  rw [(UpdateMediaInfo_session now br g session props status h).2, ← refreshSession_attempt now session props status]
  by_cases hg : g.g_SessionManager = true <;> simp [hg]

theorem shouldUpdateArt_iff (newTitle newArtist : String) (st : MediaState) :
    shouldUpdateArt newTitle newArtist st = true
      ↔ (newTitle ≠ st.title ∨ newArtist ≠ st.artist ∨ st.albumArt = none) := by
  unfold shouldUpdateArt
  simp [Option.isNone_iff_eq_none, or_assoc]

theorem updateArt_skip (props : MediaProps) (st : MediaState)
    (h : shouldUpdateArt props.title props.artist st = false) :
    (updateArt props st).1 = st ∧ (updateArt props st).2 = [] := by
  unfold updateArt
  simp [h]

theorem UpdateMediaInfo_skip (now : Nat) (br : Bridge) (g : Globals) (session : Session)
    (props : MediaProps) (status : PlaybackStatus) (h : FindsSession br g session props status)
    (hs : shouldUpdateArt props.title props.artist g.g_MediaState = false) :
    (UpdateMediaInfo now br g).1.g_MediaState.albumArt = g.g_MediaState.albumArt
      ∧ Ev.freeArt ∉ (UpdateMediaInfo now br g).2 := by
  obtain ⟨h1, h2⟩ := UpdateMediaInfo_session now br g session props status h
  have hf := fun s => (updateTimeline_trace now session status s).2
  constructor
  · rw [h1, (refreshSession_fields now session props status _).2.2.2.2, (updateArt_skip props _ hs).1]
  · rw [h2]
    unfold refreshSession
    by_cases hg : g.g_SessionManager = true <;> simp [hg, hf, (updateArt_skip props _ hs).2]

/-! ## C1: when the album art is reloaded -/

/-- C1: a refresh that finds an active session reporting `props.title` and
`props.artist` attempts to reload the album art exactly when the title differs
from the cached one, or the artist differs, or no art is cached; when none of
the three holds the cached art is neither replaced nor freed. -/
theorem C1_art_reload_iff (now : Nat) (br : Bridge) (g : Globals) (session : Session)
    (props : MediaProps) (status : PlaybackStatus)
    (h : FindsSession br g session props status) :
    (AttemptsArtReload (UpdateMediaInfo now br g).2
        ↔ (props.title ≠ g.g_MediaState.title ∨ props.artist ≠ g.g_MediaState.artist
            ∨ g.g_MediaState.albumArt = none))
      ∧ (¬ (props.title ≠ g.g_MediaState.title ∨ props.artist ≠ g.g_MediaState.artist
            ∨ g.g_MediaState.albumArt = none)
          → (UpdateMediaInfo now br g).1.g_MediaState.albumArt = g.g_MediaState.albumArt
            ∧ Ev.freeArt ∉ (UpdateMediaInfo now br g).2) := by
  constructor
  · rw [UpdateMediaInfo_attempt now br g session props status h, shouldUpdateArt_iff]
  · intro hn
    rw [← shouldUpdateArt_iff, Bool.not_eq_true] at hn
    exact UpdateMediaInfo_skip now br g session props status h hn

/-- C1 at start-up, with a session that has a thumbnail. -/
theorem C1_art_reload_iff_witness :
    FindsSession (bridgeOf (some sessionWithThumb)) initialGlobals sessionWithThumb propsWithThumb
        PlaybackStatus.Playing
      ∧ ((AttemptsArtReload (UpdateMediaInfo 5 (bridgeOf (some sessionWithThumb)) initialGlobals).2
          ↔ (propsWithThumb.title ≠ initialGlobals.g_MediaState.title
              ∨ propsWithThumb.artist ≠ initialGlobals.g_MediaState.artist
              ∨ initialGlobals.g_MediaState.albumArt = none))
        ∧ (¬ (propsWithThumb.title ≠ initialGlobals.g_MediaState.title
              ∨ propsWithThumb.artist ≠ initialGlobals.g_MediaState.artist
              ∨ initialGlobals.g_MediaState.albumArt = none)
            → (UpdateMediaInfo 5 (bridgeOf (some sessionWithThumb)) initialGlobals).1.g_MediaState.albumArt
                = initialGlobals.g_MediaState.albumArt
              ∧ Ev.freeArt ∉ (UpdateMediaInfo 5 (bridgeOf (some sessionWithThumb)) initialGlobals).2)) :=
  ⟨⟨Or.inr rfl, rfl, rfl, rfl⟩,
   C1_art_reload_iff 5 (bridgeOf (some sessionWithThumb)) initialGlobals sessionWithThumb
     propsWithThumb PlaybackStatus.Playing ⟨Or.inr rfl, rfl, rfl, rfl⟩⟩


/-! ## C2: two consecutive refreshes with the same title and artist -/

/-- C2, amended: when two consecutive refreshes both find an active session
reporting the same title and the same artist, the second one attempts to reload
the album art exactly when the first one ended with no art cached; so it makes
no attempt when the first refresh ended with art cached. -/
theorem C2_second_refresh_reload_iff (now1 now2 : Nat) (br1 br2 : Bridge) (g : Globals)
    (s1 s2 : Session) (p1 p2 : MediaProps) (st1 st2 : PlaybackStatus)
    (h1 : FindsSession br1 g s1 p1 st1)
    (h2 : FindsSession br2 (UpdateMediaInfo now1 br1 g).1 s2 p2 st2)
    (ht : p2.title = p1.title) (ha : p2.artist = p1.artist) :
    AttemptsArtReload (UpdateMediaInfo now2 br2 (UpdateMediaInfo now1 br1 g).1).2
      ↔ (UpdateMediaInfo now1 br1 g).1.g_MediaState.albumArt = none := by
  rw [UpdateMediaInfo_attempt now2 br2 _ s2 p2 st2 h2, shouldUpdateArt_iff]
  have hm := (UpdateMediaInfo_session now1 br1 g s1 p1 st1 h1).1
  have hf := refreshSession_fields now1 s1 p1 st1 g.g_MediaState
  have e1 : (UpdateMediaInfo now1 br1 g).1.g_MediaState.title = p1.title := by rw [hm]; exact hf.1
  have e2 : (UpdateMediaInfo now1 br1 g).1.g_MediaState.artist = p1.artist := by
    rw [hm]; exact hf.2.1
  rw [e1, e2, ht, ha]
  simp

/-- C2, amended, at start-up with a session whose thumbnail loads: the second
refresh makes no attempt. -/
theorem C2_second_refresh_reload_iff_witness :
    FindsSession (bridgeOf (some sessionWithThumb)) initialGlobals sessionWithThumb propsWithThumb
        PlaybackStatus.Playing
      ∧ FindsSession (bridgeOf (some sessionWithThumb))
          (UpdateMediaInfo 5 (bridgeOf (some sessionWithThumb)) initialGlobals).1 sessionWithThumb
          propsWithThumb PlaybackStatus.Playing
      ∧ (AttemptsArtReload (UpdateMediaInfo 21 (bridgeOf (some sessionWithThumb))
            (UpdateMediaInfo 5 (bridgeOf (some sessionWithThumb)) initialGlobals).1).2
          ↔ (UpdateMediaInfo 5 (bridgeOf (some sessionWithThumb)) initialGlobals).1.g_MediaState.albumArt
              = none) :=
  ⟨⟨Or.inr rfl, rfl, rfl, rfl⟩, ⟨Or.inr rfl, rfl, rfl, rfl⟩,
   C2_second_refresh_reload_iff 5 21 (bridgeOf (some sessionWithThumb))
     (bridgeOf (some sessionWithThumb)) initialGlobals sessionWithThumb sessionWithThumb
     propsWithThumb propsWithThumb PlaybackStatus.Playing PlaybackStatus.Playing
     ⟨Or.inr rfl, rfl, rfl, rfl⟩ ⟨Or.inr rfl, rfl, rfl, rfl⟩ rfl rfl⟩

/-- C2 as stated fails: at start-up, two consecutive refreshes find the same
session "Song" by "Band", which has no thumbnail; the first load yields no art,
and the second refresh attempts the reload again. -/
theorem C2_counterexample :
    FindsSession (bridgeOf (some sessionNoThumb)) initialGlobals sessionNoThumb
        { title := "Song", artist := "Band", thumbnail := Outcome.ok none } PlaybackStatus.Playing
      ∧ FindsSession (bridgeOf (some sessionNoThumb))
          (UpdateMediaInfo 5 (bridgeOf (some sessionNoThumb)) initialGlobals).1 sessionNoThumb
          { title := "Song", artist := "Band", thumbnail := Outcome.ok none } PlaybackStatus.Playing
      ∧ AttemptsArtReload (UpdateMediaInfo 21 (bridgeOf (some sessionNoThumb))
          (UpdateMediaInfo 5 (bridgeOf (some sessionNoThumb)) initialGlobals).1).2 := by
  have hF : FindsSession (bridgeOf (some sessionNoThumb)) initialGlobals sessionNoThumb
      { title := "Song", artist := "Band", thumbnail := Outcome.ok none }
      PlaybackStatus.Playing := ⟨Or.inr rfl, rfl, rfl, rfl⟩
  have hF2 : FindsSession (bridgeOf (some sessionNoThumb))
      (UpdateMediaInfo 5 (bridgeOf (some sessionNoThumb)) initialGlobals).1 sessionNoThumb
      { title := "Song", artist := "Band", thumbnail := Outcome.ok none }
      PlaybackStatus.Playing := ⟨Or.inr rfl, rfl, rfl, rfl⟩
  refine ⟨hF, hF2, ?_⟩
  rw [UpdateMediaInfo_attempt _ _ _ _ _ _ hF2, shouldUpdateArt_iff]
  right; right
  rw [(UpdateMediaInfo_session _ _ _ _ _ _ hF).1, (refreshSession_fields _ _ _ _ _).2.2.2.2]
  simp [updateArt, shouldUpdateArt, initialGlobals, loadThumbnail]


/-! ## C3: the hover timer toggles the panel at most once -/

theorem usub64_of_le (a b : Nat) (hab : b ≤ a) (ha : a < 2 ^ 64) : usub64 a b = a - b := by
  unfold usub64
  have hb : b < 2 ^ 64 := lt_of_le_of_lt hab ha
  rw [Nat.mod_eq_of_lt ha, Nat.mod_eq_of_lt hb]
  have e : a + 2 ^ 64 - b = (a - b) + 2 ^ 64 := by omega
  rw [e, Nat.add_mod_right, Nat.mod_eq_of_lt (by omega)]

theorem onHoverTimer_dwelling (now : Nat) (g : Globals) (hz : g.g_HoverTabZone = true)
    (he : usub64 now g.g_HoverTimerStart < 3000) :
    (onHoverTimer now g).g_PanelOpen = g.g_PanelOpen
      ∧ (onHoverTimer now g).g_PanelTargetOffsetX = g.g_PanelTargetOffsetX
      ∧ (onHoverTimer now g).g_HoverTabZone = true := by
  unfold onHoverTimer
  have hn : ¬ (usub64 now g.g_HoverTimerStart ≥ 3000) := by omega
  simp [hz, hn]

theorem onHoverTimer_trigger (now : Nat) (g : Globals) (hz : g.g_HoverTabZone = true)
    (he : 3000 ≤ usub64 now g.g_HoverTimerStart) :
    (onHoverTimer now g).g_PanelOpen = (!g.g_PanelOpen)
      ∧ (onHoverTimer now g).g_PanelTargetOffsetX
          = (if (onHoverTimer now g).g_PanelOpen then 0 else -(g.g_Settings.width - 20))
      ∧ (onHoverTimer now g).g_HoverBoldLevel = 0
      ∧ (onHoverTimer now g).g_HoverTabZone = false
      ∧ (onHoverTimer now g).timerHover = none := by
  unfold onHoverTimer
  have hn : usub64 now g.g_HoverTimerStart ≥ 3000 := he
  cases ho : g.g_PanelOpen <;> simp [hz, hn, ho]

theorem onHoverTimer_inactive (now : Nat) (g : Globals) (hz : g.g_HoverTabZone = false) :
    (onHoverTimer now g).g_PanelOpen = g.g_PanelOpen
      ∧ (onHoverTimer now g).g_PanelTargetOffsetX = g.g_PanelTargetOffsetX
      ∧ (onHoverTimer now g).g_HoverTabZone = false := by
  unfold onHoverTimer
  by_cases hgr : usub64 now g.g_HoverLastLeftTime < 500 <;> simp [hz, hgr]

theorem countToggles_inactive (ticks : List Nat) :
    ∀ g : Globals, g.g_HoverTabZone = false → countToggles ticks g = 0 := by
  induction ticks with
  | nil => intro g _; rfl
  | cons now rest ih =>
    intro g hz
    have h := onHoverTimer_inactive now g hz
    simp [countToggles, h.1, ih _ h.2.2]

theorem countToggles_le_one (ticks : List Nat) : ∀ g : Globals, countToggles ticks g ≤ 1 := by
  induction ticks with
  | nil => intro g; simp [countToggles]
  | cons now rest ih =>
    intro g
    cases hz : g.g_HoverTabZone
    · rw [countToggles_inactive _ g hz]; exact Nat.zero_le 1
    · by_cases he : usub64 now g.g_HoverTimerStart < 3000
      · have h := onHoverTimer_dwelling now g hz he
        have := ih (onHoverTimer now g)
        simp [countToggles, h.1, this]
      · have h := onHoverTimer_trigger now g hz (by omega)
        have h0 := countToggles_inactive rest _ h.2.2.2.1
        simp only [countToggles, h0]
        split <;> simp

/-- C3: a hover tick with the reveal zone active and fewer than 3000 ms elapsed
leaves `g_PanelOpen` and `g_PanelTargetOffsetX` unchanged; with the zone active
and at least 3000 ms elapsed it flips `g_PanelOpen`, sets the target to 0 when
opening and to `-(width - 20)` when closing, resets the bold level, marks the
zone inactive and kills the hover timer; with the zone inactive it never
changes `g_PanelOpen` or the target.  Hence a run of hover ticks, whatever tick
counts they read, toggles the panel at most once. -/
theorem C3_hover_tick_toggles_once (g : Globals) (now : Nat) (ticks : List Nat) :
    (g.g_HoverTabZone = true → usub64 now g.g_HoverTimerStart < 3000 →
        (onHoverTimer now g).g_PanelOpen = g.g_PanelOpen
          ∧ (onHoverTimer now g).g_PanelTargetOffsetX = g.g_PanelTargetOffsetX)
      ∧ (g.g_HoverTabZone = true → 3000 ≤ usub64 now g.g_HoverTimerStart →
          (onHoverTimer now g).g_PanelOpen = (!g.g_PanelOpen)
            ∧ (onHoverTimer now g).g_PanelTargetOffsetX
                = (if (onHoverTimer now g).g_PanelOpen then 0 else -(g.g_Settings.width - 20))
            ∧ (onHoverTimer now g).g_HoverBoldLevel = 0
            ∧ (onHoverTimer now g).g_HoverTabZone = false
            ∧ (onHoverTimer now g).timerHover = none)
      ∧ (g.g_HoverTabZone = false →
          (onHoverTimer now g).g_PanelOpen = g.g_PanelOpen
            ∧ (onHoverTimer now g).g_PanelTargetOffsetX = g.g_PanelTargetOffsetX)
      ∧ countToggles ticks g ≤ 1 := by
  refine ⟨?_, ?_, ?_, countToggles_le_one ticks g⟩
  · intro hz he
    exact ⟨(onHoverTimer_dwelling now g hz he).1, (onHoverTimer_dwelling now g hz he).2.1⟩
  · intro hz he
    exact onHoverTimer_trigger now g hz he
  · intro hz
    exact ⟨(onHoverTimer_inactive now g hz).1, (onHoverTimer_inactive now g hz).2.1⟩


/-- C3 on a dwell begun at tick 1000 with the default width 400: the tick at
4000 closes the panel towards offset -380, and a run of four ticks toggles at
most once. -/
theorem C3_hover_tick_toggles_once_witness :
    dwellingGlobals.g_HoverTabZone = true
      ∧ 3000 ≤ usub64 4000 dwellingGlobals.g_HoverTimerStart
      ∧ (onHoverTimer 4000 dwellingGlobals).g_PanelOpen = false
      ∧ (onHoverTimer 4000 dwellingGlobals).g_PanelTargetOffsetX = -380
      ∧ (onHoverTimer 4000 dwellingGlobals).timerHover = none
      ∧ countToggles [2000, 4000, 4050, 9000] dwellingGlobals ≤ 1 := by
  have h := C3_hover_tick_toggles_once dwellingGlobals 4000 [2000, 4000, 4050, 9000]
  have hz : dwellingGlobals.g_HoverTabZone = true := rfl
  have he : 3000 ≤ usub64 4000 dwellingGlobals.g_HoverTimerStart := by decide
  obtain ⟨h1, h2, _, _, h5⟩ := h.2.1 hz he
  refine ⟨hz, he, h1, ?_, h5, h.2.2.2⟩
  rw [h2, h1]
  rfl


/-! ## C4: re-entering the reveal zone -/

theorem hoveredTabZone_congr (x y : Int) (g g2 : Globals) (h : g2.g_Settings = g.g_Settings) :
    hoveredTabZone x y g2 = hoveredTabZone x y g := by
  unfold hoveredTabZone
  rw [h]

theorem onMouseMove_gesture (now : Nat) (glyphH : ℚ) (x y : Int) (g : Globals) :
    (onMouseMove now glyphH x y g).g_Settings = g.g_Settings
      ∧ (onMouseMove now glyphH x y g).g_HoverTabZone = (tabZoneStep now x y g).g_HoverTabZone
      ∧ (onMouseMove now glyphH x y g).g_HoverTimerStart = (tabZoneStep now x y g).g_HoverTimerStart
      ∧ (onMouseMove now glyphH x y g).g_HoverLastLeftTime
          = (tabZoneStep now x y g).g_HoverLastLeftTime := by
  have hs : (tabZoneStep now x y g).g_Settings = g.g_Settings := by
    unfold tabZoneStep
    split
    · split <;> rfl
    · split <;> rfl
  unfold onMouseMove
  simp only []
  split
  · exact ⟨hs, rfl, rfl, rfl⟩
  · split
    · exact ⟨hs, rfl, rfl, rfl⟩
    · exact ⟨hs, rfl, rfl, rfl⟩

theorem exit_establishes (glyphH : ℚ) (g : Globals) (L : Nat) (e : AwayEv)
    (hz : g.g_HoverTabZone = true) (he : e.exitsZoneAt L g) :
    AwayInv g g.g_HoverTimerStart L (applyAway glyphH e g) := by
  cases e with
  | move now x y =>
    obtain ⟨hn, ho⟩ := he
    have h := onMouseMove_gesture now glyphH x y g
    unfold AwayInv applyAway
    simp only []
    rw [h.1, h.2.1, h.2.2.1, h.2.2.2]
    unfold tabZoneStep
    simp [ho, hz, hn]
  | leaveWindow now =>
    have hn : now = L := he
    unfold AwayInv applyAway onMouseLeave
    simp [hn]
  | hoverTick now => exact absurd he (by simp [AwayEv.exitsZoneAt])

theorem away_preserves (glyphH : ℚ) (g0 g : Globals) (S L : Nat) (e : AwayEv)
    (hi : AwayInv g0 S L g) (he : e.isMoveOutside g0 ∨ ∃ now, e = AwayEv.hoverTick now) :
    AwayInv g0 S L (applyAway glyphH e g) := by
  obtain ⟨h1, h2, h3, h4⟩ := hi
  cases e with
  | move now x y =>
    have ho : hoveredTabZone x y g0 = false := by
      rcases he with he | ⟨n, hn⟩
      · exact he
      · cases hn
    have ho2 : hoveredTabZone x y g = false := by rw [hoveredTabZone_congr x y g0 g h1]; exact ho
    have h := onMouseMove_gesture now glyphH x y g
    unfold AwayInv applyAway
    simp only []
    rw [h.1, h.2.1, h.2.2.1, h.2.2.2]
    unfold tabZoneStep
    simp [ho2, h1, h2, h3, h4]
  | leaveWindow now =>
    rcases he with he | ⟨n, hn⟩
    · exact absurd he (by simp [AwayEv.isMoveOutside])
    · cases hn
  | hoverTick now =>
    unfold AwayInv applyAway onHoverTimer
    simp only [h2, Bool.false_eq_true, if_false]
    split <;> exact ⟨h1, rfl, h3, h4⟩

theorem runAway_preserves (glyphH : ℚ) (g0 : Globals) (S L : Nat) (evs : List AwayEv) :
    ∀ g : Globals, AwayInv g0 S L g →
      (∀ e ∈ evs, e.isMoveOutside g0 ∨ ∃ now, e = AwayEv.hoverTick now) →
      AwayInv g0 S L (runAway glyphH evs g) := by
  induction evs with
  | nil => intro g hi _; exact hi
  | cons e rest ih =>
    intro g hi hall
    unfold runAway
    apply ih
    · exact away_preserves glyphH g0 g S L e hi (hall e (List.mem_cons_self e rest))
    · intro e2 he2
      exact hall e2 (List.mem_cons_of_mem e he2)


theorem tabZoneStep_enter (now : Nat) (x y : Int) (g : Globals)
    (hin : hoveredTabZone x y g = true) (hz : g.g_HoverTabZone = false) :
    (tabZoneStep now x y g).g_HoverTabZone = true
      ∧ (tabZoneStep now x y g).g_HoverTimerStart
          = (if decide (g.g_HoverLastLeftTime > 0) && decide (usub64 now g.g_HoverLastLeftTime < 500)
              then (if usub64 now g.g_HoverTimerStart > 3000 then now else g.g_HoverTimerStart)
              else now) := by
  unfold tabZoneStep
  simp [hin, hz]

/-- The re-entry rule when no window leave comes between the exit and the
re-entry: a dwell started at `S` is left at tick `L > 0` and re-entered at tick
`R`, with only pointer moves outside the zone and hover-timer ticks in between.
If `R - L < 500` and `R - S ≤ 3000` the start of the dwell stays `S`; if
`R - L < 500` and `R - S > 3000` it becomes `R`; if `R - L ≥ 500` it becomes
`R`. -/
theorem reentry_without_window_leave (glyphH : ℚ) (g : Globals) (S L R : Nat) (exit : AwayEv)
    (evs : List AwayEv) (x y : Int)
    (hz : g.g_HoverTabZone = true) (hS : g.g_HoverTimerStart = S)
    (hexit : exit.exitsZoneAt L g)
    (hevs : ∀ e ∈ evs, e.isMoveOutside g ∨ ∃ now, e = AwayEv.hoverTick now)
    (hin : hoveredTabZone x y g = true)
    (hSL : S ≤ L) (hLR : L ≤ R) (hR : R < 2 ^ 64) (hL : 0 < L) :
    (R - L < 500 → R - S ≤ 3000 →
        (onMouseMove R glyphH x y (runAway glyphH evs (applyAway glyphH exit g))).g_HoverTimerStart = S)
      ∧ (R - L < 500 → 3000 < R - S →
        (onMouseMove R glyphH x y (runAway glyphH evs (applyAway glyphH exit g))).g_HoverTimerStart = R)
      ∧ (500 ≤ R - L →
        (onMouseMove R glyphH x y (runAway glyphH evs (applyAway glyphH exit g))).g_HoverTimerStart = R)
      ∧ (onMouseMove R glyphH x y (runAway glyphH evs (applyAway glyphH exit g))).g_HoverTabZone
          = true := by
  have hi0 := exit_establishes glyphH g L exit hz hexit
  rw [hS] at hi0
  obtain ⟨h1, h2, h3, h4⟩ := runAway_preserves glyphH g S L evs _ hi0 hevs
  have hin2 := (hoveredTabZone_congr x y g _ h1).trans hin
  have hm := onMouseMove_gesture R glyphH x y (runAway glyphH evs (applyAway glyphH exit g))
  have ht := tabZoneStep_enter R x y _ hin2 h2
  rw [hm.2.1, hm.2.2.1, ht.1, ht.2, h3, h4, usub64_of_le R L hLR hR,
    usub64_of_le R S (le_trans hSL hLR) hR]
  refine ⟨?_, ?_, ?_, rfl⟩
  · intro ha hb
    have hb2 : ¬ (R - S > 3000) := by omega
    simp [hL, ha, hb2]
  · intro ha hb
    simp [hL, ha, hb]
  · intro ha
    have ha2 : ¬ (R - L < 500) := by omega
    simp [ha2]

/-- C4, at the failing input: on the default panel the pointer enters the
reveal zone at tick 1000 (`S`), moves out of it at `L = 2000`, the hover tick at
2500 finds the grace window expired and kills the hover timer, the pointer
leaves the window at 2600 and re-enters the zone at `R = 2800`.  The window
leave has overwritten the recorded time of leaving (2000) with 2600, so
although `R - L = 800 ≥ 500` the dwell is not restarted: its start is still
1000, not 2800, and the hover tick at 4000, only 1200 ms after the re-entry,
closes the panel.  Without the window leave the same re-entry restarts the
dwell at 2800. -/
theorem C4_window_leave_resumes_dwell :
    onMouseMove 1000 18 390 50 initialGlobals = dwellingGlobals
      ∧ (applyAway 18 (AwayEv.move 2000 0 0) dwellingGlobals).g_HoverLastLeftTime = 2000
      ∧ (runAway 18 [AwayEv.hoverTick 2500]
          (applyAway 18 (AwayEv.move 2000 0 0) dwellingGlobals)).timerHover = none
      ∧ (runAway 18 [AwayEv.hoverTick 2500, AwayEv.leaveWindow 2600]
          (applyAway 18 (AwayEv.move 2000 0 0) dwellingGlobals)).g_HoverLastLeftTime = 2600
      ∧ (onMouseMove 2800 18 390 50
          (runAway 18 [AwayEv.hoverTick 2500, AwayEv.leaveWindow 2600]
            (applyAway 18 (AwayEv.move 2000 0 0) dwellingGlobals))).g_HoverTimerStart = 1000
      ∧ (onHoverTimer 4000 (onMouseMove 2800 18 390 50
          (runAway 18 [AwayEv.hoverTick 2500, AwayEv.leaveWindow 2600]
            (applyAway 18 (AwayEv.move 2000 0 0) dwellingGlobals)))).g_PanelOpen = false
      ∧ (onMouseMove 2800 18 390 50
          (runAway 18 [AwayEv.hoverTick 2500]
            (applyAway 18 (AwayEv.move 2000 0 0) dwellingGlobals))).g_HoverTimerStart = 2800 := by
  refine ⟨rfl, ?_, ?_, ?_, ?_, ?_, ?_⟩ <;> decide

/-! ## C5: the panel slide -/

theorem scrollStep_panel (g : Globals) :
    (scrollStep g).g_PanelOffsetX = g.g_PanelOffsetX
      ∧ (scrollStep g).g_PanelTargetOffsetX = g.g_PanelTargetOffsetX := by
  unfold scrollStep
  split
  · split
    · exact ⟨rfl, rfl⟩
    · simp only []
      split <;> exact ⟨rfl, rfl⟩
  · exact ⟨rfl, rfl⟩

theorem slideStep_panel (g : Globals) :
    (slideStep g).g_PanelTargetOffsetX = g.g_PanelTargetOffsetX
      ∧ (g.g_PanelOffsetX ≤ g.g_PanelTargetOffsetX →
          (slideStep g).g_PanelOffsetX = min (g.g_PanelOffsetX + 15) g.g_PanelTargetOffsetX)
      ∧ (g.g_PanelTargetOffsetX ≤ g.g_PanelOffsetX →
          (slideStep g).g_PanelOffsetX = max (g.g_PanelOffsetX - 15) g.g_PanelTargetOffsetX) := by
  unfold slideStep
  by_cases hne : g.g_PanelOffsetX ≠ g.g_PanelTargetOffsetX
  · by_cases hab : |g.g_PanelTargetOffsetX - g.g_PanelOffsetX| ≤ 15
    · have hab2 := abs_le.mp hab
      simp only [hne, hab, if_true, ne_eq, not_false_eq_true]
      refine ⟨by trivial, ?_, ?_⟩
      · intro _; omega
      · intro _; omega
    · have hab2 : ¬ (-15 ≤ g.g_PanelTargetOffsetX - g.g_PanelOffsetX
          ∧ g.g_PanelTargetOffsetX - g.g_PanelOffsetX ≤ 15) := fun h => hab (abs_le.mpr h)
      simp only [hne, hab, if_true, if_false, ne_eq, not_false_eq_true]
      refine ⟨by trivial, ?_, ?_⟩
      · intro hle
        have hpos : g.g_PanelTargetOffsetX - g.g_PanelOffsetX > 0 := by omega
        simp only [hpos, if_true]
        omega
      · intro hle
        have hpos : ¬ (g.g_PanelTargetOffsetX - g.g_PanelOffsetX > 0) := by omega
        simp only [hpos, if_false]
        omega
  · have he : g.g_PanelOffsetX = g.g_PanelTargetOffsetX := not_not.mp hne
    simp only [hne, if_false]
    refine ⟨by trivial, ?_, ?_⟩
    · intro _; omega
    · intro _; omega

theorem onAnimationTimer_panel (g : Globals) :
    (onAnimationTimer g).g_PanelTargetOffsetX = g.g_PanelTargetOffsetX
      ∧ (g.g_PanelOffsetX ≤ g.g_PanelTargetOffsetX →
          (onAnimationTimer g).g_PanelOffsetX = min (g.g_PanelOffsetX + 15) g.g_PanelTargetOffsetX)
      ∧ (g.g_PanelTargetOffsetX ≤ g.g_PanelOffsetX →
          (onAnimationTimer g).g_PanelOffsetX
            = max (g.g_PanelOffsetX - 15) g.g_PanelTargetOffsetX) := by
  unfold onAnimationTimer
  split
  · have hs := scrollStep_panel g
    have hp := slideStep_panel (scrollStep g)
    rw [hs.1, hs.2] at hp
    exact hp
  · rename_i hc
    have he : g.g_PanelOffsetX = g.g_PanelTargetOffsetX := by
      by_contra hne
      exact hc (by simp [hne])
    refine ⟨rfl, ?_, ?_⟩
    · intro _; simp only []; omega
    · intro _; simp only []; omega

theorem animation_closed_form (g : Globals) (k : Nat) :
    (onAnimationTimer^[k] g).g_PanelTargetOffsetX = g.g_PanelTargetOffsetX
      ∧ (g.g_PanelOffsetX ≤ g.g_PanelTargetOffsetX →
          (onAnimationTimer^[k] g).g_PanelOffsetX
            = min (g.g_PanelOffsetX + 15 * k) g.g_PanelTargetOffsetX)
      ∧ (g.g_PanelTargetOffsetX ≤ g.g_PanelOffsetX →
          (onAnimationTimer^[k] g).g_PanelOffsetX
            = max (g.g_PanelOffsetX - 15 * k) g.g_PanelTargetOffsetX) := by
  induction k with
  | zero =>
    refine ⟨rfl, ?_, ?_⟩
    · intro h; simp only [Function.iterate_zero, id_eq]; omega
    · intro h; simp only [Function.iterate_zero, id_eq]; omega
  | succ n ih =>
    obtain ⟨i1, i2, i3⟩ := ih
    have hp := onAnimationTimer_panel (onAnimationTimer^[n] g)
    rw [Function.iterate_succ_apply']
    rw [i1] at hp
    refine ⟨hp.1, ?_, ?_⟩
    · intro h
      have e := i2 h
      rw [hp.2.1 (by rw [e]; omega), e]
      push_cast
      omega
    · intro h
      have e := i3 h
      rw [hp.2.2 (by rw [e]; omega), e]
      push_cast
      omega


/-- C5: with the target offset `t` fixed and the offset starting at `c`, after
`k` animation ticks the target is still `t`, the offset lies between `c` and
`t`, and its distance to `t` is exactly `max (|t - c| - 15 k) 0`; hence the
offset equals `t` exactly from tick `⌈|t - c| / 15⌉` on. -/
theorem C5_slide_reaches_target (g : Globals) (k : Nat) :
    (onAnimationTimer^[k] g).g_PanelTargetOffsetX = g.g_PanelTargetOffsetX
      ∧ min g.g_PanelOffsetX g.g_PanelTargetOffsetX ≤ (onAnimationTimer^[k] g).g_PanelOffsetX
      ∧ (onAnimationTimer^[k] g).g_PanelOffsetX ≤ max g.g_PanelOffsetX g.g_PanelTargetOffsetX
      ∧ |g.g_PanelTargetOffsetX - (onAnimationTimer^[k] g).g_PanelOffsetX|
          = max (|g.g_PanelTargetOffsetX - g.g_PanelOffsetX| - 15 * (k : Int)) 0
      ∧ ((onAnimationTimer^[k] g).g_PanelOffsetX = g.g_PanelTargetOffsetX
          ↔ ⌈((|g.g_PanelTargetOffsetX - g.g_PanelOffsetX| : Int) : ℚ) / 15⌉ ≤ (k : Int)) := by
  obtain ⟨h1, h2, h3⟩ := animation_closed_form g k
  have hceil : ∀ d : Int, (⌈(d : ℚ) / 15⌉ ≤ (k : Int)) ↔ d ≤ 15 * (k : Int) := by
    intro d
    rw [Int.ceil_le, div_le_iff₀ (by norm_num : (0 : ℚ) < 15)]
    constructor
    · intro h
      have h2 : (d : ℚ) ≤ ((15 * (k : Int) : Int) : ℚ) := by push_cast at h ⊢; linarith
      exact_mod_cast h2
    · intro h
      have h2 : (d : ℚ) ≤ ((15 * (k : Int) : Int) : ℚ) := by exact_mod_cast h
      push_cast at h2 ⊢; linarith
  rw [hceil]
  rcases le_total g.g_PanelOffsetX g.g_PanelTargetOffsetX with hle | hle
  · have e := h2 hle
    have a1 : |g.g_PanelTargetOffsetX - g.g_PanelOffsetX|
        = g.g_PanelTargetOffsetX - g.g_PanelOffsetX := abs_of_nonneg (by omega)
    have a2 : |g.g_PanelTargetOffsetX - (onAnimationTimer^[k] g).g_PanelOffsetX|
        = g.g_PanelTargetOffsetX - (onAnimationTimer^[k] g).g_PanelOffsetX :=
      abs_of_nonneg (by rw [e]; omega)
    rw [a1, a2, e]
    refine ⟨h1, ?_, ?_, ?_, ?_⟩ <;> omega
  · have e := h3 hle
    have a1 : |g.g_PanelTargetOffsetX - g.g_PanelOffsetX|
        = g.g_PanelOffsetX - g.g_PanelTargetOffsetX := by
      rw [abs_of_nonpos (by omega)]; omega
    have a2 : |g.g_PanelTargetOffsetX - (onAnimationTimer^[k] g).g_PanelOffsetX|
        = (onAnimationTimer^[k] g).g_PanelOffsetX - g.g_PanelTargetOffsetX := by
      rw [abs_of_nonpos (by rw [e]; omega)]; omega
    rw [a1, a2, e]
    refine ⟨h1, ?_, ?_, ?_, ?_⟩ <;> omega


/-- C5 on the default panel closing from offset 0 to -380: the target is
reached on tick 26 and not on tick 25. -/
theorem C5_slide_reaches_target_witness :
    (onAnimationTimer^[26] closingGlobals).g_PanelOffsetX = -380
      ∧ (onAnimationTimer^[25] closingGlobals).g_PanelOffsetX ≠ -380 := by
  have e : ((|closingGlobals.g_PanelTargetOffsetX - closingGlobals.g_PanelOffsetX| : Int) : ℚ)
      = 380 := by
    simp [closingGlobals, initialGlobals]
  constructor
  · refine (C5_slide_reaches_target closingGlobals 26).2.2.2.2.mpr ?_
    rw [e, Int.ceil_le]
    norm_num
  · intro h
    have h2 := (C5_slide_reaches_target closingGlobals 25).2.2.2.2.mp h
    rw [e, Int.ceil_le] at h2
    norm_num at h2

/-! ## C6: releasing a drag -/

theorem truncQ_nonneg_bounds (q : ℚ) (h : 0 ≤ q) :
    0 ≤ truncQ q ∧ (truncQ q : ℚ) ≤ q ∧ q < (truncQ q : ℚ) + 1 := by
  unfold truncQ
  rw [if_pos h]
  exact ⟨Int.floor_nonneg.mpr h, Int.floor_le q, Int.lt_floor_add_one q⟩

theorem castLL_fin (q : ℚ) (h0 : 0 ≤ q) (h1 : q < 2 ^ 63) :
    castLL (Flt.fin q) = some (truncQ q) := by
  have hb := truncQ_nonneg_bounds q h0
  have hlt : truncQ q < (2 : Int) ^ 63 := by
    have : (truncQ q : ℚ) < ((2 ^ 63 : Int) : ℚ) := by
      push_cast
      exact lt_of_le_of_lt hb.2.1 h1
    exact_mod_cast this
  have hge : -(2 : Int) ^ 63 ≤ truncQ q := le_trans (by norm_num) hb.1
  unfold castLL
  simp only []
  rw [if_pos ⟨hge, hlt⟩]

theorem clampProgress_unit (p : ℚ) (h0 : 0 ≤ p) (h1 : p ≤ 1) : clampProgress (Flt.fin p) = p := by
  unfold clampProgress
  have a : ¬ (p < 0) := not_lt.mpr h0
  have b : ¬ (1 < p) := not_lt.mpr h1
  simp [Flt.ltQ, Flt.gtQ, Flt.isnan, a, b]


theorem round64_ticks_bound (t : ℚ) (h0 : 0 ≤ t) (h1 : t * 10000000 ≤ 2 ^ 63 - 1024) :
    0 ≤ round64 (t * 10000000) ∧ round64 (t * 10000000) < 2 ^ 63 := by
  have hfix : round64 (2 ^ 63 - 1024) = 2 ^ 63 - 1024 := by
    have e : ((2 : ℚ) ^ 63 - 1024) = (((2 : Int) ^ 53 - 1 : Int) : ℚ) * (2 : ℚ) ^ (10 : Int) := by
      norm_num
    rw [e]
    exact round64_repr _ 10 (by norm_num [abs_lt]) (by norm_num)
  have hx : 0 ≤ t * 10000000 := by positivity
  refine ⟨roundTo_nonneg 53 (-1022) _ hx, ?_⟩
  have h := roundTo_le_fixed 53 (-1022) _ _ hx h1 hfix
  have hlt : (2 : ℚ) ^ 63 - 1024 < 2 ^ 63 := by norm_num
  exact lt_of_le_of_lt h hlt

/-- The tick count of a seek is within one unit and `2^-51` relative of the
exact `p * d * 10^7`. -/
theorem seek_ticks_close (p d : ℚ) (hp0 : 0 ≤ p) (hpf : round32 p = p)
    (hd : 1 / 16777216 ≤ d) :
    p * d * 10000000 * (1 - 1 / 2 ^ 51) - 1
        < (truncQ (round64 (round64 (p * d) * 10000000)) : ℚ)
      ∧ (truncQ (round64 (round64 (p * d) * 10000000)) : ℚ)
        ≤ p * d * 10000000 * (1 + 1 / 2 ^ 51) := by
  have hdpos : 0 < d := lt_of_lt_of_le (by norm_num) hd
  have hx : 0 ≤ p * d := mul_nonneg hp0 (le_of_lt hdpos)
  have ht0 : 0 ≤ round64 (p * d) := roundTo_nonneg 53 (-1022) _ hx
  have hu0 : 0 ≤ round64 (round64 (p * d) * 10000000) :=
    roundTo_nonneg 53 (-1022) _ (by positivity)
  have hb := truncQ_nonneg_bounds _ hu0
  have h1 := round64_product_err p d hp0 hpf hd
  rw [abs_le] at h1
  obtain ⟨h11, h12⟩ := h1
  have h2 : |round64 (round64 (p * d) * 10000000) - round64 (p * d) * 10000000|
      ≤ round64 (p * d) * 10000000 / 2 ^ 53 := by
    rcases eq_or_lt_of_le hp0 with h0 | hpos
    · rw [← h0]
      simp [round64, roundTo_zero]
    · have hpge := (fixed_pos_ge 24 (-126) p hpos hpf).2
      have hpge2 : (1 : ℚ) / 2 ^ 149 ≤ p := by
        have e : (2 : ℚ) ^ ((-126 : Int) - (((24 : Nat) : Int) - 1)) = 1 / 2 ^ 149 := by norm_num
        rw [e] at hpge
        exact hpge
      have hxge : (1 : ℚ) / 2 ^ 149 * (1 / 16777216) ≤ p * d :=
        mul_le_mul hpge2 hd (by norm_num) (le_of_lt hpos)
      have htpos : 0 < round64 (p * d) * 10000000 := by
        have : p * d / 2 ^ 53 < p * d := by
          rw [div_lt_iff₀ (by norm_num)]
          have : 0 < p * d := mul_pos hpos hdpos
          linarith
        have : 0 < round64 (p * d) := by linarith
        positivity
      have hn : (2 : ℚ) ^ (-1022 : Int) ≤ |round64 (p * d) * 10000000| := by
        rw [abs_of_pos htpos]
        have e : (2 : ℚ) ^ (-1022 : Int)
            ≤ (1 / 2 ^ 149 * (1 / 16777216)) * (1 - 1 / 2 ^ 53) * 10000000 := by norm_num
        have h3 : (1 / 2 ^ 149 * (1 / 16777216)) * (1 - 1 / 2 ^ 53) ≤ round64 (p * d) := by
          have : (1 / 2 ^ 149 * (1 / 16777216)) * (1 - 1 / 2 ^ 53) ≤ p * d * (1 - 1 / 2 ^ 53) :=
            mul_le_mul_of_nonneg_right hxge (by norm_num)
          linarith
        exact le_trans e (mul_le_mul_of_nonneg_right h3 (by norm_num))
      have h := round64_rel_err _ hn
      rw [abs_of_pos htpos] at h
      exact h
  rw [abs_le] at h2
  obtain ⟨h21, h22⟩ := h2
  constructor
  · have := hb.2.2
    linarith
  · have := hb.2.1
    linarith

/-- C6: a release while dragging, with the cached state timeline-capable with
a positive duration `d` (a `double` of at least `2^-24` s whose `d * 10^7` is
within the `LONGLONG` range), the drag progress a `float` `p` in `[0, 1]` and a
session that answers, sends exactly one command: a seek to `newTime = p * d`
seconds, the product rounded to `double`, which lies between 0 and the
duration and within `2^-53` relative of the exact product.  The command
carries it as `(LONGLONG)(newTime * 10^7)` units of 100 ns, within one unit and
`2^-51` relative of the exact `p * d * 10^7`.  The release ends the drag, and
when the session is not playing and the seek call returns, the cached position
becomes `newTime`, so that the next paint shows the progress `p` again. -/
theorem C6_release_seeks (br : Bridge) (g : Globals) (session : Session) (tl : Timeline)
    (status : PlaybackStatus) (p : ℚ)
    (hd : g.g_TimelineDragging = true)
    (hsp : g.g_MediaState.isSpotify = true) (hdur : 0 < g.g_MediaState.duration)
    (hdf : round64 g.g_MediaState.duration = g.g_MediaState.duration)
    (hdmin : 1 / 16777216 ≤ g.g_MediaState.duration)
    (hrange : g.g_MediaState.duration * 10000000 ≤ 2 ^ 63 - 1024)
    (hp : g.g_TimelineDragProgress = Flt.fin p) (hpf : round32 p = p)
    (hp0 : 0 ≤ p) (hp1 : p ≤ 1)
    (hm : g.g_SessionManager = true)
    (hs : br.currentSession = Outcome.ok (some session))
    (htl : session.timelineProperties = Outcome.ok tl)
    (hst : session.playbackStatus = Outcome.ok status) :
    ∃ g2 : Globals,
      onLButtonUp br g
          = some (g2, [Cmd.seek
              (truncQ (round64 (round64 (p * g.g_MediaState.duration) * 10000000)))])
        ∧ 0 ≤ round64 (p * g.g_MediaState.duration)
        ∧ round64 (p * g.g_MediaState.duration) ≤ g.g_MediaState.duration
        ∧ |round64 (p * g.g_MediaState.duration) - p * g.g_MediaState.duration|
            ≤ p * g.g_MediaState.duration / 2 ^ 53
        ∧ (p * g.g_MediaState.duration * 10000000 * (1 - 1 / 2 ^ 51) - 1
              < (truncQ (round64 (round64 (p * g.g_MediaState.duration) * 10000000)) : ℚ)
            ∧ (truncQ (round64 (round64 (p * g.g_MediaState.duration) * 10000000)) : ℚ)
              ≤ p * g.g_MediaState.duration * 10000000 * (1 + 1 / 2 ^ 51))
        ∧ g2.g_TimelineDragging = false
        ∧ (status ≠ PlaybackStatus.Playing → (∃ r, session.changePosition = Outcome.ok r) →
            g2.g_MediaState.position = round64 (p * g.g_MediaState.duration)
              ∧ drawProgress g2 = some (Flt.fin p)) := by
  have hx0 : 0 ≤ p * g.g_MediaState.duration := mul_nonneg hp0 (le_of_lt hdur)
  have hxle : p * g.g_MediaState.duration ≤ g.g_MediaState.duration := by nlinarith
  have ht0 : 0 ≤ round64 (p * g.g_MediaState.duration) := roundTo_nonneg 53 (-1022) _ hx0
  have htle : round64 (p * g.g_MediaState.duration) ≤ g.g_MediaState.duration :=
    roundTo_le_fixed 53 (-1022) _ _ hx0 hxle hdf
  have hterr := round64_product_err p g.g_MediaState.duration hp0 hpf hdmin
  have hclose := seek_ticks_close p g.g_MediaState.duration hp0 hpf hdmin
  have hub := round64_ticks_bound (round64 (p * g.g_MediaState.duration)) ht0 (by nlinarith)
  have hc := castLL_fin _ hub.1 hub.2
  have hdec : decide ((0 : ℚ) < g.g_MediaState.duration) = true := decide_eq_true hdur
  have hne : g.g_MediaState.duration ≠ 0 := ne_of_gt hdur
  cases hch : session.changePosition with
  | raised =>
    refine ⟨{ g with g_TimelineDragging := false, capture := false }, ?_, ht0, htle, hterr,
      hclose, rfl, ?_⟩
    · unfold onLButtonUp seekOnRelease
      simp [hd, hsp, hdec, hm, hs, htl, hst, hp, Flt.mul, Flt.round64, hc, hch]
    · rintro _ ⟨r, hr⟩
      cases hr
  | ok r =>
    by_cases hplay : status = PlaybackStatus.Playing
    · refine ⟨{ g with g_TimelineDragging := false, capture := false }, ?_, ht0, htle, hterr,
        hclose, rfl, ?_⟩
      · unfold onLButtonUp seekOnRelease
        simp [hd, hsp, hdec, hm, hs, htl, hst, hp, Flt.mul, Flt.round64, hc, hch, hplay]
      · intro hnp
        exact absurd hplay hnp
    · refine ⟨{ g with
          g_MediaState := { g.g_MediaState with position := round64 (p * g.g_MediaState.duration) },
          g_TimelineDragging := false, capture := false }, ?_, ht0, htle, hterr, hclose, rfl, ?_⟩
      · unfold onLButtonUp seekOnRelease
        simp [hd, hsp, hdec, hm, hs, htl, hst, hp, Flt.mul, Flt.round64, hc, hch, hplay]
      · intro _ _
        refine ⟨rfl, ?_⟩
        unfold drawProgress
        simp only [hsp, hdec, Bool.and_self, if_true, Bool.false_eq_true, if_false]
        have hdiv : Flt.div (round64 (p * g.g_MediaState.duration)) g.g_MediaState.duration
            = Flt.fin (round64 (p * g.g_MediaState.duration) / g.g_MediaState.duration) := by
          unfold Flt.div
          rw [if_neg hne]
        rw [hdiv]
        simp only [Flt.round64, Flt.round32]
        rw [round32_recover p g.g_MediaState.duration hp0 hpf hdmin, clampProgress_unit p hp0 hp1]

theorem round64_200 : round64 200 = 200 := by
  have e : (200 : ℚ) = ((25 : Int) : ℚ) * (2 : ℚ) ^ (3 : Int) := by norm_num
  rw [e]
  exact round64_repr 25 3 (by norm_num [abs_lt]) (by norm_num)

theorem round32_float_060 : round32 (5033165 / 8388608) = 5033165 / 8388608 := by
  have e : (5033165 / 8388608 : ℚ) = ((5033165 : Int) : ℚ) * (2 : ℚ) ^ (-23 : Int) := by norm_num
  rw [e]
  exact round32_repr 5033165 (-23) (by norm_num [abs_lt]) (by norm_num)

theorem seek_ticks_float_060 :
    round64 (5033165 / 8388608 * 200) = 125829125 / 1048576
      ∧ truncQ (round64 (round64 (5033165 / 8388608 * 200) * 10000000)) = 1200000047 := by
  have e1 : (5033165 / 8388608 * 200 : ℚ) = ((125829125 : Int) : ℚ) * (2 : ℚ) ^ (-20 : Int) := by
    norm_num
  have h1 : round64 (5033165 / 8388608 * 200) = 125829125 / 1048576 := by
    rw [e1, round64_repr 125829125 (-20) (by norm_num [abs_lt]) (by norm_num)]
    norm_num
  have e2 : (125829125 / 1048576 * 10000000 : ℚ)
      = ((9830400390625 : Int) : ℚ) * (2 : ℚ) ^ (-13 : Int) := by norm_num
  refine ⟨h1, ?_⟩
  rw [h1, e2, round64_repr 9830400390625 (-13) (by norm_num [abs_lt]) (by norm_num)]
  unfold truncQ
  rw [if_pos (by norm_num), Int.floor_eq_iff]
  constructor <;> norm_num

/-- C6 on a paused track of 200 s dragged to the `float` nearest to 60 %
(5033165 / 2^23): the release sends one seek of 1200000047 units of 100 ns
(120.0000047 s), the cached position becomes the `double` product
125829125 / 2^20 = 120.00000476837158, and the next paint shows the same
`float` again. -/
theorem C6_release_seeks_witness :
    ∃ g2 : Globals,
      onLButtonUp (bridgeOf (some pausedSpotify)) draggingGlobals
          = some (g2, [Cmd.seek 1200000047])
        ∧ g2.g_TimelineDragging = false
        ∧ g2.g_MediaState.position = 125829125 / 1048576
        ∧ drawProgress g2 = some (Flt.fin (5033165 / 8388608)) := by
  have hdur : draggingGlobals.g_MediaState.duration = 200 := rfl
  obtain ⟨g2, h1, _, _, _, _, h5, h6⟩ :=
    C6_release_seeks (bridgeOf (some pausedSpotify)) draggingGlobals pausedSpotify
      { position := 500000000, endTime := 2000000000 } PlaybackStatus.Paused
      (5033165 / 8388608)
      rfl rfl (by rw [hdur]; norm_num) (by rw [hdur]; exact round64_200)
      (by rw [hdur]; norm_num) (by rw [hdur]; norm_num) rfl round32_float_060
      (by norm_num) (by norm_num) rfl rfl rfl rfl
  have hpos := h6 (by decide) ⟨true, rfl⟩
  rw [hdur] at h1 hpos
  refine ⟨g2, ?_, h5, ?_, hpos.2⟩
  · rw [h1, seek_ticks_float_060.2]
  · rw [hpos.1, seek_ticks_float_060.1]

/-! ## C7: the range of the drag progress -/

theorem clampRel_div (a b : ℚ) (hb : b ≠ 0) :
    clampRel (Flt.div a b) = Flt.fin (max 0 (min 1 (a / b))) := by
  unfold clampRel Flt.div
  rw [if_neg hb]
  by_cases h0 : a / b < 0
  · have h1 : ¬ ((1 : ℚ) < 0) := by norm_num
    simp [Flt.ltQ, Flt.gtQ, h0, h1, le_of_lt h0]
  · by_cases h1 : 1 < a / b
    · simp [Flt.ltQ, Flt.gtQ, h0, h1, le_of_lt h1]
    · simp [Flt.ltQ, Flt.gtQ, h0, h1, not_lt.mp h0, not_lt.mp h1]

theorem clampRel_div_inUnit (a b : ℚ) (hb : b ≠ 0) : (clampRel (Flt.div a b)).inUnit := by
  rw [clampRel_div a b hb]
  unfold Flt.inUnit
  simp only []
  constructor
  · exact le_max_left 0 _
  · exact max_le (by norm_num) (min_le_left 1 _)

theorem clampRel_zero_div_zero : clampRel (Flt.div 0 0) = Flt.nan := by
  simp [clampRel, Flt.div, Flt.ltQ, Flt.gtQ]

theorem truncQ_zero : truncQ 0 = 0 := by
  simp [truncQ]

theorem tabZoneStep_drag (now : Nat) (x y : Int) (g : Globals) :
    (tabZoneStep now x y g).g_TimelineDragging = g.g_TimelineDragging
      ∧ (tabZoneStep now x y g).g_Settings = g.g_Settings := by
  unfold tabZoneStep
  split
  · split <;> exact ⟨rfl, rfl⟩
  · split <;> exact ⟨rfl, rfl⟩

/-- While dragging, a pointer move stores the clamped quotient of `x - barX` by
the bar width, where `barX = height + 82` and the width is `width - height - 92`;
for a non-zero bar width this is `clamp((x - barX) / barW, 0, 1)`, a number in
`[0, 1]`. -/
theorem onMouseMove_drag_progress (now : Nat) (glyphH : ℚ) (x y : Int) (g : Globals)
    (hd : g.g_TimelineDragging = true) :
    (onMouseMove now glyphH x y g).g_TimelineDragProgress
        = clampRel (Flt.div ((x - (g.g_Settings.height + 82) : Int) : ℚ)
            ((g.g_Settings.width - g.g_Settings.height - 92 : Int) : ℚ))
      ∧ (g.g_Settings.width - g.g_Settings.height - 92 ≠ 0 →
          (onMouseMove now glyphH x y g).g_TimelineDragProgress.inUnit) := by
  have ht := tabZoneStep_drag now x y g
  have e : (onMouseMove now glyphH x y g).g_TimelineDragProgress
      = clampRel (Flt.div ((x - (g.g_Settings.height + 82) : Int) : ℚ)
          ((g.g_Settings.width - g.g_Settings.height - 92 : Int) : ℚ)) := by
    unfold onMouseMove
    simp only [ht.1, ht.2, hd, if_true, CalcTimelineGeometry]
    have e1 : 6 + (g.g_Settings.height - 12) + 12 + 56 + 20 = g.g_Settings.height + 82 := by ring
    have e2 : g.g_Settings.width - (g.g_Settings.height + 82) - 10
        = g.g_Settings.width - g.g_Settings.height - 92 := by ring
    rw [e1, e2]
  refine ⟨e, ?_⟩
  intro hw
  rw [e]
  exact clampRel_div_inUnit _ _ (by exact_mod_cast hw)

/-- C7, at the failing input: with panel width 140 and height 48 the bar width
used for hit-testing is 0 (the controls start at `x = 54`, the bar at
`x = 130`).  A pointer move during a drag at `x = 130`, at any height and at any
time, and a press on the bar at `(130, 43)`, both store NaN as the drag
progress, which is not in `[0, 1]`. -/
theorem C7_drag_progress_nan (now : Nat) (glyphH : ℚ) (y : Int) :
    (CalcTimelineGeometry 54 48 140 glyphH).barX = 130
      ∧ (CalcTimelineGeometry 54 48 140 glyphH).barW = 0
      ∧ (onMouseMove now glyphH 130 y zeroBarDragging).g_TimelineDragProgress = Flt.nan
      ∧ (onLButtonDown 14 130 43 zeroBarGlobals).g_TimelineDragging = true
      ∧ (onLButtonDown 14 130 43 zeroBarGlobals).g_TimelineDragProgress = Flt.nan
      ∧ ¬ Flt.nan.inUnit := by
  have hgeo : CalcTimelineGeometry 54 48 140 14
      = { barX := 130, barY := 28, barW := 0, barH := 7 } := by
    have e : ((((48 : Int) : ℚ) - 14 - 10) / 2 + 14 + 4) = ((30 : Int) : ℚ) := by norm_num
    unfold CalcTimelineGeometry
    simp only [e]
    unfold truncQ
    rw [if_pos (by norm_num), Int.floor_intCast]
    rfl
  have h72 : Int.tdiv 7 2 = 3 := by decide
  refine ⟨rfl, rfl, ?_, ?_, ?_, by simp [Flt.inUnit]⟩
  · rw [(onMouseMove_drag_progress now glyphH 130 y zeroBarDragging rfl).1]
    simp [zeroBarDragging, zeroBarGlobals, initialGlobals, clampRel_zero_div_zero]
  · simp [onLButtonDown, zeroBarGlobals, initialGlobals, hgeo, round32_zero, truncQ_zero, h72]
  · simp [onLButtonDown, zeroBarGlobals, initialGlobals, hgeo, round32_zero, truncQ_zero, h72,
      clampRel_zero_div_zero]

/-! ## C8: a refresh whose session query raises -/

theorem UpdateMediaInfo_raises (now : Nat) (br : Bridge) (g : Globals) (h : QueryRaises br g) :
    (UpdateMediaInfo now br g).1.g_MediaState = (refreshCatch g.g_MediaState).1 := by
  unfold UpdateMediaInfo
  rcases h with ⟨hg, hr⟩ | ⟨hm, hq⟩
  · simp [hg, hr]
  · have hreq : (if g.g_SessionManager = true then (Outcome.ok true, ([] : List Ev))
          else (br.requestManager, [Ev.requestManager])).1 = Outcome.ok true := by
      by_cases hg : g.g_SessionManager = true
      · simp [hg]
      · rcases hm with hm | hm
        · exact absurd hm hg
        · simp [hg, hm]
    simp only [hreq]
    rcases hq with hc | ⟨s, hc, hp | hi⟩
    · simp [hc]
    · simp [hc, hp]
    · cases hp : s.mediaProperties with
      | raised => simp [hc, hp]
      | ok props => simp [hc, hp, hi]


/-- C8, amended: when the session query raises, the refresh still returns, and
the cached state then has `hasMedia = false`, `isSpotify = false`,
`position = 0` and `duration = 0`, while title, artist and album art are left
as they were. -/
theorem C8_refresh_on_error (now : Nat) (br : Bridge) (g : Globals) (h : QueryRaises br g) :
    (UpdateMediaInfo now br g).1.g_MediaState.hasMedia = false
      ∧ (UpdateMediaInfo now br g).1.g_MediaState.isSpotify = false
      ∧ (UpdateMediaInfo now br g).1.g_MediaState.position = 0
      ∧ (UpdateMediaInfo now br g).1.g_MediaState.duration = 0
      ∧ (UpdateMediaInfo now br g).1.g_MediaState.title = g.g_MediaState.title
      ∧ (UpdateMediaInfo now br g).1.g_MediaState.artist = g.g_MediaState.artist
      ∧ (UpdateMediaInfo now br g).1.g_MediaState.albumArt = g.g_MediaState.albumArt := by
  rw [UpdateMediaInfo_raises now br g h]
  exact ⟨rfl, rfl, rfl, rfl, rfl, rfl, rfl⟩

/-- C8, amended, on a cached track when the metadata fetch raises. -/
theorem C8_refresh_on_error_witness :
    QueryRaises (bridgeOf (some failingSession)) cachedGlobals
      ∧ (UpdateMediaInfo 9 (bridgeOf (some failingSession)) cachedGlobals).1.g_MediaState.hasMedia
          = false
      ∧ (UpdateMediaInfo 9 (bridgeOf (some failingSession)) cachedGlobals).1.g_MediaState.duration
          = 0 :=
  ⟨Or.inr ⟨Or.inl rfl, Or.inr ⟨failingSession, rfl, Or.inl rfl⟩⟩,
   (C8_refresh_on_error 9 (bridgeOf (some failingSession)) cachedGlobals
      (Or.inr ⟨Or.inl rfl, Or.inr ⟨failingSession, rfl, Or.inl rfl⟩⟩)).1,
   (C8_refresh_on_error 9 (bridgeOf (some failingSession)) cachedGlobals
      (Or.inr ⟨Or.inl rfl, Or.inr ⟨failingSession, rfl, Or.inl rfl⟩⟩)).2.2.2.1⟩

/-- C8 as stated fails: with "Song" by "Band" and album art 7 cached, a refresh
whose metadata fetch raises leaves the title, the artist and the art in place. -/
theorem C8_counterexample :
    QueryRaises (bridgeOf (some failingSession)) cachedGlobals
      ∧ (UpdateMediaInfo 9 (bridgeOf (some failingSession)) cachedGlobals).1.g_MediaState.title
          = "Song"
      ∧ (UpdateMediaInfo 9 (bridgeOf (some failingSession)) cachedGlobals).1.g_MediaState.artist
          = "Band"
      ∧ (UpdateMediaInfo 9 (bridgeOf (some failingSession)) cachedGlobals).1.g_MediaState.albumArt
          = some { id := 7 } := by
  have h : QueryRaises (bridgeOf (some failingSession)) cachedGlobals :=
    Or.inr ⟨Or.inl rfl, Or.inr ⟨failingSession, rfl, Or.inl rfl⟩⟩
  rw [UpdateMediaInfo_raises 9 _ _ h]
  exact ⟨h, rfl, rfl, rfl⟩

/-! ## C9: a refresh that finds no session -/

/-- C9: a refresh that finds no active session leaves `hasMedia = false`, the
title "No Media", an empty artist, no album art, `isSpotify = false`,
`position = 0` and `duration = 0`, whatever was cached before. -/
theorem C9_refresh_no_session (now : Nat) (br : Bridge) (g : Globals)
    (h : FindsNoSession br g) :
    (UpdateMediaInfo now br g).1.g_MediaState.hasMedia = false
      ∧ (UpdateMediaInfo now br g).1.g_MediaState.title = "No Media"
      ∧ (UpdateMediaInfo now br g).1.g_MediaState.artist = ""
      ∧ (UpdateMediaInfo now br g).1.g_MediaState.albumArt = none
      ∧ (UpdateMediaInfo now br g).1.g_MediaState.isSpotify = false
      ∧ (UpdateMediaInfo now br g).1.g_MediaState.position = 0
      ∧ (UpdateMediaInfo now br g).1.g_MediaState.duration = 0 := by
  obtain ⟨hm, hs⟩ := h
  have e : (UpdateMediaInfo now br g).1.g_MediaState = (refreshNoSession g.g_MediaState).1 := by
    unfold UpdateMediaInfo
    by_cases hg : g.g_SessionManager = true
    · simp [hg, hs]
    · rcases hm with hm | hm
      · exact absurd hm hg
      · simp [hg, hm, hs]
  rw [e]
  exact ⟨rfl, rfl, rfl, rfl, rfl, rfl, rfl⟩

/-- C9 on a cached track with album art, when the session goes away. -/
theorem C9_refresh_no_session_witness :
    FindsNoSession (bridgeOf none) cachedGlobals
      ∧ (UpdateMediaInfo 9 (bridgeOf none) cachedGlobals).1.g_MediaState.title = "No Media"
      ∧ (UpdateMediaInfo 9 (bridgeOf none) cachedGlobals).1.g_MediaState.albumArt = none :=
  ⟨⟨Or.inl rfl, rfl⟩,
   (C9_refresh_no_session 9 (bridgeOf none) cachedGlobals ⟨Or.inl rfl, rfl⟩).2.1,
   (C9_refresh_no_session 9 (bridgeOf none) cachedGlobals ⟨Or.inl rfl, rfl⟩).2.2.2.1⟩


/-! ## C10: a failed thumbnail load -/

theorem loadThumbnail_fails (props : MediaProps) (h : ThumbnailLoadFails props) :
    (loadThumbnail props).1 = none := by
  unfold loadThumbnail
  rcases h with h | h | ⟨thumbRef, h, hr⟩
  · simp [h]
  · simp [h]
  · rcases hr with hr | ⟨stream, hr, hs⟩
    · simp [h, hr]
    · simp only [h, hr]
      unfold StreamToBitmap
      rcases hs with hs | hs | hs | hs | hs
      · simp [hs]
      · simp [hs]
      · simp [hs]
      · simp [hs]
      · cases hd : stream.decoded <;> simp [hs]

theorem updateArt_fails (props : MediaProps) (st : MediaState)
    (hs : shouldUpdateArt props.title props.artist st = true) (hf : ThumbnailLoadFails props) :
    (updateArt props st).1.albumArt = none := by
  unfold updateArt
  simp [hs, loadThumbnail_fails props hf]

/-- C10: when a refresh finds an active session, attempts the album-art reload
and the thumbnail load fails, the cached state afterwards has no album art, the
newly reported title and artist, and `hasMedia = true`; and every following
refresh that finds an active session attempts the load again. -/
theorem C10_failed_thumbnail (now now2 : Nat) (br br2 : Bridge) (g : Globals)
    (session session2 : Session) (props props2 : MediaProps) (status status2 : PlaybackStatus)
    (h : FindsSession br g session props status)
    (hattempt : AttemptsArtReload (UpdateMediaInfo now br g).2)
    (hfail : ThumbnailLoadFails props)
    (h2 : FindsSession br2 (UpdateMediaInfo now br g).1 session2 props2 status2) :
    (UpdateMediaInfo now br g).1.g_MediaState.albumArt = none
      ∧ (UpdateMediaInfo now br g).1.g_MediaState.title = props.title
      ∧ (UpdateMediaInfo now br g).1.g_MediaState.artist = props.artist
      ∧ (UpdateMediaInfo now br g).1.g_MediaState.hasMedia = true
      ∧ AttemptsArtReload (UpdateMediaInfo now2 br2 (UpdateMediaInfo now br g).1).2 := by
  have hs := (UpdateMediaInfo_attempt now br g session props status h).mp hattempt
  have hm := (UpdateMediaInfo_session now br g session props status h).1
  have hf := refreshSession_fields now session props status g.g_MediaState
  have hart : (UpdateMediaInfo now br g).1.g_MediaState.albumArt = none := by
    rw [hm, hf.2.2.2.2]
    exact updateArt_fails props _ hs hfail
  refine ⟨hart, ?_, ?_, ?_, ?_⟩
  · rw [hm]; exact hf.1
  · rw [hm]; exact hf.2.1
  · rw [hm]; exact hf.2.2.1
  · rw [UpdateMediaInfo_attempt now2 br2 _ session2 props2 status2 h2, shouldUpdateArt_iff]
    exact Or.inr (Or.inr hart)

/-- C10 at start-up with a session that has no thumbnail, polled twice. -/
theorem C10_failed_thumbnail_witness :
    (UpdateMediaInfo 5 (bridgeOf (some sessionNoThumb)) initialGlobals).1.g_MediaState.albumArt
        = none
      ∧ (UpdateMediaInfo 5 (bridgeOf (some sessionNoThumb)) initialGlobals).1.g_MediaState.title
        = "Song"
      ∧ (UpdateMediaInfo 5 (bridgeOf (some sessionNoThumb)) initialGlobals).1.g_MediaState.artist
        = "Band"
      ∧ (UpdateMediaInfo 5 (bridgeOf (some sessionNoThumb)) initialGlobals).1.g_MediaState.hasMedia
        = true
      ∧ AttemptsArtReload (UpdateMediaInfo 21 (bridgeOf (some sessionNoThumb))
          (UpdateMediaInfo 5 (bridgeOf (some sessionNoThumb)) initialGlobals).1).2 :=
  C10_failed_thumbnail 5 21 (bridgeOf (some sessionNoThumb)) (bridgeOf (some sessionNoThumb))
    initialGlobals sessionNoThumb sessionNoThumb
    { title := "Song", artist := "Band", thumbnail := Outcome.ok none }
    { title := "Song", artist := "Band", thumbnail := Outcome.ok none }
    PlaybackStatus.Playing PlaybackStatus.Playing
    ⟨Or.inr rfl, rfl, rfl, rfl⟩
    ((UpdateMediaInfo_attempt 5 _ _ _ _ _ ⟨Or.inr rfl, rfl, rfl, rfl⟩).mpr
      ((shouldUpdateArt_iff _ _ _).mpr (Or.inr (Or.inr rfl))))
    (Or.inr (Or.inl rfl))
    ⟨Or.inr rfl, rfl, rfl, rfl⟩


/-! ## C11: the smooth position after a refresh -/

theorem updateArt_keeps_smooth (props : MediaProps) (st : MediaState) :
    (updateArt props st).1.smoothPosition = st.smoothPosition := by
  unfold updateArt
  split
  · simp only []
    split <;> rfl
  · rfl

theorem updateTimeline_reports (now : Nat) (session : Session) (status : PlaybackStatus)
    (st : MediaState) (tl : Timeline) (ht : ReportsTimeline session tl) :
    (updateTimeline now session status st).1.isSpotify = true
      ∧ (updateTimeline now session status st).1.position = (tl.position : ℚ) / 10000000
      ∧ (updateTimeline now session status st).1.duration = (tl.endTime : ℚ) / 10000000
      ∧ (0 < tl.endTime →
          (updateTimeline now session status st).1.smoothPosition
            = (if status ≠ PlaybackStatus.Playing
                  ∨ 2 < |st.smoothPosition - (tl.position : ℚ) / 10000000|
                then (tl.position : ℚ) / 10000000 else st.smoothPosition))
      ∧ (tl.endTime ≤ 0 → (updateTimeline now session status st).1.smoothPosition = 0) := by
  obtain ⟨⟨source, hsrc, hsp⟩, htl⟩ := ht
  unfold updateTimeline
  simp only [hsrc, hsp, htl, if_true]
  by_cases hd : 0 < tl.endTime
  · have hq : (0 : ℚ) < (tl.endTime : ℚ) / 10000000 := by
      have : (0 : ℚ) < (tl.endTime : ℚ) := by exact_mod_cast hd
      positivity
    have hn : ¬ tl.endTime ≤ 0 := not_le.mpr hd
    by_cases hs : status = PlaybackStatus.Playing
    · by_cases hj : 2 < |st.smoothPosition - (tl.position : ℚ) / 10000000|
      · simp [hq, hs, hj, hd, hn]
      · simp [hq, hs, hj, hd, hn]
    · simp [hq, hs, hd, hn]
  · have hq : ¬ ((0 : ℚ) < (tl.endTime : ℚ) / 10000000) := by
      have h0 : (tl.endTime : ℚ) ≤ 0 := by exact_mod_cast not_lt.mp hd
      intro h
      have : (0 : ℚ) < (tl.endTime : ℚ) := by
        have := mul_pos h (by norm_num : (0 : ℚ) < 10000000)
        rwa [div_mul_cancel₀ _ (by norm_num : (10000000 : ℚ) ≠ 0)] at this
      linarith
    simp [hq, hd, not_lt.mp hd]


theorem refreshSession_timeline (now : Nat) (session : Session) (props : MediaProps)
    (status : PlaybackStatus) (st : MediaState) (tl : Timeline)
    (ht : ReportsTimeline session tl) :
    (refreshSession now session props status st).1.isSpotify = true
      ∧ (refreshSession now session props status st).1.position = (tl.position : ℚ) / 10000000
      ∧ (refreshSession now session props status st).1.duration = (tl.endTime : ℚ) / 10000000
      ∧ (0 < tl.endTime →
          (refreshSession now session props status st).1.smoothPosition
            = (if status ≠ PlaybackStatus.Playing
                  ∨ 2 < |st.smoothPosition - (tl.position : ℚ) / 10000000|
                then (tl.position : ℚ) / 10000000 else st.smoothPosition))
      ∧ (tl.endTime ≤ 0 → (refreshSession now session props status st).1.smoothPosition = 0) := by
  unfold refreshSession
  simp only []
  have h := fun s => updateTimeline_reports now session status s tl ht
  refine ⟨(h _).1, (h _).2.1, (h _).2.2.1, ?_, (h _).2.2.2.2⟩
  intro hd
  rw [(h _).2.2.2.1 hd]
  simp only [updateArt_keeps_smooth]

theorem slideStep_scroll (g : Globals) :
    (slideStep g).g_IsScrolling = g.g_IsScrolling ∧ (slideStep g).g_TextWidth = g.g_TextWidth
      ∧ (slideStep g).g_ScrollOffset = g.g_ScrollOffset
      ∧ (slideStep g).g_ScrollWait = g.g_ScrollWait := by
  unfold slideStep
  split
  · simp only []
    split <;> exact ⟨rfl, rfl, rfl, rfl⟩
  · exact ⟨rfl, rfl, rfl, rfl⟩

theorem onAnimationTimer_scroll (g : Globals) (W o w : Int) (h : ScrollAt W o w g) :
    ScrollAt W
      (if w > 0 then o else if o + 1 > W + 40 then 0 else o + 1)
      (if w > 0 then w - 1 else if o + 1 > W + 40 then 60 else w)
      (onAnimationTimer g) := by
  obtain ⟨hs, hW, ho, hw⟩ := h
  have hsl := slideStep_scroll (scrollStep g)
  unfold onAnimationTimer
  simp only [hs, Bool.true_or, if_true]
  unfold ScrollAt
  rw [hsl.1, hsl.2.1, hsl.2.2.1, hsl.2.2.2]
  unfold scrollStep
  by_cases h1 : w > 0
  · simp [hs, hW, ho, hw, h1]
  · by_cases h2 : o + 1 > W + 40
    · simp [hs, hW, ho, hw, h1, h2]
    · simp [hs, hW, ho, hw, h1, h2]

theorem scroll_waiting (W : Int) (g : Globals) (h : ScrollAt W 0 60 g) :
    ∀ n : Nat, n ≤ 60 → ScrollAt W 0 (60 - (n : Int)) (onAnimationTimer^[n] g) := by
  intro n
  induction n with
  | zero => intro _; simpa using h
  | succ m ih =>
    intro hm
    have hprev := ih (by omega)
    have hstep := onAnimationTimer_scroll _ W 0 (60 - (m : Int)) hprev
    rw [Function.iterate_succ_apply']
    have hpos : 60 - (m : Int) > 0 := by omega
    simp only [hpos, if_true] at hstep
    have e : 60 - ((m + 1 : Nat) : Int) = 60 - (m : Int) - 1 := by push_cast; ring
    rw [e]
    exact hstep

theorem scroll_advancing (W : Nat) (g : Globals) (h : ScrollAt W 0 60 g) :
    ∀ k : Nat, k ≤ W + 40 → ScrollAt W k 0 (onAnimationTimer^[60 + k] g) := by
  intro k
  induction k with
  | zero =>
    intro _
    have h60 := scroll_waiting W g h 60 (le_refl 60)
    have e : (60 : Int) - ((60 : Nat) : Int) = ((0 : Nat) : Int) := by norm_num
    rw [e] at h60
    exact h60
  | succ m ih =>
    intro hm
    have hprev := ih (by omega)
    have hstep := onAnimationTimer_scroll _ W m 0 hprev
    have e : 60 + (m + 1) = (60 + m) + 1 := by omega
    rw [e, Function.iterate_succ_apply']
    have h0 : ¬ ((0 : Int) > 0) := by omega
    have h1 : ¬ ((m : Int) + 1 > (W : Int) + 40) := by omega
    simp only [h0, h1, if_false] at hstep
    have e2 : ((m + 1 : Nat) : Int) = (m : Int) + 1 := by push_cast; ring
    rw [e2]
    exact hstep

theorem scroll_wraps (W : Nat) (g : Globals) (h : ScrollAt W 0 60 g) :
    ScrollAt W 0 60 (onAnimationTimer^[60 + W + 41] g) := by
  have hprev := scroll_advancing W g h (W + 40) (le_refl _)
  have hstep := onAnimationTimer_scroll _ W ((W + 40 : Nat) : Int) 0 hprev
  have e : 60 + W + 41 = (60 + (W + 40)) + 1 := by omega
  rw [e, Function.iterate_succ_apply']
  have h0 : ¬ ((0 : Int) > 0) := by omega
  have h1 : ((W + 40 : Nat) : Int) + 1 > (W : Int) + 40 := by push_cast; omega
  simp only [h0, h1, if_false, if_true] at hstep
  exact hstep

theorem scroll_bounded (W : Nat) (n : Nat) :
    ∀ (g : Globals) (o w : Int), ScrollAt W o w g → 0 ≤ o → o ≤ W + 40 →
      0 ≤ (onAnimationTimer^[n] g).g_ScrollOffset
        ∧ (onAnimationTimer^[n] g).g_ScrollOffset ≤ W + 40 := by
  induction n with
  | zero =>
    intro g o w h h0 h1
    simp only [Function.iterate_zero, id_eq]
    rw [h.2.2.1]
    exact ⟨h0, h1⟩
  | succ m ih =>
    intro g o w h h0 h1
    rw [Function.iterate_succ_apply]
    have hstep := onAnimationTimer_scroll g W o w h
    apply ih _ _ _ hstep
    · split_ifs <;> omega
    · split_ifs <;> omega

theorem scroll_deterministic (W : Int) (n : Nat) :
    ∀ (g1 g2 : Globals) (o w : Int), ScrollAt W o w g1 → ScrollAt W o w g2 →
      (onAnimationTimer^[n] g1).g_ScrollOffset = (onAnimationTimer^[n] g2).g_ScrollOffset
        ∧ (onAnimationTimer^[n] g1).g_ScrollWait = (onAnimationTimer^[n] g2).g_ScrollWait := by
  induction n with
  | zero =>
    intro g1 g2 o w h1 h2
    simp only [Function.iterate_zero, id_eq]
    exact ⟨h1.2.2.1.trans h2.2.2.1.symm, h1.2.2.2.trans h2.2.2.2.symm⟩
  | succ m ih =>
    intro g1 g2 o w h1 h2
    rw [Function.iterate_succ_apply, Function.iterate_succ_apply]
    exact ih _ _ _ _ (onAnimationTimer_scroll g1 W o w h1) (onAnimationTimer_scroll g2 W o w h2)


/-- A paint that measures the same text width `W`, wider than the text box,
leaves the marquee where it stands. -/
theorem DrawMediaPanel_keeps_scroll (width height : Int) (textH : ℚ) (g : Globals) (W o w : Int)
    (h : ScrollAt W o w g)
    (hwide : W > (if width - 20 - 10 - (6 + (height - 12) + 12 + 56 + 20) < 50 then 50
                  else width - 20 - 10 - (6 + (height - 12) + 12 + 56 + 20))) :
    ScrollAt W o w (DrawMediaPanel width height W textH g).1 := by
  obtain ⟨hs, hW, ho, hw⟩ := h
  unfold DrawMediaPanel ScrollAt
  simp only []
  rw [if_pos hwide]
  exact ⟨rfl, rfl, ho, hw⟩

/-- C12: with scrolling enabled, a constant measured text width `W ≥ 0`, offset
0 and 60 wait ticks, the offset is 0 after each of the first 60 animation
ticks, equals `k` after `60 + k` ticks for every `k ≤ W + 40`, and on tick
`60 + W + 41` is back at 0 with the wait restored to 60; after every tick the
offset lies in `[0, W + 40]`, and offset and wait repeat with period
`W + 101`. -/
theorem C12_marquee_cycle (g : Globals) (W : Nat) (h : ScrollAt W 0 60 g) :
    (∀ n : Nat, n ≤ 60 → (onAnimationTimer^[n] g).g_ScrollOffset = 0)
      ∧ (∀ k : Nat, k ≤ W + 40 → (onAnimationTimer^[60 + k] g).g_ScrollOffset = k)
      ∧ ((onAnimationTimer^[60 + W + 41] g).g_ScrollOffset = 0
          ∧ (onAnimationTimer^[60 + W + 41] g).g_ScrollWait = 60)
      ∧ (∀ n : Nat, 0 ≤ (onAnimationTimer^[n] g).g_ScrollOffset
          ∧ (onAnimationTimer^[n] g).g_ScrollOffset ≤ W + 40)
      ∧ (∀ n : Nat,
          (onAnimationTimer^[n + (W + 101)] g).g_ScrollOffset
              = (onAnimationTimer^[n] g).g_ScrollOffset
            ∧ (onAnimationTimer^[n + (W + 101)] g).g_ScrollWait
              = (onAnimationTimer^[n] g).g_ScrollWait) := by
  have hwrap := scroll_wraps W g h
  refine ⟨?_, ?_, ⟨hwrap.2.2.1, hwrap.2.2.2⟩, ?_, ?_⟩
  · intro n hn
    exact (scroll_waiting W g h n hn).2.2.1
  · intro k hk
    exact (scroll_advancing W g h k hk).2.2.1
  · intro n
    exact scroll_bounded W n g 0 60 h (le_refl 0) (by omega)
  · intro n
    have e : W + 101 = 60 + W + 41 := by omega
    rw [Function.iterate_add_apply, e]
    exact scroll_deterministic W n _ g 0 60 hwrap h

/-- C12 for a text 500 px wide: the offset reaches 540 on tick 600 and is back
at 0 on tick 601. -/
theorem C12_marquee_cycle_witness :
    ScrollAt 500 0 60 scrollingGlobals
      ∧ (onAnimationTimer^[60 + 540] scrollingGlobals).g_ScrollOffset = 540
      ∧ (onAnimationTimer^[60 + 500 + 41] scrollingGlobals).g_ScrollOffset = 0 :=
  ⟨⟨rfl, rfl, rfl, rfl⟩,
   (C12_marquee_cycle scrollingGlobals 500 ⟨rfl, rfl, rfl, rfl⟩).2.1 540 (by decide),
   (C12_marquee_cycle scrollingGlobals 500 ⟨rfl, rfl, rfl, rfl⟩).2.2.1.1⟩


/-! ## C13: the bold level while dwelling -/

theorem onHoverTimer_bold (now : Nat) (g : Globals) (hz : g.g_HoverTabZone = true)
    (he : usub64 now g.g_HoverTimerStart < 3000) :
    (onHoverTimer now g).g_HoverBoldLevel
      = ((usub64 now g.g_HoverTimerStart : Nat) : ℚ) / 3000 := by
  have hn : ¬ (usub64 now g.g_HoverTimerStart ≥ 3000) := by omega
  have hq : ((usub64 now g.g_HoverTimerStart : Nat) : ℚ) < 3000 := by exact_mod_cast he
  have hle : ¬ ((1 : ℚ) < ((usub64 now g.g_HoverTimerStart : Nat) : ℚ) / 3000) := by
    rw [not_lt, div_le_one (by norm_num : (0 : ℚ) < 3000)]
    exact le_of_lt hq
  unfold onHoverTimer
  simp only [hz, if_true, hn, if_false, hle]

/-- C13: a hover tick taken while the reveal zone is active with
`elapsed < 3000` sets the bold level to `min (elapsed / 3000) 1`, a value in
`[0, 1)`; and of two such ticks of the same dwell at tick counts
`now ≤ now2`, the later one sets a bold level at least as large. -/
theorem C13_bold_level_while_dwelling (g g2 : Globals) (now now2 : Nat) :
    (g.g_HoverTabZone = true → usub64 now g.g_HoverTimerStart < 3000 →
        (onHoverTimer now g).g_HoverBoldLevel
            = min (((usub64 now g.g_HoverTimerStart : Nat) : ℚ) / 3000) 1
          ∧ 0 ≤ (onHoverTimer now g).g_HoverBoldLevel
          ∧ (onHoverTimer now g).g_HoverBoldLevel < 1)
      ∧ (g.g_HoverTabZone = true → g2.g_HoverTabZone = true →
          g2.g_HoverTimerStart = g.g_HoverTimerStart →
          g.g_HoverTimerStart ≤ now → now ≤ now2 → now2 < 2 ^ 64 →
          now2 - g.g_HoverTimerStart < 3000 →
          (onHoverTimer now g).g_HoverBoldLevel ≤ (onHoverTimer now2 g2).g_HoverBoldLevel) := by
  constructor
  · intro hz he
    have hb := onHoverTimer_bold now g hz he
    have hq : ((usub64 now g.g_HoverTimerStart : Nat) : ℚ) < 3000 := by exact_mod_cast he
    have h0 : (0 : ℚ) ≤ ((usub64 now g.g_HoverTimerStart : Nat) : ℚ) := Nat.cast_nonneg _
    have hlt : ((usub64 now g.g_HoverTimerStart : Nat) : ℚ) / 3000 < 1 := by
      rw [div_lt_one (by norm_num : (0 : ℚ) < 3000)]
      exact hq
    rw [hb, min_eq_left (le_of_lt hlt)]
    exact ⟨rfl, by positivity, hlt⟩
  · intro hz hz2 hs hS h12 h2 he
    have e1 : usub64 now g.g_HoverTimerStart = now - g.g_HoverTimerStart :=
      usub64_of_le now _ hS (lt_of_le_of_lt h12 h2)
    have e2 : usub64 now2 g2.g_HoverTimerStart = now2 - g.g_HoverTimerStart := by
      rw [hs]
      exact usub64_of_le now2 _ (le_trans hS h12) h2
    rw [onHoverTimer_bold now g hz (by rw [e1]; omega),
      onHoverTimer_bold now2 g2 hz2 (by rw [e2]; exact he), e1, e2]
    have hle : ((now - g.g_HoverTimerStart : Nat) : ℚ) ≤ ((now2 - g.g_HoverTimerStart : Nat) : ℚ) := by
      exact_mod_cast Nat.sub_le_sub_right h12 _
    exact div_le_div_of_nonneg_right hle (by norm_num)

/-- C13 on the dwell begun at tick 1000: the tick at 2500 sets the bold level
to 1/2, and the tick at 1600 sets a smaller one. -/
theorem C13_bold_level_while_dwelling_witness :
    (onHoverTimer 2500 dwellingGlobals).g_HoverBoldLevel = 1 / 2
      ∧ (onHoverTimer 1600 dwellingGlobals).g_HoverBoldLevel
          ≤ (onHoverTimer 2500 dwellingGlobals).g_HoverBoldLevel := by
  have h := C13_bold_level_while_dwelling dwellingGlobals dwellingGlobals 2500 2500
  have h2 := C13_bold_level_while_dwelling dwellingGlobals dwellingGlobals 1600 2500
  have e : usub64 2500 dwellingGlobals.g_HoverTimerStart = 1500 := by decide
  constructor
  · rw [(h.1 rfl (by decide)).1, e]
    norm_num
  · exact h2.2 rfl rfl rfl (by decide) (by decide) (by decide) (by decide)


/-! ## C14: the reveal zone and the timeline regions -/

/-- A pointer move never finds the timeline inside the reveal zone: the hit
test of `WM_MOUSEMOVE` stops 15 px left of the separator. -/
theorem onTimeline_excludes_tabZone (tl : TimelineGeometry) (x y : Int) (g : Globals)
    (hz : hoveredTabZone x y g = true) : onTimeline tl x y g = false := by
  unfold hoveredTabZone at hz
  simp only [Bool.and_eq_true, decide_eq_true_eq] at hz
  unfold onTimeline
  split
  · have hx : ¬ (x < g.g_Settings.width - 20 - 15) := by omega
    simp [hx]
  · rfl

theorem truncQ_intCast (n : Int) : truncQ (n : ℚ) = n := by
  unfold truncQ
  split
  · exact Int.floor_intCast n
  · exact Int.ceil_intCast n

theorem round_quarter : round64 (1 / 4) = 1 / 4 ∧ round32 (1 / 4) = 1 / 4 := by
  have e : (1 / 4 : ℚ) = ((1 : Int) : ℚ) * (2 : ℚ) ^ (-2 : Int) := by norm_num
  rw [e]
  exact ⟨round64_repr 1 (-2) (by norm_num [abs_lt]) (by norm_num),
    round32_repr 1 (-2) (by norm_num [abs_lt]) (by norm_num)⟩

theorem timeline_progress_quarter :
    clampProgress (Flt.div 50 200).round64.round32 = 1 / 4 := by
  have e : Flt.div 50 200 = Flt.fin (1 / 4) := by
    unfold Flt.div
    norm_num
  rw [e]
  simp only [Flt.round64, Flt.round32]
  rw [round_quarter.1, round_quarter.2]
  exact clampProgress_unit _ (by norm_num) (by norm_num)

theorem thumb_offset_quarter : truncQ (round32 (round32 208 * (4 : ℚ)⁻¹)) = 52 := by
  have e1 : round32 208 = 208 := by
    have h := round32_intCast 208 (by norm_num [abs_lt])
    exact_mod_cast h
  have e2 : (208 * (4 : ℚ)⁻¹) = ((52 : Int) : ℚ) := by norm_num
  rw [e1, e2, round32_intCast 52 (by norm_num [abs_lt]), truncQ_intCast]

theorem timeline_geometry_default (glyphH : ℚ) (barY : Int)
    (h : (((100 : Int) : ℚ) - glyphH - 10) / 2 + glyphH + 4 = ((barY + 2 : Int) : ℚ)) :
    CalcTimelineGeometry 106 100 400 glyphH = { barX := 182, barY := barY, barW := 208, barH := 7 } := by
  unfold CalcTimelineGeometry
  simp only [h, truncQ_intCast]
  have e : barY + 2 - 2 = barY := by ring
  rw [e]
  rfl

/-- C14, at the failing input: on the default panel (400 by 100) with a
Spotify track cached, the point (380, 60) lies in the reveal zone, and a press
there starts a timeline drag, for a measured glyph height of 18 as well as
of 0. -/
theorem C14_press_in_reveal_zone :
    hoveredTabZone 380 60 timelineGlobals = true
      ∧ timelineGlobals.g_TimelineDragging = false
      ∧ (onLButtonDown 18 380 60 timelineGlobals).g_TimelineDragging = true
      ∧ (onLButtonDown 0 380 60 timelineGlobals).g_TimelineDragging = true := by
  have g18 := timeline_geometry_default 18 56 (by norm_num)
  have g0 := timeline_geometry_default 0 47 (by norm_num)
  have h72 : Int.tdiv 7 2 = 3 := by decide
  have hq := thumb_offset_quarter
  refine ⟨by decide, rfl, ?_, ?_⟩
  · simp [onLButtonDown, timelineGlobals, initialGlobals, g18, timeline_progress_quarter, h72, hq]
  · simp [onLButtonDown, timelineGlobals, initialGlobals, g0, timeline_progress_quarter, h72, hq]


/-! ## C15: the timeline flags after a release -/

theorem clampProgress_div (a b : ℚ) (hb : b ≠ 0) :
    clampProgress (Flt.div a b) = max 0 (min 1 (a / b)) := by
  unfold clampProgress Flt.div
  rw [if_neg hb]
  by_cases h0 : a / b < 0
  · have h1 : ¬ ((1 : ℚ) < 0) := by norm_num
    simp [Flt.ltQ, Flt.gtQ, Flt.isnan, h0, h1, le_of_lt h0]
  · by_cases h1 : 1 < a / b
    · simp [Flt.ltQ, Flt.gtQ, Flt.isnan, h0, h1, le_of_lt h1]
    · simp [Flt.ltQ, Flt.gtQ, Flt.isnan, h0, h1, not_lt.mp h0, not_lt.mp h1]

theorem DrawMediaPanel_notDrawn_iff (width height textW : Int) (textH : ℚ) (g : Globals) :
    (DrawMediaPanel width height textW textH g).2 = BarResult.notDrawn
      ↔ ¬ (g.g_MediaState.isSpotify = true ∧ 0 < g.g_MediaState.duration) := by
  unfold DrawMediaPanel
  simp only []
  by_cases hc : (g.g_MediaState.isSpotify && decide ((0 : ℚ) < g.g_MediaState.duration)) = true
  · have hc2 : g.g_MediaState.isSpotify = true ∧ 0 < g.g_MediaState.duration := by
      simpa using hc
    simp only [hc, if_true]
    constructor
    · intro h
      split at h <;> cases h
    · intro h
      exact absurd hc2 h
  · have hc2 : ¬ (g.g_MediaState.isSpotify = true ∧ 0 < g.g_MediaState.duration) := by
      simpa using hc
    simp only [hc]
    exact ⟨fun _ => hc2, fun _ => rfl⟩

theorem DrawMediaPanel_bar_geometry (width height textW : Int) (textH : ℚ) (g : Globals)
    (bar : ProgressBarDraw)
    (hb : (DrawMediaPanel width height textW textH g).2 = BarResult.drawn bar) :
    bar.barX = 6 + (height - 12) + 12 + 56 + 20
      ∧ bar.barW
          = (if width - 20 - 10 - (6 + (height - 12) + 12 + 56 + 20) < 50 then 50
              else width - 20 - 10 - (6 + (height - 12) + 12 + 56 + 20)) := by
  unfold DrawMediaPanel at hb
  simp only [] at hb
  split at hb
  · split at hb
    · cases hb
    · cases hb
      exact ⟨rfl, rfl⟩
  · cases hb

theorem clampProgress_fin (q : ℚ) : clampProgress (Flt.fin q) = max 0 (min 1 q) := by
  unfold clampProgress
  by_cases h0 : q < 0
  · have h1 : ¬ ((1 : ℚ) < 0) := by norm_num
    simp [Flt.ltQ, Flt.gtQ, Flt.isnan, h0, h1, le_of_lt h0]
  · by_cases h1 : 1 < q
    · simp [Flt.ltQ, Flt.gtQ, Flt.isnan, h0, h1, le_of_lt h1]
    · simp [Flt.ltQ, Flt.gtQ, Flt.isnan, h0, h1, not_lt.mp h0, not_lt.mp h1]

/-- The `progress` of `DrawMediaPanel` for a non-zero duration: the quotient
rounded to `double`, then to `float`, then clamped. -/
theorem progress_rounded (a b : ℚ) (hb : b ≠ 0) :
    clampProgress (Flt.div a b).round64.round32 = max 0 (min 1 (round32 (round64 (a / b)))) := by
  have e : Flt.div a b = Flt.fin (a / b) := by
    unfold Flt.div
    rw [if_neg hb]
  rw [e]
  simp only [Flt.round64, Flt.round32]
  exact clampProgress_fin _

theorem DrawMediaPanel_drawn (width height textW : Int) (textH : ℚ) (g : Globals) (f : ℚ)
    (hsp : g.g_MediaState.isSpotify = true) (hdur : 0 < g.g_MediaState.duration)
    (hf : (if g.g_TimelineDragging then g.g_TimelineDragProgress
            else Flt.fin (clampProgress
              (Flt.div g.g_MediaState.position g.g_MediaState.duration).round64.round32))
          = Flt.fin f) :
    ∃ bar, (DrawMediaPanel width height textW textH g).2 = BarResult.drawn bar
      ∧ bar.drawProgress = Flt.fin f
      ∧ 50 ≤ bar.barW
      ∧ bar.progW = truncQ (round32 (round32 (bar.barW : ℚ) * f))
      ∧ bar.thumb
          = (if g.g_TimelineHover || g.g_TimelineDragging
              then some (bar.barX + bar.progW, bar.barY + Int.tdiv bar.barHeight 2,
                         Int.tdiv bar.barHeight 2 + 2)
              else none) := by
  have hdec : decide ((0 : ℚ) < g.g_MediaState.duration) = true := decide_eq_true hdur
  unfold DrawMediaPanel
  simp only [hsp, hdec, Bool.and_self, if_true, hf]
  simp only [Flt.mul, Flt.round32, castInt]
  refine ⟨_, rfl, rfl, ?_, rfl, rfl⟩
  simp only []
  split <;> omega

theorem Flt.inUnit_fin (x : Flt) (h : x.inUnit) : ∃ p, x = Flt.fin p ∧ 0 ≤ p ∧ p ≤ 1 := by
  cases x with
  | fin q => exact ⟨q, rfl, h.1, h.2⟩
  | pinf => exact absurd h (by simp [Flt.inUnit])
  | ninf => exact absurd h (by simp [Flt.inUnit])
  | nan => exact absurd h (by simp [Flt.inUnit])

/-- The filled width `(int)(barW * f)` for a bar narrower than `2^24` and a
fraction `f` in `[0, 1]`: it lies in `[0, barW]` and is `⌊barW * f⌋` or one
more. -/
theorem fill_width_bounds (w : Int) (f : ℚ) (hw0 : 0 ≤ w) (hw : w < 2 ^ 24)
    (hf0 : 0 ≤ f) (hf1 : f ≤ 1) :
    truncQ (round32 (round32 (w : ℚ) * f)) = ⌊round32 ((w : ℚ) * f)⌋
      ∧ 0 ≤ truncQ (round32 (round32 (w : ℚ) * f))
      ∧ truncQ (round32 (round32 (w : ℚ) * f)) ≤ w
      ∧ ⌊(w : ℚ) * f⌋ ≤ truncQ (round32 (round32 (w : ℚ) * f))
      ∧ truncQ (round32 (round32 (w : ℚ) * f)) ≤ ⌊(w : ℚ) * f⌋ + 1 := by
  have hwq0 : (0 : ℚ) ≤ (w : ℚ) := by exact_mod_cast hw0
  have hwq : (w : ℚ) < 2 ^ 24 := by exact_mod_cast hw
  have hwfix : round32 (w : ℚ) = (w : ℚ) :=
    round32_intCast w (by rw [abs_of_nonneg hwq0]; exact hwq)
  have hx0 : 0 ≤ (w : ℚ) * f := mul_nonneg hwq0 hf0
  have hxw : (w : ℚ) * f ≤ (w : ℚ) := by nlinarith
  have hr0 : 0 ≤ round32 ((w : ℚ) * f) := roundTo_nonneg 24 (-126) _ hx0
  have hrw : round32 ((w : ℚ) * f) ≤ (w : ℚ) := roundTo_le_fixed 24 (-126) _ _ hx0 hxw hwfix
  have hsand : ((⌊(w : ℚ) * f⌋ : Int) : ℚ) ≤ round32 ((w : ℚ) * f)
      ∧ round32 ((w : ℚ) * f) ≤ ((⌈(w : ℚ) * f⌉ : Int) : ℚ) := by
    by_cases hz : (w : ℚ) * f = 0
    · rw [hz, round32_zero]
      simp
    · apply roundTo_int_sandwich 24 (-126)
      apply ulpExp_le 24 (-126) _ 0 hz
      · rw [abs_of_nonneg hx0]
        have e2 : (2 : ℚ) ^ ((0 : Int) + ((24 : Nat) : Int)) = 2 ^ 24 := by norm_num
        rw [e2]
        exact lt_of_le_of_lt hxw hwq
      · norm_num
  have htr : truncQ (round32 ((w : ℚ) * f)) = ⌊round32 ((w : ℚ) * f)⌋ := by
    unfold truncQ
    rw [if_pos hr0]
  rw [hwfix, htr]
  refine ⟨rfl, Int.floor_nonneg.mpr hr0, ?_, ?_, ?_⟩
  · have : ⌊round32 ((w : ℚ) * f)⌋ ≤ ⌊(w : ℚ)⌋ := Int.floor_le_floor hrw
    rwa [Int.floor_intCast] at this
  · exact Int.le_floor.mpr hsand.1
  · have h1 : ⌊round32 ((w : ℚ) * f)⌋ ≤ ⌈(w : ℚ) * f⌉ := by
      have : ((⌊round32 ((w : ℚ) * f)⌋ : Int) : ℚ) ≤ ((⌈(w : ℚ) * f⌉ : Int) : ℚ) :=
        le_trans (Int.floor_le _) hsand.2
      exact_mod_cast this
    have h2 := Int.ceil_le_floor_add_one ((w : ℚ) * f)
    omega

/-- C16, amended: `DrawMediaPanel` draws no progress bar exactly when the
snapshot is not timeline-capable with a positive duration.  When it draws one
(the drag progress being in `[0, 1]` while dragging), the fraction shown is the
drag progress if dragging and otherwise `position / duration` rounded to
`double`, then to `float`, and clamped to `[0, 1]`; the filled width is the
integer part of the `float` product `barW * fraction`; for a bar narrower than
`2^24` it lies in `[0, barW]` and is `⌊barW * fraction⌋` or one more; and the
seek-thumb is drawn exactly when hovering or dragging, centred at
`x = barX + progW`. -/
theorem C16_progress_bar (width height textW : Int) (textH : ℚ) (g : Globals) :
    ((DrawMediaPanel width height textW textH g).2 = BarResult.notDrawn
        ↔ ¬ (g.g_MediaState.isSpotify = true ∧ 0 < g.g_MediaState.duration))
      ∧ (g.g_MediaState.isSpotify = true → 0 < g.g_MediaState.duration →
          (g.g_TimelineDragging = true → g.g_TimelineDragProgress.inUnit) →
          ∃ bar f, (DrawMediaPanel width height textW textH g).2 = BarResult.drawn bar
            ∧ bar.drawProgress
                = (if g.g_TimelineDragging then g.g_TimelineDragProgress
                    else Flt.fin (max 0 (min 1
                      (round32 (round64 (g.g_MediaState.position / g.g_MediaState.duration))))))
            ∧ bar.drawProgress = Flt.fin f ∧ 0 ≤ f ∧ f ≤ 1
            ∧ bar.progW = truncQ (round32 (round32 (bar.barW : ℚ) * f))
            ∧ (bar.barW < 2 ^ 24 →
                bar.progW = ⌊round32 ((bar.barW : ℚ) * f)⌋
                  ∧ 0 ≤ bar.progW ∧ bar.progW ≤ bar.barW
                  ∧ ⌊(bar.barW : ℚ) * f⌋ ≤ bar.progW
                  ∧ bar.progW ≤ ⌊(bar.barW : ℚ) * f⌋ + 1)
            ∧ bar.thumb.isSome = (g.g_TimelineHover || g.g_TimelineDragging)
            ∧ (∀ c, bar.thumb = some c → c.1 = bar.barX + bar.progW)) := by
  refine ⟨DrawMediaPanel_notDrawn_iff width height textW textH g, ?_⟩
  intro hsp hdur hdrag
  have hne : g.g_MediaState.duration ≠ 0 := ne_of_gt hdur
  have hcl := progress_rounded g.g_MediaState.position g.g_MediaState.duration hne
  have hf : ∃ f, (if g.g_TimelineDragging then g.g_TimelineDragProgress
        else Flt.fin (clampProgress
          (Flt.div g.g_MediaState.position g.g_MediaState.duration).round64.round32))
      = Flt.fin f ∧ 0 ≤ f ∧ f ≤ 1 := by
    by_cases hd : g.g_TimelineDragging = true
    · obtain ⟨p, hp, hp0, hp1⟩ := Flt.inUnit_fin _ (hdrag hd)
      exact ⟨p, by rw [if_pos hd, hp], hp0, hp1⟩
    · refine ⟨_, by rw [if_neg hd], ?_, ?_⟩
      · rw [hcl]; exact le_max_left 0 _
      · rw [hcl]; exact max_le (by norm_num) (min_le_left 1 _)
  obtain ⟨f, hfe, hf0, hf1⟩ := hf
  obtain ⟨bar, hb, hdp, hw, hpw, hth⟩ :=
    DrawMediaPanel_drawn width height textW textH g f hsp hdur hfe
  refine ⟨bar, f, hb, ?_, hdp, hf0, hf1, hpw, ?_, ?_, ?_⟩
  · rw [hdp, ← hfe, hcl]
  · intro hlt
    have h := fill_width_bounds bar.barW f (by omega) hlt hf0 hf1
    rw [← hpw] at h
    exact h
  · rw [hth]
    cases (g.g_TimelineHover || g.g_TimelineDragging) <;> rfl
  · intro c hc
    rw [hth] at hc
    cases hh : (g.g_TimelineHover || g.g_TimelineDragging)
    · rw [hh] at hc
      cases hc
    · rw [hh] at hc
      simp only [if_true, Option.some.injEq] at hc
      rw [← hc]

theorem round32_188 : round32 188 = 188 := by
  have h := round32_intCast 188 (by norm_num [abs_lt])
  exact_mod_cast h

theorem progress_32_47 :
    round64 (32 / 47) = 6132561194717271 / 9007199254740992
      ∧ round32 (6132561194717271 / 9007199254740992) = 11422785 / 16777216
      ∧ clampProgress (Flt.div 32 47).round64.round32 = 11422785 / 16777216 := by
  have h1 : round64 (32 / 47) = 6132561194717271 / 9007199254740992 := by
    have h := roundTo_eval_pos 53 (-1022) (32 / 47) (-1) (-53) 6132561194717271
      (by norm_num) (by norm_num) (by norm_num) (by norm_num) (by norm_num)
    rw [round64, h]
    norm_num
  have h2 : round32 (6132561194717271 / 9007199254740992) = 11422785 / 16777216 := by
    have h := roundTo_eval_pos 24 (-126) (6132561194717271 / 9007199254740992) (-1) (-24)
      11422785 (by norm_num) (by norm_num) (by norm_num) (by norm_num) (by norm_num)
    rw [round32, h]
    norm_num
  refine ⟨h1, h2, ?_⟩
  rw [progress_rounded 32 47 (by norm_num), h1, h2]
  norm_num

theorem fill_32_47 : truncQ (round32 (round32 188 * (11422785 / 16777216))) = 127 := by
  have h := roundTo_eval_pos 24 (-126) (188 * (11422785 / 16777216)) 6 (-17) 16777215
    (by norm_num) (by norm_num) (by norm_num) (by norm_num) (by norm_num)
  rw [round32_188, round32, h]
  unfold truncQ
  rw [if_pos (by norm_num), Int.floor_eq_iff]
  constructor <;> norm_num

theorem progress_3_47 :
    round64 (3 / 47) = 4599420896037953 / 72057594037927936
      ∧ round32 (4599420896037953 / 72057594037927936) = 8567089 / 134217728
      ∧ clampProgress (Flt.div 3 47).round64.round32 = 8567089 / 134217728 := by
  have h1 : round64 (3 / 47) = 4599420896037953 / 72057594037927936 := by
    have h := roundTo_eval_pos 53 (-1022) (3 / 47) (-4) (-56) 4599420896037953
      (by norm_num) (by norm_num) (by norm_num) (by norm_num) (by norm_num)
    rw [round64, h]
    norm_num
  have h2 : round32 (4599420896037953 / 72057594037927936) = 8567089 / 134217728 := by
    have h := roundTo_eval_pos 24 (-126) (4599420896037953 / 72057594037927936) (-4) (-27)
      8567089 (by norm_num) (by norm_num) (by norm_num) (by norm_num) (by norm_num)
    rw [round32, h]
    norm_num
  refine ⟨h1, h2, ?_⟩
  rw [progress_rounded 3 47 (by norm_num), h1, h2]
  norm_num

theorem fill_3_47 : truncQ (round32 (round32 188 * (8567089 / 134217728))) = 12 := by
  have h := roundTo_eval_pos 24 (-126) (188 * (8567089 / 134217728)) 3 (-20) 12582912
    (by norm_num) (by norm_num) (by norm_num) (by norm_num) (by norm_num)
  rw [round32_188, round32, h]
  unfold truncQ
  rw [if_pos (by norm_num), Int.floor_eq_iff]
  constructor <;> norm_num

theorem fill_quarter_188 : truncQ (round32 (round32 188 * (1 / 4))) = 47 := by
  have e2 : (188 * (1 / 4) : ℚ) = ((47 : Int) : ℚ) := by norm_num
  rw [round32_188, e2, round32_intCast 47 (by norm_num [abs_lt]), truncQ_intCast]

/-- The bar of the default panel (400 by 100) for a snapshot that is not being
dragged and whose `progress` is `f`: it is drawn, 188 wide, shows `f`, and its
filled width is the integer part of the `float` product `188 * f`. -/
theorem default_bar (g : Globals) (f : ℚ) (hsp : g.g_MediaState.isSpotify = true)
    (hdur : 0 < g.g_MediaState.duration) (hd : g.g_TimelineDragging = false)
    (hf : clampProgress (Flt.div g.g_MediaState.position g.g_MediaState.duration).round64.round32
        = f) :
    ∃ bar, (DrawMediaPanel 400 100 120 18 g).2 = BarResult.drawn bar
      ∧ bar.barW = 188 ∧ bar.drawProgress = Flt.fin f
      ∧ bar.progW = truncQ (round32 (round32 188 * f)) := by
  obtain ⟨bar, hb, hdp, _, hpw, _⟩ := DrawMediaPanel_drawn 400 100 120 18 g f hsp hdur
    (by rw [hd, hf]; rfl)
  have hg := (DrawMediaPanel_bar_geometry 400 100 120 18 g bar hb).2
  have hw : bar.barW = 188 := by
    rw [hg]
    decide
  refine ⟨bar, hb, hw, hdp, ?_⟩
  rw [hpw, hw]
  norm_num

/-- C16, amended, on the default panel with the paused track at 50 s of 200 s:
the bar is drawn 188 wide, shows the fraction 1/4, is filled 47 wide, and has
no seek-thumb. -/
theorem C16_progress_bar_witness :
    ∃ bar, (DrawMediaPanel 400 100 120 18 timelineGlobals).2 = BarResult.drawn bar
      ∧ bar.drawProgress = Flt.fin (1 / 4)
      ∧ bar.progW = 47
      ∧ bar.thumb.isSome = false := by
  have hdur : timelineGlobals.g_MediaState.duration = 200 := rfl
  have hpos : timelineGlobals.g_MediaState.position = 50 := rfl
  have hnd : timelineGlobals.g_TimelineDragging = false := rfl
  obtain ⟨bar, f, hb, hdp, hdf, _, _, hpw, _, hth, _⟩ :=
    (C16_progress_bar 400 100 120 18 timelineGlobals).2 rfl (by rw [hdur]; norm_num)
      (fun h => absurd h (by decide))
  have hq : (50 : ℚ) / 200 = 1 / 4 := by norm_num
  have hfq : Flt.fin f = Flt.fin (1 / 4) := by
    rw [← hdf, hdp, hdur, hpos, hnd, hq, round_quarter.1, round_quarter.2]
    norm_num
  have hf : f = 1 / 4 := by
    injection hfq
  have hw : bar.barW = 188 := by
    rw [(DrawMediaPanel_bar_geometry 400 100 120 18 timelineGlobals bar hb).2]
    decide
  refine ⟨bar, hb, ?_, ?_, hth⟩
  · rw [hdf, hf]
  · rw [hpw, hw, hf]
    have e : ((188 : Int) : ℚ) = 188 := by norm_num
    rw [e]
    exact fill_quarter_188

/-- C16 as stated fails on the default panel, whose bar is 188 wide.  With the
track at 32 s of 47 s the exact fraction is 32/47 and `⌊188 * 32/47⌋ = 128`,
but the bar is filled 127 wide: the `float` fraction is 11422785 / 2^24, just
below 32/47.  With the track at 3 s of 47 s the fraction shown is the `float`
8567089 / 2^27 and `⌊188 * fraction⌋ = 11`, but the bar is filled 12 wide: the
`float` product rounds up to 12. -/
theorem C16_counterexample :
    (∃ bar, (DrawMediaPanel 400 100 120 18 globals32of47).2 = BarResult.drawn bar
        ∧ bar.barW = 188 ∧ bar.progW = 127
        ∧ ⌊(188 : ℚ) * max 0 (min 1 ((32 : ℚ) / 47))⌋ = 128)
      ∧ (∃ bar, (DrawMediaPanel 400 100 120 18 globals3of47).2 = BarResult.drawn bar
          ∧ bar.barW = 188 ∧ bar.drawProgress = Flt.fin (8567089 / 134217728)
          ∧ bar.progW = 12
          ∧ ⌊(188 : ℚ) * (8567089 / 134217728)⌋ = 11) := by
  constructor
  · obtain ⟨bar, hb, hw, _, hpw⟩ := default_bar globals32of47 (11422785 / 16777216) rfl
      (by
        have e : globals32of47.g_MediaState.duration = 47 := rfl
        rw [e]; norm_num) rfl progress_32_47.2.2
    refine ⟨bar, hb, hw, ?_, ?_⟩
    · rw [hpw]
      exact fill_32_47
    · rw [Int.floor_eq_iff]
      constructor <;> norm_num
  · obtain ⟨bar, hb, hw, hdp, hpw⟩ := default_bar globals3of47 (8567089 / 134217728) rfl
      (by
        have e : globals3of47.g_MediaState.duration = 47 := rfl
        rw [e]; norm_num) rfl progress_3_47.2.2
    refine ⟨bar, hb, hw, hdp, ?_, ?_⟩
    · rw [hpw]
      exact fill_3_47
    · rw [Int.floor_eq_iff]
      constructor <;> norm_num

/-! ## C17: the period of the poll timer -/

/-- C17: after a poll tick the poll timer is armed with 16 ms if the
just-refreshed cached state is timeline-capable and with 1000 ms otherwise, the
cached state being the refreshed one; so the period is 16 or 1000 and two poll
ticks that end with the same flag choose the same period.  The pointer leaving
the window re-arms the timer by the same rule. -/
theorem C17_poll_interval (now now2 : Nat) (br br2 : Bridge) (g g2 : Globals) :
    (onPollTimer now br g).1.timerPoll
        = some (if (UpdateMediaInfo now br g).1.g_MediaState.isSpotify then 16 else 1000)
      ∧ (onPollTimer now br g).1.g_MediaState = (UpdateMediaInfo now br g).1.g_MediaState
      ∧ ((onPollTimer now br g).1.timerPoll = some 16
          ∨ (onPollTimer now br g).1.timerPoll = some 1000)
      ∧ ((onPollTimer now br g).1.g_MediaState.isSpotify
            = (onPollTimer now2 br2 g2).1.g_MediaState.isSpotify →
          (onPollTimer now br g).1.timerPoll = (onPollTimer now2 br2 g2).1.timerPoll)
      ∧ (onMouseLeave now g).timerPoll
          = some (if g.g_MediaState.isSpotify then 16 else 1000) := by
  have h1 : ∀ (n : Nat) (b : Bridge) (s : Globals), (onPollTimer n b s).1.timerPoll
      = some (if (onPollTimer n b s).1.g_MediaState.isSpotify then 16 else 1000) := by
    intro n b s
    rfl
  refine ⟨rfl, rfl, ?_, ?_, rfl⟩
  · rw [h1]
    cases (onPollTimer now br g).1.g_MediaState.isSpotify
    · exact Or.inr rfl
    · exact Or.inl rfl
  · intro he
    rw [h1 now br g, h1 now2 br2 g2, he]

/-- C17 on the cached Spotify track: a poll that finds the playing Spotify
session re-arms the timer with 16 ms, a poll that finds no session with
1000 ms. -/
theorem C17_poll_interval_witness :
    (onPollTimer 2000 (bridgeOf (some playingSpotify)) spotifyGlobals).1.timerPoll = some 16
      ∧ (onPollTimer 2000 (bridgeOf none) spotifyGlobals).1.timerPoll = some 1000 := by
  have hF : FindsSession (bridgeOf (some playingSpotify)) spotifyGlobals playingSpotify
      propsWithThumb PlaybackStatus.Playing := ⟨Or.inl rfl, rfl, rfl, rfl⟩
  have hT : ReportsTimeline playingSpotify { position := 500000000, endTime := 2000000000 } :=
    ⟨⟨"Spotify.exe", rfl, by decide⟩, rfl⟩
  have e1 : (UpdateMediaInfo 2000 (bridgeOf (some playingSpotify)) spotifyGlobals).1.g_MediaState.isSpotify
      = true := by
    rw [(UpdateMediaInfo_session _ _ _ _ _ _ hF).1]
    exact (refreshSession_timeline _ _ _ _ _ _ hT).1
  have e2 : (UpdateMediaInfo 2000 (bridgeOf none) spotifyGlobals).1.g_MediaState.isSpotify
      = false := by
    simp [UpdateMediaInfo, bridgeOf, spotifyGlobals, initialGlobals, refreshNoSession]
  constructor
  · rw [(C17_poll_interval 2000 2000 (bridgeOf (some playingSpotify)) (bridgeOf none)
      spotifyGlobals spotifyGlobals).1, e1]
    rfl
  · rw [(C17_poll_interval 2000 2000 (bridgeOf none) (bridgeOf none)
      spotifyGlobals spotifyGlobals).1, e2]
    rfl

/-! ## C18: the fields of the most recent refresh -/

/-- C18: whatever refreshes came before, after a refresh that finds an active
session the cached `isPlaying` is true exactly when the playback status
reported by that refresh is Playing, and the cached title, artist and
`hasMedia = true` are those of that refresh. -/
theorem C18_latest_refresh_wins (earlier : List (Nat × Bridge)) (g : Globals) (now : Nat)
    (br : Bridge) (session : Session) (props : MediaProps) (status : PlaybackStatus)
    (h : FindsSession br (runRefreshes earlier g) session props status) :
    ((UpdateMediaInfo now br (runRefreshes earlier g)).1.g_MediaState.isPlaying = true
        ↔ status = PlaybackStatus.Playing)
      ∧ (UpdateMediaInfo now br (runRefreshes earlier g)).1.g_MediaState.title = props.title
      ∧ (UpdateMediaInfo now br (runRefreshes earlier g)).1.g_MediaState.artist = props.artist
      ∧ (UpdateMediaInfo now br (runRefreshes earlier g)).1.g_MediaState.hasMedia = true := by
  have hm := (UpdateMediaInfo_session now br _ session props status h).1
  have hf := refreshSession_fields now session props status (runRefreshes earlier g).g_MediaState
  rw [hm]
  refine ⟨?_, hf.1, hf.2.1, hf.2.2.1⟩
  rw [hf.2.2.2.1]
  exact decide_eq_true_iff

/-- C18 after a playing browser session and a poll without session: a refresh
that finds the paused Spotify session caches `isPlaying = false` and its title. -/
theorem C18_latest_refresh_wins_witness :
    (UpdateMediaInfo 30 (bridgeOf (some pausedSpotify))
        (runRefreshes [(5, bridgeOf (some sessionNoThumb)), (9, bridgeOf none)]
          initialGlobals)).1.g_MediaState.isPlaying = false
      ∧ (UpdateMediaInfo 30 (bridgeOf (some pausedSpotify))
          (runRefreshes [(5, bridgeOf (some sessionNoThumb)), (9, bridgeOf none)]
            initialGlobals)).1.g_MediaState.title = "Song" := by
  have h := C18_latest_refresh_wins [(5, bridgeOf (some sessionNoThumb)), (9, bridgeOf none)]
    initialGlobals 30 (bridgeOf (some pausedSpotify)) pausedSpotify propsWithThumb
    PlaybackStatus.Paused ⟨Or.inr rfl, rfl, rfl, rfl⟩
  refine ⟨?_, h.2.1⟩
  rw [← Bool.not_eq_true, h.1]
  decide


/-! ## C19: when the smooth position is reset -/

theorem updateTimeline_smooth (now : Nat) (session : Session) (status : PlaybackStatus)
    (st : MediaState) :
    ((updateTimeline now session status st).1.isSpotify = false →
        (updateTimeline now session status st).1.smoothPosition = st.smoothPosition)
      ∧ ((updateTimeline now session status st).1.duration ≤ 0 →
          (updateTimeline now session status st).1.smoothPosition = 0
            ∨ (updateTimeline now session status st).1.smoothPosition = st.smoothPosition) := by
  cases hsrc : session.sourceAppUserModelId with
  | raised =>
    have e : (updateTimeline now session status st).1 = st := by
      unfold updateTimeline
      simp [hsrc]
    rw [e]
    exact ⟨fun _ => rfl, fun _ => Or.inr rfl⟩
  | ok source =>
    by_cases hw : wcsstr source.toList "Spotify".toList = true
    · cases htl : session.timelineProperties with
      | raised =>
        have e : (updateTimeline now session status st).1 = { st with isSpotify := true } := by
          unfold updateTimeline
          simp only [hsrc, hw, htl, if_true]
        rw [e]
        exact ⟨fun _ => rfl, fun _ => Or.inr rfl⟩
      | ok tl =>
        obtain ⟨r1, _, r3, _, r5⟩ :=
          updateTimeline_reports now session status st tl ⟨⟨source, hsrc, hw⟩, htl⟩
        constructor
        · intro hf
          rw [r1] at hf
          cases hf
        · intro hd
          rw [r3] at hd
          have hle : tl.endTime ≤ 0 := by
            by_contra hc
            have hpos : (0 : ℚ) < (tl.endTime : ℚ) := by exact_mod_cast not_le.mp hc
            have : (0 : ℚ) < (tl.endTime : ℚ) / 10000000 := by positivity
            linarith
          exact Or.inl (r5 hle)
    · have e : (updateTimeline now session status st).1 = st := by
        unfold updateTimeline
        simp only [hsrc, hw, if_false]
        rfl
      rw [e]
      exact ⟨fun _ => rfl, fun _ => Or.inr rfl⟩

theorem refreshSession_smooth (now : Nat) (session : Session) (props : MediaProps)
    (status : PlaybackStatus) (st : MediaState) :
    ((refreshSession now session props status st).1.isSpotify = false →
        (refreshSession now session props status st).1.smoothPosition = st.smoothPosition)
      ∧ ((refreshSession now session props status st).1.duration ≤ 0 →
          (refreshSession now session props status st).1.smoothPosition = 0
            ∨ (refreshSession now session props status st).1.smoothPosition = st.smoothPosition) := by
  unfold refreshSession
  simp only []
  have h := fun s => updateTimeline_smooth now session status s
  constructor
  · intro hf
    rw [(h _).1 hf]
    exact updateArt_keeps_smooth props st
  · intro hd
    rcases (h _).2 hd with h0 | h1
    · exact Or.inl h0
    · right
      rw [h1]
      exact updateArt_keeps_smooth props st

theorem UpdateMediaInfo_cases (now : Nat) (br : Bridge) (g : Globals) :
    (UpdateMediaInfo now br g).1.g_MediaState = g.g_MediaState
      ∨ (UpdateMediaInfo now br g).1.g_MediaState = (refreshCatch g.g_MediaState).1
      ∨ (UpdateMediaInfo now br g).1.g_MediaState = (refreshNoSession g.g_MediaState).1
      ∨ ∃ session props status,
          (UpdateMediaInfo now br g).1.g_MediaState
            = (refreshSession now session props status g.g_MediaState).1 := by
  unfold UpdateMediaInfo
  simp only []
  split
  · exact Or.inr (Or.inl rfl)
  · split
    · exact Or.inl rfl
    · split
      · exact Or.inr (Or.inl rfl)
      · exact Or.inr (Or.inr (Or.inl rfl))
      · split
        · exact Or.inr (Or.inl rfl)
        · split
          · exact Or.inr (Or.inl rfl)
          · exact Or.inr (Or.inr (Or.inr ⟨_, _, _, rfl⟩))


/-- C19, amended: after a refresh of any kind, a resulting state that is not
timeline-capable has the smooth position it had before the refresh, and a
resulting state with `duration ≤ 0` has a smooth position that is 0 or
unchanged; the smooth position is reset to 0 when the refresh read the
timeline of a timeline-capable session and found a duration `≤ 0`. -/
theorem C19_smooth_position_reset (now : Nat) (br : Bridge) (g : Globals) (session : Session)
    (props : MediaProps) (status : PlaybackStatus) (tl : Timeline) :
    ((UpdateMediaInfo now br g).1.g_MediaState.isSpotify = false →
        (UpdateMediaInfo now br g).1.g_MediaState.smoothPosition = g.g_MediaState.smoothPosition)
      ∧ ((UpdateMediaInfo now br g).1.g_MediaState.duration ≤ 0 →
          (UpdateMediaInfo now br g).1.g_MediaState.smoothPosition = 0
            ∨ (UpdateMediaInfo now br g).1.g_MediaState.smoothPosition
                = g.g_MediaState.smoothPosition)
      ∧ (FindsSession br g session props status → ReportsTimeline session tl → tl.endTime ≤ 0 →
          (UpdateMediaInfo now br g).1.g_MediaState.isSpotify = true
            ∧ (UpdateMediaInfo now br g).1.g_MediaState.duration ≤ 0
            ∧ (UpdateMediaInfo now br g).1.g_MediaState.smoothPosition = 0) := by
  refine ⟨?_, ?_, ?_⟩
  · intro hf
    rcases UpdateMediaInfo_cases now br g with h | h | h | ⟨s, p, st, h⟩
    · rw [h]
    · rw [h]; rfl
    · rw [h]; rfl
    · rw [h] at hf ⊢
      exact (refreshSession_smooth now s p st g.g_MediaState).1 hf
  · intro hd
    rcases UpdateMediaInfo_cases now br g with h | h | h | ⟨s, p, st, h⟩
    · rw [h]; exact Or.inr rfl
    · rw [h]; exact Or.inr rfl
    · rw [h]; exact Or.inr rfl
    · rw [h] at hd ⊢
      exact (refreshSession_smooth now s p st g.g_MediaState).2 hd
  · intro hF hT hle
    rw [(UpdateMediaInfo_session now br g session props status hF).1]
    obtain ⟨r1, _, r3, _, r5⟩ := refreshSession_timeline now session props status g.g_MediaState tl hT
    refine ⟨r1, ?_, r5 hle⟩
    rw [r3]
    have : (tl.endTime : ℚ) ≤ 0 := by exact_mod_cast hle
    exact div_nonpos_of_nonpos_of_nonneg this (by norm_num)

/-- C19, amended, on the cached Spotify track with smooth position 49: a
refresh that reads a Spotify timeline of duration 0 resets it to 0. -/
theorem C19_smooth_position_reset_witness :
    (UpdateMediaInfo 2000 (bridgeOf (some spotifyNoDuration)) spotifyGlobals).1.g_MediaState.isSpotify
        = true
      ∧ (UpdateMediaInfo 2000 (bridgeOf (some spotifyNoDuration)) spotifyGlobals).1.g_MediaState.duration
        ≤ 0
      ∧ (UpdateMediaInfo 2000 (bridgeOf (some spotifyNoDuration)) spotifyGlobals).1.g_MediaState.smoothPosition
        = 0 :=
  (C19_smooth_position_reset 2000 (bridgeOf (some spotifyNoDuration)) spotifyGlobals
    spotifyNoDuration propsWithThumb PlaybackStatus.Playing { position := 0, endTime := 0 }).2.2
    ⟨Or.inl rfl, rfl, rfl, rfl⟩ ⟨⟨"Spotify.exe", rfl, by decide⟩, rfl⟩ (by decide)

/-- C19 as stated fails: with the Spotify track cached at smooth position 49,
a refresh that finds no session leaves a state that is not timeline-capable,
with duration 0, whose smooth position is still 49. -/
theorem C19_counterexample :
    FindsNoSession (bridgeOf none) spotifyGlobals
      ∧ (UpdateMediaInfo 2000 (bridgeOf none) spotifyGlobals).1.g_MediaState.isSpotify = false
      ∧ (UpdateMediaInfo 2000 (bridgeOf none) spotifyGlobals).1.g_MediaState.duration = 0
      ∧ (UpdateMediaInfo 2000 (bridgeOf none) spotifyGlobals).1.g_MediaState.smoothPosition = 49 := by
  have e : (UpdateMediaInfo 2000 (bridgeOf none) spotifyGlobals).1.g_MediaState
      = (refreshNoSession spotifyGlobals.g_MediaState).1 := by
    simp [UpdateMediaInfo, bridgeOf, spotifyGlobals, initialGlobals]
  rw [e]
  exact ⟨⟨Or.inl rfl, rfl⟩, rfl, rfl, rfl⟩

/-! ## C20: the bold level after the pointer left the zone -/

/-- C20, amended: with the reveal zone inactive, a hover tick within 500 ms of
the last leave lowers the bold level by 1/20, never below 0, and leaves the
hover timer as it is; the first tick after the 500 ms have expired sets the
bold level to 0 at once and kills the hover timer. -/
theorem C20_grace_decay (now : Nat) (g : Globals) (hz : g.g_HoverTabZone = false) :
    (usub64 now g.g_HoverLastLeftTime < 500 →
        (onHoverTimer now g).g_HoverBoldLevel = max (g.g_HoverBoldLevel - 1 / 20) 0
          ∧ (onHoverTimer now g).timerHover = g.timerHover)
      ∧ (500 ≤ usub64 now g.g_HoverLastLeftTime →
          (onHoverTimer now g).g_HoverBoldLevel = 0
            ∧ (onHoverTimer now g).timerHover = none) := by
  unfold onHoverTimer
  constructor
  · intro hgr
    simp only [hz, Bool.false_eq_true, if_false, hgr, if_true]
    refine ⟨?_, trivial⟩
    by_cases hb : g.g_HoverBoldLevel - 1 / 20 < 0
    · rw [if_pos hb, max_eq_right (le_of_lt hb)]
    · rw [if_neg hb, max_eq_left (not_lt.mp hb)]
  · intro hex
    have hn : ¬ (usub64 now g.g_HoverLastLeftTime < 500) := by omega
    simp only [hz, Bool.false_eq_true, if_false, hn]
    exact ⟨trivial, trivial⟩

/-- C20, amended, after a leave at tick 1000 with bold level 1/2: the tick at
1050 lowers it to 9/20 and keeps the timer; the tick at 1600 sets it to 0. -/
theorem C20_grace_decay_witness :
    (onHoverTimer 1050 graceGlobals).g_HoverBoldLevel = 9 / 20
      ∧ (onHoverTimer 1050 graceGlobals).timerHover = some 50
      ∧ (onHoverTimer 1600 graceGlobals).timerHover = none := by
  have h1 := (C20_grace_decay 1050 graceGlobals rfl).1 (by decide)
  have h2 := (C20_grace_decay 1600 graceGlobals rfl).2 (by decide)
  refine ⟨?_, h1.2, h2.2⟩
  rw [h1.1]
  have e : graceGlobals.g_HoverBoldLevel = 1 / 2 := rfl
  rw [e]
  norm_num

/-- C20 as stated fails: after a leave at tick 1000 with bold level 1/2, the
first tick after the grace window, at 1600, drops the bold level from 1/2 to 0
in one step (not by the per-tick amount 1/20) and kills the timer, no decay
having brought the level to 0. -/
theorem C20_counterexample :
    graceGlobals.g_HoverTabZone = false
      ∧ 500 ≤ usub64 1600 graceGlobals.g_HoverLastLeftTime
      ∧ graceGlobals.g_HoverBoldLevel = 1 / 2
      ∧ (onHoverTimer 1600 graceGlobals).g_HoverBoldLevel = 0
      ∧ (onHoverTimer 1600 graceGlobals).timerHover = none := by
  have hn : ¬ (usub64 1600 graceGlobals.g_HoverLastLeftTime < 500) := by decide
  refine ⟨rfl, by decide, rfl, ?_, ?_⟩
  · unfold onHoverTimer
    simp only [show graceGlobals.g_HoverTabZone = false from rfl, Bool.false_eq_true, if_false, hn]
  · unfold onHoverTimer
    simp only [show graceGlobals.g_HoverTabZone = false from rfl, Bool.false_eq_true, if_false, hn]


/-! ## C21: a release after the timeline went away -/

theorem onLButtonUp_no_timeline (br : Bridge) (g : Globals)
    (hd : g.g_TimelineDragging = true)
    (hn : ¬ (g.g_MediaState.isSpotify = true ∧ 0 < g.g_MediaState.duration)) :
    onLButtonUp br g = some ({ g with g_TimelineDragging := false, capture := false }, []) := by
  have hc : ¬ ((g.g_MediaState.isSpotify && decide ((0 : ℚ) < g.g_MediaState.duration)) = true) := by
    simpa using hn
  unfold onLButtonUp
  simp only [hd, if_true, hc, Bool.false_eq_true, if_false]

/-- C21, amended: a release that arrives while dragging when the cached state
is not timeline-capable, or has no positive duration, ends the drag and sends
no command at all: no seek is attempted, and nothing else changes but the
pointer capture. -/
theorem C21_release_without_timeline (br : Bridge) (g : Globals)
    (hd : g.g_TimelineDragging = true)
    (hn : ¬ (g.g_MediaState.isSpotify = true ∧ 0 < g.g_MediaState.duration)) :
    onLButtonUp br g = some ({ g with g_TimelineDragging := false, capture := false }, []) :=
  onLButtonUp_no_timeline br g hd hn

/-- C21, amended, on a drag whose cached state is timeline-capable with
duration 0. -/
theorem C21_release_without_timeline_witness :
    onLButtonUp (bridgeOf (some playingSpotify)) zeroDurationDragGlobals
      = some ({ zeroDurationDragGlobals with g_TimelineDragging := false, capture := false }, []) :=
  C21_release_without_timeline (bridgeOf (some playingSpotify)) zeroDurationDragGlobals rfl
    (by
      rintro ⟨_, h⟩
      have e : zeroDurationDragGlobals.g_MediaState.duration = 0 := rfl
      rw [e] at h
      exact lt_irrefl 0 h)

/-- C21 as stated fails: with a drag at 50 % in progress and the cached state
no longer timeline-capable, the release ends the drag but sends no command,
although the session manager reports a playing Spotify session. -/
theorem C21_counterexample :
    staleDragGlobals.g_TimelineDragging = true
      ∧ staleDragGlobals.g_MediaState.isSpotify = false
      ∧ onLButtonUp (bridgeOf (some playingSpotify)) staleDragGlobals
          = some ({ staleDragGlobals with g_TimelineDragging := false, capture := false }, []) :=
  ⟨rfl, rfl, onLButtonUp_no_timeline (bridgeOf (some playingSpotify)) staleDragGlobals rfl
    (by
      rintro ⟨h, _⟩
      exact absurd h (by decide))⟩


/-! ## C22: which calls are made while the lock is held -/

theorem heldCalls_skip (pre rest : List Ev) (h : ∀ e ∈ pre, e.isQuery = true) :
    heldCalls (pre ++ rest) false = heldCalls rest false := by
  induction pre with
  | nil => rfl
  | cons e es ih =>
    have he := h e (List.mem_cons_self e es)
    have h1 : e ≠ Ev.lockAcquire := by intro hc; rw [hc] at he; exact absurd he (by decide)
    have h2 : e ≠ Ev.lockRelease := by intro hc; rw [hc] at he; exact absurd he (by decide)
    rw [List.cons_append]
    conv_lhs => unfold heldCalls
    simp only [h1, h2, if_false, Bool.false_eq_true]
    exact ih (fun x hx => h x (List.mem_cons_of_mem e hx))

theorem heldCalls_keep (inner rest : List Ev) (h : ∀ e ∈ inner, e.isInBlock = true) :
    heldCalls (inner ++ rest) true = inner ++ heldCalls rest true := by
  induction inner with
  | nil => rfl
  | cons e es ih =>
    have he := h e (List.mem_cons_self e es)
    have h1 : e ≠ Ev.lockAcquire := by intro hc; rw [hc] at he; exact absurd he (by decide)
    have h2 : e ≠ Ev.lockRelease := by intro hc; rw [hc] at he; exact absurd he (by decide)
    rw [List.cons_append]
    conv_lhs => unfold heldCalls
    simp only [h1, h2, if_false, if_true]
    rw [ih (fun x hx => h x (List.mem_cons_of_mem e hx))]
    rfl

theorem heldCalls_block (pre inner : List Ev) (hp : ∀ e ∈ pre, e.isQuery = true)
    (hi : ∀ e ∈ inner, e.isInBlock = true) :
    heldCalls (pre ++ ([Ev.lockAcquire] ++ inner ++ [Ev.lockRelease])) false = inner := by
  rw [heldCalls_skip pre _ hp]
  have e1 : [Ev.lockAcquire] ++ inner ++ [Ev.lockRelease]
      = Ev.lockAcquire :: (inner ++ [Ev.lockRelease]) := by simp
  rw [e1]
  conv_lhs => unfold heldCalls
  simp only [if_true]
  rw [heldCalls_keep inner _ hi]
  simp [heldCalls]

theorem loadThumbnail_inBlock (props : MediaProps) :
    ∀ e ∈ (loadThumbnail props).2, e.isInBlock = true := by
  unfold loadThumbnail
  split
  · intro e he; simp at he; rw [he]; rfl
  · intro e he; simp at he; rw [he]; rfl
  · split
    · intro e he
      simp at he
      rcases he with rfl | rfl <;> rfl
    · intro e he
      simp at he
      rcases he with rfl | rfl | rfl <;> rfl

theorem updateArt_inBlock (props : MediaProps) (st : MediaState) :
    ∀ e ∈ (updateArt props st).2, e.isInBlock = true := by
  have hl := loadThumbnail_inBlock props
  have hfreed : ∀ e ∈ (if st.albumArt.isSome = true then [Ev.freeArt] else []), e.isInBlock = true := by
    intro e he
    split at he
    · simp at he; rw [he]; rfl
    · cases he
  unfold updateArt
  split
  · simp only []
    split
    · intro e he
      rcases List.mem_append.mp he with h | h
      · exact hfreed e h
      · exact hl e h
    · intro e he
      rcases List.mem_append.mp he with h | h
      · exact hfreed e h
      · exact hl e h
  · intro e he
    cases he

theorem updateTimeline_inBlock (now : Nat) (session : Session) (status : PlaybackStatus)
    (st : MediaState) : ∀ e ∈ (updateTimeline now session status st).2, e.isInBlock = true := by
  unfold updateTimeline
  split
  · intro e he; simp at he; rw [he]; rfl
  · split
    · split
      · intro e he
        simp at he
        rcases he with rfl | rfl <;> rfl
      · intro e he
        simp at he
        rcases he with rfl | rfl <;> rfl
    · intro e he; simp at he; rw [he]; rfl


theorem refreshSession_trace (now : Nat) (session : Session) (props : MediaProps)
    (status : PlaybackStatus) (st : MediaState) :
    ∃ inner, (∀ e ∈ inner, e.isInBlock = true)
      ∧ (refreshSession now session props status st).2
          = [Ev.lockAcquire] ++ inner ++ [Ev.lockRelease] := by
  unfold refreshSession
  simp only []
  rw [List.append_assoc [Ev.lockAcquire]]
  refine ⟨_, ?_, rfl⟩
  intro e he
  rcases List.mem_append.mp he with h | h
  · exact updateArt_inBlock props st e h
  · exact updateTimeline_inBlock _ _ _ _ e h

theorem UpdateMediaInfo_trace_shape (now : Nat) (br : Bridge) (g : Globals) :
    ∃ pre inner, (∀ e ∈ pre, e.isQuery = true) ∧ (∀ e ∈ inner, e.isInBlock = true)
      ∧ ((UpdateMediaInfo now br g).2 = pre
          ∨ (UpdateMediaInfo now br g).2
              = pre ++ ([Ev.lockAcquire] ++ inner ++ [Ev.lockRelease])) := by
  have hpre : ∀ l : List Ev, (∀ e ∈ l, e.isQuery = true) →
      ∀ e ∈ (if g.g_SessionManager = true then ((Outcome.ok true : Outcome Bool), ([] : List Ev))
              else (br.requestManager, [Ev.requestManager])).2 ++ l, e.isQuery = true := by
    intro l hl e he
    rcases List.mem_append.mp he with h | h
    · split at h
      · cases h
      · simp at h; rw [h]; rfl
    · exact hl e h
  have hnil : ∀ e ∈ ([] : List Ev), e.isInBlock = true := fun e he => by cases he
  have hfreed : ∀ e ∈ (if g.g_MediaState.albumArt.isSome = true then [Ev.freeArt] else []),
      e.isInBlock = true := by
    intro e he
    split at he
    · simp at he; rw [he]; rfl
    · cases he
  unfold UpdateMediaInfo
  simp only []
  split
  · refine ⟨_, [], hpre [] (fun e he => by cases he), hnil, Or.inr ?_⟩
    simp [refreshCatch]
  · split
    · refine ⟨_, [], hpre [] (fun e he => by cases he), hnil, Or.inl ?_⟩
      simp
    · split
      · refine ⟨_, [], hpre [Ev.getCurrentSession] (by decide), hnil, Or.inr ?_⟩
        simp [refreshCatch]
      · refine ⟨_, _, hpre [Ev.getCurrentSession] (by decide), hfreed, Or.inr ?_⟩
        simp [refreshNoSession]
      · split
        · refine ⟨_, [], hpre [Ev.getCurrentSession, Ev.getMediaProperties] (by decide), hnil,
            Or.inr ?_⟩
          simp [refreshCatch]
        · split
          · refine ⟨_, [], hpre [Ev.getCurrentSession, Ev.getMediaProperties, Ev.getPlaybackInfo]
              (by decide), hnil, Or.inr ?_⟩
            simp [refreshCatch]
          · obtain ⟨inner, hin, htr⟩ :=
              refreshSession_trace now ‹Session› ‹MediaProps› ‹PlaybackStatus› g.g_MediaState
            refine ⟨_, inner,
              hpre [Ev.getCurrentSession, Ev.getMediaProperties, Ev.getPlaybackInfo] (by decide),
              hin, Or.inr ?_⟩
            simp only [htr, List.append_assoc]


theorem UpdateMediaInfo_held (now : Nat) (br : Bridge) (g : Globals) :
    (∀ e ∈ heldCalls (UpdateMediaInfo now br g).2 false, e.isInBlock = true)
      ∧ (Ev.openThumbnail ∈ (UpdateMediaInfo now br g).2 →
          Ev.openThumbnail ∈ heldCalls (UpdateMediaInfo now br g).2 false) := by
  obtain ⟨pre, inner, hp, hi, h | h⟩ := UpdateMediaInfo_trace_shape now br g
  · have e : heldCalls (UpdateMediaInfo now br g).2 false = [] := by
      rw [h]
      have := heldCalls_skip pre [] hp
      rw [List.append_nil] at this
      rw [this]
      rfl
    rw [e]
    refine ⟨fun x hx => (by cases hx), ?_⟩
    intro hin
    rw [h] at hin
    exact absurd (hp _ hin) (by decide)
  · have e : heldCalls (UpdateMediaInfo now br g).2 false = inner := by
      rw [h]
      exact heldCalls_block pre inner hp hi
    rw [e]
    refine ⟨hi, ?_⟩
    intro hin
    rw [h] at hin
    rcases List.mem_append.mp hin with h1 | h1
    · exact absurd (hp _ h1) (by decide)
    · rcases List.mem_append.mp h1 with h2 | h2
      · rcases List.mem_append.mp h2 with h3 | h3
        · simp at h3
        · exact h3
      · simp at h2

theorem openThumbnail_in_trace (now : Nat) (br : Bridge) (g : Globals) (session : Session)
    (props : MediaProps) (status : PlaybackStatus) (thumbRef : ThumbRef)
    (h : FindsSession br g session props status)
    (hs : shouldUpdateArt props.title props.artist g.g_MediaState = true)
    (ht : props.thumbnail = Outcome.ok (some thumbRef)) :
    Ev.openThumbnail ∈ (UpdateMediaInfo now br g).2 := by
  have hl : Ev.openThumbnail ∈ (loadThumbnail props).2 := by
    unfold loadThumbnail
    simp only [ht]
    split <;> simp
  have ha : Ev.openThumbnail ∈ (updateArt props g.g_MediaState).2 := by
    unfold updateArt
    simp only [hs, if_true]
    split <;> exact List.mem_append_right _ hl
  rw [(UpdateMediaInfo_session now br g session props status h).2]
  apply List.mem_append_right
  unfold refreshSession
  simp only []
  exact List.mem_append_left _ (List.mem_append_left _ (List.mem_append_right _ ha))

/-- C22, amended: in every refresh, no session request, current-session query,
metadata fetch or playback-info fetch is made while the media-state lock is
held; what is called under the lock is the freeing of the art, the thumbnail
query, the thumbnail stream open, the decode, the source id and the timeline
read.  Every thumbnail stream open of the refresh is made while the lock is
held, and it is made whenever the refresh finds a session, attempts the
album-art reload and the session has a thumbnail. -/
theorem C22_calls_under_lock (now : Nat) (br : Bridge) (g : Globals) (session : Session)
    (props : MediaProps) (status : PlaybackStatus) (thumbRef : ThumbRef) :
    (Ev.requestManager ∉ heldCalls (UpdateMediaInfo now br g).2 false
        ∧ Ev.getCurrentSession ∉ heldCalls (UpdateMediaInfo now br g).2 false
        ∧ Ev.getMediaProperties ∉ heldCalls (UpdateMediaInfo now br g).2 false
        ∧ Ev.getPlaybackInfo ∉ heldCalls (UpdateMediaInfo now br g).2 false)
      ∧ (∀ e ∈ heldCalls (UpdateMediaInfo now br g).2 false, e.isInBlock = true)
      ∧ (Ev.openThumbnail ∈ (UpdateMediaInfo now br g).2 →
          Ev.openThumbnail ∈ heldCalls (UpdateMediaInfo now br g).2 false)
      ∧ (FindsSession br g session props status →
          AttemptsArtReload (UpdateMediaInfo now br g).2 →
          props.thumbnail = Outcome.ok (some thumbRef) →
          Ev.openThumbnail ∈ heldCalls (UpdateMediaInfo now br g).2 false) := by
  obtain ⟨h1, h2⟩ := UpdateMediaInfo_held now br g
  refine ⟨⟨?_, ?_, ?_, ?_⟩, h1, h2, ?_⟩
  · intro hc; exact absurd (h1 _ hc) (by decide)
  · intro hc; exact absurd (h1 _ hc) (by decide)
  · intro hc; exact absurd (h1 _ hc) (by decide)
  · intro hc; exact absurd (h1 _ hc) (by decide)
  · intro hF ha ht
    exact h2 (openThumbnail_in_trace now br g session props status thumbRef hF
      ((UpdateMediaInfo_attempt now br g session props status hF).mp ha) ht)

/-- C22, amended, at start-up with a session that has a thumbnail: the metadata
fetch is made before the lock is taken, the stream open under it. -/
theorem C22_calls_under_lock_witness :
    Ev.getMediaProperties
        ∉ heldCalls (UpdateMediaInfo 5 (bridgeOf (some sessionWithThumb)) initialGlobals).2 false
      ∧ Ev.openThumbnail
        ∈ heldCalls (UpdateMediaInfo 5 (bridgeOf (some sessionWithThumb)) initialGlobals).2 false := by
  have h := C22_calls_under_lock 5 (bridgeOf (some sessionWithThumb)) initialGlobals
    sessionWithThumb propsWithThumb PlaybackStatus.Playing { openRead := Outcome.ok goodStream }
  have hF : FindsSession (bridgeOf (some sessionWithThumb)) initialGlobals sessionWithThumb
      propsWithThumb PlaybackStatus.Playing := ⟨Or.inr rfl, rfl, rfl, rfl⟩
  refine ⟨h.1.2.2.1, h.2.2.2 hF ?_ rfl⟩
  exact (UpdateMediaInfo_attempt _ _ _ _ _ _ hF).mpr
    ((shouldUpdateArt_iff _ _ _).mpr (Or.inr (Or.inr rfl)))

/-- C22 as stated fails: at start-up, a refresh that finds the session "Song"
by "Band" with a thumbnail opens the thumbnail stream between acquiring and
releasing the media-state lock. -/
theorem C22_counterexample :
    FindsSession (bridgeOf (some sessionWithThumb)) initialGlobals sessionWithThumb
        propsWithThumb PlaybackStatus.Playing
      ∧ Ev.openThumbnail
        ∈ heldCalls (UpdateMediaInfo 5 (bridgeOf (some sessionWithThumb)) initialGlobals).2 false := by
  have hF : FindsSession (bridgeOf (some sessionWithThumb)) initialGlobals sessionWithThumb
      propsWithThumb PlaybackStatus.Playing := ⟨Or.inr rfl, rfl, rfl, rfl⟩
  refine ⟨hF, (UpdateMediaInfo_held _ _ _).2 ?_⟩
  exact openThumbnail_in_trace 5 _ _ sessionWithThumb propsWithThumb PlaybackStatus.Playing
    { openRead := Outcome.ok goodStream } hF
    ((shouldUpdateArt_iff _ _ _).mpr (Or.inr (Or.inr rfl))) rfl


/-! ## C23: the transport controls -/

theorem tabZoneStep_media (now : Nat) (x y : Int) (g : Globals) :
    (tabZoneStep now x y g).g_MediaState = g.g_MediaState := by
  unfold tabZoneStep
  split
  · split <;> rfl
  · split <;> rfl

theorem onTimeline_congr (tl : TimelineGeometry) (x y : Int) (g g2 : Globals)
    (hm : g2.g_MediaState = g.g_MediaState) (hs : g2.g_Settings = g.g_Settings) :
    onTimeline tl x y g2 = onTimeline tl x y g := by
  unfold onTimeline
  rw [hm, hs]

theorem onMouseMove_control (now : Nat) (glyphH : ℚ) (x y : Int) (g : Globals)
    (hd : g.g_TimelineDragging = false)
    (ht : onTimeline (CalcTimelineGeometry (6 + (g.g_Settings.height - 12) + 12)
            g.g_Settings.height g.g_Settings.width glyphH) x y g = false) :
    (onMouseMove now glyphH x y g).g_HoverState
      = controlAt (g.g_Settings.height + 6) x y g := by
  have hz := tabZoneStep_drag now x y g
  have hm := tabZoneStep_media now x y g
  have ht2 := (onTimeline_congr (CalcTimelineGeometry (6 + (g.g_Settings.height - 12) + 12)
      g.g_Settings.height g.g_Settings.width glyphH) x y g _ hm hz.2).trans ht
  have es : 6 + (g.g_Settings.height - 12) + 12 = g.g_Settings.height + 6 := by ring
  unfold onMouseMove
  simp only [hz.1, hz.2, hd, ht2, Bool.false_eq_true, if_false]
  unfold controlAt
  rw [hz.2, es]

theorem controlAt_iff (s x y : Int) (g : Globals) :
    (controlAt s x y g = 1
        ↔ (10 < y ∧ y < g.g_Settings.height - 10) ∧ s - 10 ≤ x ∧ x < s + 14)
      ∧ (controlAt s x y g = 2
        ↔ (10 < y ∧ y < g.g_Settings.height - 10) ∧ s + 14 ≤ x ∧ x < s + 42)
      ∧ (controlAt s x y g = 3
        ↔ (10 < y ∧ y < g.g_Settings.height - 10) ∧ s + 42 ≤ x ∧ x < s + 66)
      ∧ (controlAt s x y g = 0
        ↔ ¬ ((10 < y ∧ y < g.g_Settings.height - 10) ∧ s - 10 ≤ x ∧ x < s + 66))
      ∧ (controlAt s x y g = 0 ∨ controlAt s x y g = 1 ∨ controlAt s x y g = 2
          ∨ controlAt s x y g = 3) := by
  unfold controlAt
  split_ifs <;> refine ⟨?_, ?_, ?_, ?_, ?_⟩ <;> omega

theorem onLButtonUp_control (br : Bridge) (g : Globals) (hd : g.g_TimelineDragging = false) :
    onLButtonUp br g
      = some (g, if g.g_HoverState > 0 then SendMediaCommand g.g_HoverState br g else []) := by
  unfold onLButtonUp
  simp only [hd, Bool.false_eq_true, if_false]
  split <;> rfl


theorem SendMediaCommand_available (cmd : Int) (br : Bridge) (g : Globals)
    (h : SessionAvailable br g) :
    SendMediaCommand cmd br g
      = (if cmd = 1 then [Cmd.skipPrevious] else if cmd = 2 then [Cmd.togglePlayPause]
          else if cmd = 3 then [Cmd.skipNext] else []) := by
  obtain ⟨hm, s, hs⟩ := h
  unfold SendMediaCommand
  simp only [hm, Bool.not_true, Bool.false_eq_true, if_false, hs]

theorem SendMediaCommand_unavailable (cmd : Int) (br : Bridge) (g : Globals)
    (h : ¬ SessionAvailable br g) : SendMediaCommand cmd br g = [] := by
  unfold SendMediaCommand
  by_cases hm : g.g_SessionManager = true
  · simp only [hm, Bool.not_true, Bool.false_eq_true, if_false]
    split
    · rfl
    · rfl
    · rename_i s hs
      exact absurd ⟨hm, s, hs⟩ h
  · simp [hm]

/-- C23, amended: a pointer move that is neither dragging nor on the timeline
sets the hovered control, with `s = height + 6`, to 1 iff `10 < y < height - 10`
and `s - 10 ≤ x < s + 14`, to 2 iff the same y-range and `s + 14 ≤ x < s + 42`,
to 3 iff the same y-range and `s + 42 ≤ x < s + 66`, and to 0 otherwise.  A
release while not dragging leaves the state as it is and, when the session
manager reports a current session, sends exactly the command of the hovered
control (1 skip-previous, 2 toggle play/pause, 3 skip-next); it sends nothing
when the hovered control is 0 or when there is no session. -/
theorem C23_transport_controls (now : Nat) (glyphH : ℚ) (x y : Int) (g : Globals) (br : Bridge) :
    (g.g_TimelineDragging = false →
        onTimeline (CalcTimelineGeometry (6 + (g.g_Settings.height - 12) + 12)
            g.g_Settings.height g.g_Settings.width glyphH) x y g = false →
        ((onMouseMove now glyphH x y g).g_HoverState = 1
            ↔ (10 < y ∧ y < g.g_Settings.height - 10)
                ∧ g.g_Settings.height + 6 - 10 ≤ x ∧ x < g.g_Settings.height + 6 + 14)
          ∧ ((onMouseMove now glyphH x y g).g_HoverState = 2
            ↔ (10 < y ∧ y < g.g_Settings.height - 10)
                ∧ g.g_Settings.height + 6 + 14 ≤ x ∧ x < g.g_Settings.height + 6 + 42)
          ∧ ((onMouseMove now glyphH x y g).g_HoverState = 3
            ↔ (10 < y ∧ y < g.g_Settings.height - 10)
                ∧ g.g_Settings.height + 6 + 42 ≤ x ∧ x < g.g_Settings.height + 6 + 66)
          ∧ ((onMouseMove now glyphH x y g).g_HoverState = 0
            ↔ ¬ ((10 < y ∧ y < g.g_Settings.height - 10)
                ∧ g.g_Settings.height + 6 - 10 ≤ x ∧ x < g.g_Settings.height + 6 + 66)))
      ∧ (g.g_TimelineDragging = false →
          ∃ cmds, onLButtonUp br g = some (g, cmds)
            ∧ (SessionAvailable br g →
                (g.g_HoverState = 1 → cmds = [Cmd.skipPrevious])
                  ∧ (g.g_HoverState = 2 → cmds = [Cmd.togglePlayPause])
                  ∧ (g.g_HoverState = 3 → cmds = [Cmd.skipNext]))
            ∧ (g.g_HoverState = 0 → cmds = [])
            ∧ (¬ SessionAvailable br g → cmds = [])) := by
  constructor
  · intro hd ht
    rw [onMouseMove_control now glyphH x y g hd ht]
    have h := controlAt_iff (g.g_Settings.height + 6) x y g
    exact ⟨h.1, h.2.1, h.2.2.1, h.2.2.2.1⟩
  · intro hd
    refine ⟨_, onLButtonUp_control br g hd, ?_, ?_, ?_⟩
    · intro ha
      refine ⟨?_, ?_, ?_⟩
      · intro h1
        rw [if_pos (by omega), SendMediaCommand_available _ br g ha, h1]
        rfl
      · intro h2
        rw [if_pos (by omega), SendMediaCommand_available _ br g ha, h2]
        rfl
      · intro h3
        rw [if_pos (by omega), SendMediaCommand_available _ br g ha, h3]
        rfl
    · intro h0
      rw [if_neg (by omega)]
    · intro hn
      split
      · exact SendMediaCommand_unavailable _ br g hn
      · rfl

/-- C23, amended, on the cached track with the pointer on Play/Pause and a
playing session: the release sends one toggle command. -/
theorem C23_transport_controls_witness :
    onLButtonUp (bridgeOf (some sessionWithThumb)) hoverPlayGlobals
      = some (hoverPlayGlobals, [Cmd.togglePlayPause]) := by
  obtain ⟨cmds, h1, h2, _, _⟩ :=
    (C23_transport_controls 0 18 0 0 hoverPlayGlobals (bridgeOf (some sessionWithThumb))).2 rfl
  rw [h1, (h2 ⟨rfl, sessionWithThumb, rfl⟩).2.1 rfl]

/-- C23 as stated fails: with the pointer on Play/Pause (hovered control 2) and
no drag in progress, a release while the session manager reports no session
sends no command. -/
theorem C23_counterexample :
    hoverPlayGlobals.g_HoverState = 2 ∧ hoverPlayGlobals.g_TimelineDragging = false
      ∧ onLButtonUp (bridgeOf none) hoverPlayGlobals = some (hoverPlayGlobals, []) := by
  refine ⟨rfl, rfl, ?_⟩
  rw [onLButtonUp_control (bridgeOf none) hoverPlayGlobals rfl, if_pos (by decide),
    SendMediaCommand_unavailable _ _ _ ?_]
  rintro ⟨_, s, hs⟩
  cases hs


/-! ## C24: the panel fields in every reachable state -/

theorem PanelInv_of_view (w : Int) (g g2 : Globals) (h : panelView g2 = panelView g)
    (hi : PanelInv w g) : PanelInv w g2 := by
  unfold panelView at h
  simp only [Prod.mk.injEq] at h
  obtain ⟨h1, h2, h3, h4⟩ := h
  unfold PanelInv at hi ⊢
  rw [h1, h2, h3, h4]
  exact hi

theorem tabZoneStep_view (now : Nat) (x y : Int) (g : Globals) :
    panelView (tabZoneStep now x y g) = panelView g := by
  unfold tabZoneStep
  split
  · split <;> rfl
  · split <;> rfl

theorem onMouseMove_view (now : Nat) (glyphH : ℚ) (x y : Int) (g : Globals) :
    panelView (onMouseMove now glyphH x y g) = panelView g := by
  rw [← tabZoneStep_view now x y g]
  unfold onMouseMove
  simp only []
  split
  · rfl
  · split <;> rfl

theorem onLButtonDown_view (glyphH : ℚ) (x y : Int) (g : Globals) :
    panelView (onLButtonDown glyphH x y g) = panelView g := by
  unfold onLButtonDown
  split
  · simp only []
    split
    · rfl
    · split <;> rfl
  · rfl

theorem onLButtonUp_view (br : Bridge) (g g2 : Globals) (cmds : List Cmd)
    (h : onLButtonUp br g = some (g2, cmds)) : panelView g2 = panelView g := by
  unfold onLButtonUp at h
  split at h
  · split at h
    · split at h
      · cases h
      · cases h
        rfl
    · cases h
      rfl
  · split at h
    · cases h
      rfl
    · cases h
      rfl

theorem UpdateMediaInfo_view (now : Nat) (br : Bridge) (g : Globals) :
    panelView (UpdateMediaInfo now br g).1 = panelView g := by
  unfold UpdateMediaInfo
  simp only []
  split
  · rfl
  · split
    · rfl
    · split
      · rfl
      · rfl
      · split
        · rfl
        · split <;> rfl

theorem DrawMediaPanel_view (width height textW : Int) (textH : ℚ) (g : Globals) :
    panelView (DrawMediaPanel width height textW textH g).1 = panelView g := by
  unfold DrawMediaPanel
  simp only []
  split <;> split <;> rfl


theorem onMouseLeave_view (now : Nat) (g : Globals) :
    panelView (onMouseLeave now g) = panelView g := rfl

theorem onPollTimer_view (now : Nat) (br : Bridge) (g : Globals) :
    panelView (onPollTimer now br g).1 = panelView g := by
  rw [← UpdateMediaInfo_view now br g]
  rfl

theorem onHoverTimer_settings (now : Nat) (g : Globals) :
    (onHoverTimer now g).g_Settings = g.g_Settings
      ∧ (onHoverTimer now g).g_PanelOffsetX = g.g_PanelOffsetX := by
  unfold onHoverTimer
  split
  · simp only []
    split
    · split <;> exact ⟨rfl, rfl⟩
    · exact ⟨rfl, rfl⟩
  · split <;> exact ⟨rfl, rfl⟩

theorem scrollStep_settings (g : Globals) :
    (scrollStep g).g_Settings = g.g_Settings ∧ (scrollStep g).g_PanelOpen = g.g_PanelOpen := by
  unfold scrollStep
  split
  · split
    · exact ⟨rfl, rfl⟩
    · simp only []
      split <;> exact ⟨rfl, rfl⟩
  · exact ⟨rfl, rfl⟩

theorem slideStep_settings (g : Globals) :
    (slideStep g).g_Settings = g.g_Settings ∧ (slideStep g).g_PanelOpen = g.g_PanelOpen := by
  unfold slideStep
  split
  · simp only []
    split <;> exact ⟨rfl, rfl⟩
  · exact ⟨rfl, rfl⟩

theorem onAnimationTimer_settings (g : Globals) :
    (onAnimationTimer g).g_Settings = g.g_Settings
      ∧ (onAnimationTimer g).g_PanelOpen = g.g_PanelOpen := by
  unfold onAnimationTimer
  split
  · have h1 := scrollStep_settings g
    have h2 := slideStep_settings (scrollStep g)
    exact ⟨h2.1.trans h1.1, h2.2.trans h1.2⟩
  · exact ⟨rfl, rfl⟩

theorem onHoverTimer_inv (w : Int) (now : Nat) (g : Globals) (hw : 100 ≤ w)
    (hi : PanelInv w g) : PanelInv w (onHoverTimer now g) := by
  have hs := onHoverTimer_settings now g
  unfold PanelInv at hi ⊢
  obtain ⟨h1, h2, h3, h4, h5⟩ := hi
  rw [hs.1, hs.2]
  cases hz : g.g_HoverTabZone
  · have h := onHoverTimer_inactive now g hz
    rw [h.1, h.2.1]
    exact ⟨h1, h2, h3, h4, h5⟩
  · by_cases he : usub64 now g.g_HoverTimerStart < 3000
    · have h := onHoverTimer_dwelling now g hz he
      rw [h.1, h.2.1]
      exact ⟨h1, h2, h3, h4, h5⟩
    · have h := onHoverTimer_trigger now g hz (by omega)
      rw [h.2.1, h.1, h1]
      cases ho : g.g_PanelOpen
      · refine ⟨rfl, ?_, ?_, h4, h5⟩
        · simp
        · simp
      · refine ⟨rfl, ?_, ?_, h4, h5⟩
        · simp only [Bool.not_true, Bool.false_eq_true, if_false, false_iff]
          omega
        · simp


theorem onAnimationTimer_inv (w : Int) (g : Globals) (hw : 100 ≤ w)
    (hi : PanelInv w g) : PanelInv w (onAnimationTimer g) := by
  have hs := onAnimationTimer_settings g
  have hp := onAnimationTimer_panel g
  unfold PanelInv at hi ⊢
  obtain ⟨h1, h2, h3, h4, h5⟩ := hi
  rw [hs.1, hs.2, hp.1]
  refine ⟨h1, h2, h3, ?_, ?_⟩
  · rcases le_total g.g_PanelOffsetX g.g_PanelTargetOffsetX with hle | hle
    · rw [hp.2.1 hle]
      rcases h3 with h3 | h3 <;> omega
    · rw [hp.2.2 hle]
      rcases h3 with h3 | h3 <;> omega
  · rcases le_total g.g_PanelOffsetX g.g_PanelTargetOffsetX with hle | hle
    · rw [hp.2.1 hle]
      rcases h3 with h3 | h3 <;> omega
    · rw [hp.2.2 hle]
      rcases h3 with h3 | h3 <;> omega

theorem stepUi_inv (w : Int) (e : UiEv) (g g2 : Globals) (hw : 100 ≤ w)
    (hs : stepUi e g = some g2) (hi : PanelInv w g) : PanelInv w g2 := by
  cases e with
  | mouseMove now glyphH x y =>
    cases hs
    exact PanelInv_of_view w g _ (onMouseMove_view now glyphH x y g) hi
  | mouseLeave now =>
    cases hs
    exact PanelInv_of_view w g _ (onMouseLeave_view now g) hi
  | lButtonDown glyphH x y =>
    cases hs
    exact PanelInv_of_view w g _ (onLButtonDown_view glyphH x y g) hi
  | lButtonUp br =>
    have hs : (onLButtonUp br g).map Prod.fst = some g2 := hs
    cases hr : onLButtonUp br g with
    | none =>
      rw [hr] at hs
      cases hs
    | some r =>
      rw [hr] at hs
      cases hs
      exact PanelInv_of_view w g _ (onLButtonUp_view br g r.1 r.2 hr) hi
  | hoverTimer now =>
    cases hs
    exact onHoverTimer_inv w now g hw hi
  | animationTimer =>
    cases hs
    exact onAnimationTimer_inv w g hw hi
  | pollTimer now br =>
    cases hs
    exact PanelInv_of_view w g _ (onPollTimer_view now br g) hi
  | paint width height textW textH =>
    cases hs
    exact PanelInv_of_view w g _ (DrawMediaPanel_view width height textW textH g) hi

theorem runUi_inv (w : Int) (hw : 100 ≤ w) (evs : List UiEv) :
    ∀ g g2 : Globals, runUi evs g = some g2 → PanelInv w g → PanelInv w g2 := by
  induction evs with
  | nil =>
    intro g g2 hr hi
    cases hr
    exact hi
  | cons e rest ih =>
    intro g g2 hr hi
    unfold runUi at hr
    cases hs : stepUi e g with
    | none =>
      rw [hs] at hr
      cases hr
    | some g1 =>
      rw [hs] at hr
      exact ih g1 g2 hr (stepUi_inv w e g g1 hw hs hi)

/-- C24: from any start state with the panel open and both offsets 0, under a
panel width `w ≥ 100`, every state reached by a sequence of window messages
(pointer events, hover-timer and animation ticks, polls and paints) keeps the
width, has the panel open exactly when the target offset is 0, a target offset
of 0 or `-(w - 20)`, and a current offset between `-(w - 20)` and 0; and a
gesture trigger from such a state followed, after further messages that leave
the open flag as the trigger set it, by a second trigger restores the open flag
and the target offset the state had. -/
theorem C24_panel_invariant (g0 : Globals) (evs : List UiEv) (g : Globals)
    (hw : 100 ≤ g0.g_Settings.width)
    (ho : g0.g_PanelOpen = true) (hc : g0.g_PanelOffsetX = 0)
    (ht : g0.g_PanelTargetOffsetX = 0)
    (hr : runUi evs g0 = some g) :
    g.g_Settings.width = g0.g_Settings.width
      ∧ (g.g_PanelOpen = true ↔ g.g_PanelTargetOffsetX = 0)
      ∧ (g.g_PanelTargetOffsetX = 0
          ∨ g.g_PanelTargetOffsetX = -(g0.g_Settings.width - 20))
      ∧ -(g0.g_Settings.width - 20) ≤ g.g_PanelOffsetX
      ∧ g.g_PanelOffsetX ≤ 0
      ∧ ∀ (now1 now2 : Nat) (mid : List UiEv) (g3 : Globals),
          g.g_HoverTabZone = true → 3000 ≤ usub64 now1 g.g_HoverTimerStart →
          runUi mid (onHoverTimer now1 g) = some g3 →
          g3.g_PanelOpen = (onHoverTimer now1 g).g_PanelOpen →
          g3.g_HoverTabZone = true → 3000 ≤ usub64 now2 g3.g_HoverTimerStart →
          (onHoverTimer now1 g).g_PanelOpen = (!g.g_PanelOpen)
            ∧ (onHoverTimer now2 g3).g_PanelOpen = g.g_PanelOpen
            ∧ (onHoverTimer now2 g3).g_PanelTargetOffsetX = g.g_PanelTargetOffsetX := by
  have h0 : PanelInv g0.g_Settings.width g0 := by
    unfold PanelInv
    rw [ho, hc, ht]
    refine ⟨rfl, by simp, Or.inl rfl, by omega, le_refl _⟩
  have hg := runUi_inv _ hw evs g0 g hr h0
  have hg2 := hg
  unfold PanelInv at hg2
  obtain ⟨h1, h2, h3, h4, h5⟩ := hg2
  refine ⟨h1, h2, h3, h4, h5, ?_⟩
  intro now1 now2 mid g3 hz1 he1 hm hop hz2 he2
  have t1 := onHoverTimer_trigger now1 g hz1 he1
  have hg1 := onHoverTimer_inv _ now1 g hw hg
  have hg3 := runUi_inv _ hw mid _ g3 hm hg1
  have t2 := onHoverTimer_trigger now2 g3 hz2 he2
  have hopen : (onHoverTimer now2 g3).g_PanelOpen = g.g_PanelOpen := by
    rw [t2.1, hop, t1.1]
    simp
  refine ⟨t1.1, hopen, ?_⟩
  rw [t2.2.1, hopen, hg3.1]
  cases hb : g.g_PanelOpen
  · have hne : g.g_PanelTargetOffsetX ≠ 0 := fun h => by
      rw [h2.mpr h] at hb
      cases hb
    rcases h3 with h3 | h3
    · exact absurd h3 hne
    · simp [h3]
  · simp [h2.mp hb]


theorem C24_panel_invariant_witness :
    (onMouseMove 0 14 378 50 initialGlobals).g_PanelOpen = true
      ∧ (onHoverTimer 3000 (onMouseMove 0 14 378 50 initialGlobals)).g_PanelOpen = false
      ∧ (onHoverTimer 3000 (onMouseMove 0 14 378 50 initialGlobals)).g_PanelTargetOffsetX
          = -380
      ∧ (onAnimationTimer
            (onHoverTimer 3000 (onMouseMove 0 14 378 50 initialGlobals))).g_PanelOffsetX = -15
      ∧ (onHoverTimer 8000 (onMouseMove 4000 14 378 50 (onAnimationTimer
            (onHoverTimer 3000 (onMouseMove 0 14 378 50 initialGlobals))))).g_PanelOpen = true
      ∧ (onHoverTimer 8000 (onMouseMove 4000 14 378 50 (onAnimationTimer
            (onHoverTimer 3000
              (onMouseMove 0 14 378 50 initialGlobals))))).g_PanelTargetOffsetX = 0 := by
  have h := C24_panel_invariant initialGlobals [UiEv.mouseMove 0 14 378 50]
    (onMouseMove 0 14 378 50 initialGlobals) (by decide) rfl rfl rfl rfl
  have h2 := h.2.2.2.2.2 3000 8000 [UiEv.animationTimer, UiEv.mouseMove 4000 14 378 50]
    (onMouseMove 4000 14 378 50 (onAnimationTimer
      (onHoverTimer 3000 (onMouseMove 0 14 378 50 initialGlobals))))
    (by decide) (by decide) rfl (by decide) (by decide) (by decide)
  have ho : (onMouseMove 0 14 378 50 initialGlobals).g_PanelOpen = true := by decide
  have ht : (onMouseMove 0 14 378 50 initialGlobals).g_PanelTargetOffsetX = 0 := by decide
  refine ⟨ho, ?_, ?_, ?_, ?_, ?_⟩
  · rw [h2.1, ho]
    rfl
  · decide
  · decide
  · rw [h2.2.1, ho]
  · rw [h2.2.2, ht]


/-! ## C25: the hit-test width and the drawn width of the timeline bar -/

theorem CalcTimelineGeometry_bar (panelHeight panelWidth : Int) (glyphH : ℚ) :
    (CalcTimelineGeometry (6 + (panelHeight - 12) + 12) panelHeight panelWidth glyphH).barX
        = panelHeight + 82
      ∧ (CalcTimelineGeometry (6 + (panelHeight - 12) + 12) panelHeight panelWidth glyphH).barW
        = panelWidth - panelHeight - 92 := by
  unfold CalcTimelineGeometry
  simp only []
  constructor <;> ring

theorem drag_ratio (d : Int) (hd : 0 ≤ d) :
    max 0 (min 1 ((d : ℚ) / ((d : ℚ) + 20))) = (d : ℚ) / ((d : ℚ) + 20)
      ∧ (d : ℚ) / ((d : ℚ) + 20) < 1 := by
  have h0 : (0 : ℚ) ≤ (d : ℚ) := by exact_mod_cast hd
  have hpos : (0 : ℚ) < (d : ℚ) + 20 := by linarith
  have hlt : (d : ℚ) / ((d : ℚ) + 20) < 1 := by
    rw [div_lt_one hpos]
    linarith
  have hge : (0 : ℚ) ≤ (d : ℚ) / ((d : ℚ) + 20) := div_nonneg h0 (le_of_lt hpos)
  refine ⟨?_, hlt⟩
  rw [min_eq_right (le_of_lt hlt), max_eq_right hge]

/-- C25: on a panel of width `w` and height `h` with `w - h ≥ 162`, the
geometry the pointer handlers use (`CalcTimelineGeometry` at the handlers'
arguments) puts the bar's left edge at `h + 82` with width `w - h - 92`; every
bar `DrawMediaPanel` draws has its left edge at `h + 82` and width
`w - h - 112`, which is 20 less, and a bar is drawn for a timeline-capable
snapshot when no drag is in progress; and during a drag a pointer at the right
end of the drawn bar, `x = h + 82 + D` with `D = w - h - 112`, stores the drag
progress `D / (D + 20)`, which is below 1 (the `float` quotient taken exactly). -/
theorem C25_timeline_widths (w h textW y : Int) (glyphH textH : ℚ) (now : Nat) (g : Globals)
    (hwid : g.g_Settings.width = w) (hhei : g.g_Settings.height = h) (hwh : 162 ≤ w - h) :
    (CalcTimelineGeometry (6 + (h - 12) + 12) h w glyphH).barX = h + 82
      ∧ (CalcTimelineGeometry (6 + (h - 12) + 12) h w glyphH).barW = w - h - 92
      ∧ (∀ bar, (DrawMediaPanel w h textW textH g).2 = BarResult.drawn bar →
          bar.barX = h + 82 ∧ bar.barW = w - h - 112
            ∧ (CalcTimelineGeometry (6 + (h - 12) + 12) h w glyphH).barX = bar.barX
            ∧ (CalcTimelineGeometry (6 + (h - 12) + 12) h w glyphH).barW = bar.barW + 20)
      ∧ (g.g_MediaState.isSpotify = true → 0 < g.g_MediaState.duration →
          g.g_TimelineDragging = false →
          ∃ bar, (DrawMediaPanel w h textW textH g).2 = BarResult.drawn bar)
      ∧ (g.g_TimelineDragging = true →
          (onMouseMove now glyphH (h + 82 + (w - h - 112)) y g).g_TimelineDragProgress
              = Flt.fin (((w - h - 112 : Int) : ℚ) / (((w - h - 112 : Int) : ℚ) + 20))
            ∧ ((w - h - 112 : Int) : ℚ) / (((w - h - 112 : Int) : ℚ) + 20) < 1) := by
  have hc := CalcTimelineGeometry_bar h w glyphH
  refine ⟨hc.1, hc.2, ?_, ?_, ?_⟩
  · intro bar hb
    have hg := DrawMediaPanel_bar_geometry w h textW textH g bar hb
    have hx : bar.barX = h + 82 := by rw [hg.1]; ring
    have hbw : bar.barW = w - h - 112 := by
      rw [hg.2, if_neg (by omega)]
      ring
    refine ⟨hx, hbw, ?_, ?_⟩
    · rw [hc.1, hx]
    · rw [hc.2, hbw]
      ring
  · intro hsp hdur hdrag
    obtain ⟨bar, hb, _⟩ := DrawMediaPanel_drawn w h textW textH g
      (clampProgress (Flt.div g.g_MediaState.position g.g_MediaState.duration).round64.round32)
      hsp hdur
      (by rw [hdrag]; rfl)
    exact ⟨bar, hb⟩
  · intro hdrag
    have hm := (onMouseMove_drag_progress now glyphH (h + 82 + (w - h - 112)) y g hdrag).1
    rw [hwid, hhei] at hm
    have e1 : h + 82 + (w - h - 112) - (h + 82) = w - h - 112 := by ring
    have e2 : ((w - h - 92 : Int) : ℚ) = ((w - h - 112 : Int) : ℚ) + 20 := by
      push_cast
      ring
    have hr := drag_ratio (w - h - 112) (by omega)
    have hne : ((w - h - 112 : Int) : ℚ) + 20 ≠ 0 := by
      have h0 : (0 : ℚ) ≤ ((w - h - 112 : Int) : ℚ) := by
        have : (0 : Int) ≤ w - h - 112 := by omega
        exact_mod_cast this
      linarith
    rw [e1, e2, clampRel_div _ _ hne, hr.1] at hm
    exact ⟨hm, hr.2⟩

theorem C25_timeline_widths_witness :
    (CalcTimelineGeometry 106 100 400 18).barX = 182
      ∧ (CalcTimelineGeometry 106 100 400 18).barW = 208
      ∧ (∃ bar, (DrawMediaPanel 400 100 60 18 timelineGlobals).2 = BarResult.drawn bar
          ∧ bar.barX = 182 ∧ bar.barW = 188)
      ∧ (onMouseMove 0 18 370 60 hoverDragGlobals).g_TimelineDragProgress
          = Flt.fin (47 / 52) := by
  have h := C25_timeline_widths 400 100 60 60 18 18 0 timelineGlobals rfl rfl (by decide)
  have hd := C25_timeline_widths 400 100 60 60 18 18 0 hoverDragGlobals rfl rfl (by decide)
  obtain ⟨bar, hb⟩ := h.2.2.2.1 rfl (by norm_num [timelineGlobals]) rfl
  have hbar := h.2.2.1 bar hb
  refine ⟨h.1, h.2.1, ⟨bar, hb, ?_, ?_⟩, ?_⟩
  · rw [hbar.1]
    rfl
  · rw [hbar.2.1]
    rfl
  · have e := (hd.2.2.2.2 rfl).1
    have e3 : (100 : Int) + 82 + (400 - 100 - 112) = 370 := by norm_num
    rw [e3] at e
    rw [e]
    norm_num

end MusicWidget
